import Mathlib

/-!
# reference-ril: parsing and state reconciliation

A shallow embedding of `reference-ril.c`.  C strings are lists of characters,
`int` values are mathematical integers, a possibly-NULL `char *` is an
`Option`.  Functions that write through an out-pointer return the written
value next to the C return code.  The members of a struct that is declared
without initialiser are indeterminate until the code stores to them.
-/

namespace ReferenceRil

/-! ## The tokenizer (external collaborator) -/

/-- A tokenizer cursor `char *`: `none` is NULL, `some cs` the characters up to
the terminating NUL. -/
abbrev Cursor := Option (List Char)

/-- The double-quote character. -/
def dquote : Char := Char.ofNat 34

/-- Modelled from the spec: the tokenizer is an external collaborator whose code
is not among the sources.  This is the C library `isspace` it relies on to skip
blanks in front of a field. -/
def isspace (c : Char) : Bool :=
  c = ' ' || c = '\t' || c = '\n' || c = '\r' || c = Char.ofNat 11 || c = Char.ofNat 12

/-- Modelled from the spec: the tokenizer is an external collaborator.  Splits
the text at the first occurrence of the delimiter: the part before it, and the
cursor behind it (NULL when the delimiter does not occur). -/
def strsep (cs : List Char) (delim : Char) : List Char × Cursor :=
  match cs with
  | [] => ([], none)
  | c :: rest =>
    if c = delim then ([], some rest)
    else ((c :: (strsep rest delim).1), (strsep rest delim).2)

/-- Modelled from the spec: the tokenizer is an external collaborator.  Moves
behind the next comma, or to the end of the line when there is none. -/
def skipNextComma (cs : List Char) : List Char :=
  match cs with
  | [] => []
  | c :: rest => if c = ',' then rest else skipNextComma rest

/-- Modelled from the spec: the tokenizer is an external collaborator that does
"positional field extraction over one response line".  The next field: blanks in
front are skipped; a field that opens with a double quote runs to the closing
quote and the cursor moves behind the following comma; any other field runs to
the next comma.  The cursor becomes NULL once the line is exhausted. -/
def nextTok (cs : List Char) : List Char × Cursor :=
  match cs.dropWhile isspace with
  | [] => ([], none)
  | c :: rest =>
    if c = dquote then
      match strsep rest dquote with
      | (tok, none) => (tok, none)
      | (tok, some r) => (tok, some (skipNextComma r))
    else strsep (c :: rest) ','

/-- Modelled from the spec: value of one digit character in the given base, if
it is a digit of that base. -/
def digitVal (base : Nat) (c : Char) : Option Nat :=
  let v : Nat :=
    if '0' ≤ c ∧ c ≤ '9' then c.toNat - '0'.toNat
    else if 'a' ≤ c ∧ c ≤ 'f' then c.toNat - 'a'.toNat + 10
    else if 'A' ≤ c ∧ c ≤ 'F' then c.toNat - 'A'.toNat + 10
    else base
  if v < base then some v else none

/-- Modelled from the spec: reads the longest run of digits of the given base at
the front of the text, most significant digit first; `none` when the text does
not start with a digit. -/
def readDigits (base : Nat) (cs : List Char) : Option Nat :=
  let rec go (acc : Nat) : List Char → Nat
    | [] => acc
    | c :: rest =>
      match digitVal base c with
      | some v => go (acc * base + v) rest
      | none => acc
  match cs with
  | [] => none
  | c :: rest =>
    match digitVal base c with
    | some v => some (go v rest)
    | none => none

/-- Modelled from the spec: the optional `0x` or `0X` in front of a hexadecimal
numeral, which the C library conversion skips when a hexadecimal digit follows. -/
def skipHexPrefix (base : Nat) (cs : List Char) : List Char :=
  match cs with
  | z :: x :: d :: rest =>
    if base = 16 ∧ z = '0' ∧ (x = 'x' ∨ x = 'X') ∧ (digitVal 16 d).isSome then d :: rest
    else cs
  | _ => cs

/-- Modelled from the spec: the numeric conversion behind the "integer" and "hex
integer" accessors (the C library `strtol`): blanks, an optional sign, then
digits; characters behind the digits are ignored; `none` when there is no digit.
The value is the mathematical integer the numeral denotes. -/
def strtol (base : Nat) (cs : List Char) : Option Int :=
  match cs.dropWhile isspace with
  | [] => none
  | c :: rest =>
    if c = '-' then (readDigits base (skipHexPrefix base rest)).map (fun n => - (n : Int))
    else if c = '+' then (readDigits base (skipHexPrefix base rest)).map (fun n => (n : Int))
    else (readDigits base (skipHexPrefix base (c :: rest))).map (fun n => (n : Int))

/-- Modelled from the spec: `at_tok_start` of the external tokenizer: moves the
cursor behind the response prefix, that is behind the first colon; fails when
the line has none. -/
def at_tok_start (line : List Char) : Option Cursor :=
  match line with
  | [] => none
  | c :: rest => if c = ':' then some (some rest) else at_tok_start rest

/-- Modelled from the spec: the "has-more-fields predicate" of the external
tokenizer: the cursor is not NULL and not at the end of the line. -/
def at_tok_hasmore (p : Cursor) : Bool :=
  match p with
  | none => false
  | some [] => false
  | some (_ :: _) => true

/-- Modelled from the spec: the "next integer" accessor of the external
tokenizer, in a given base.  "An extractor call on an exhausted or malformed
line fails": `none` is the negative return code, otherwise the value read and
the advanced cursor. -/
def at_tok_nextint_base (base : Nat) (p : Cursor) : Option (Int × Cursor) :=
  match p with
  | none => none
  | some cs =>
    match strtol base (nextTok cs).1 with
    | none => none
    | some v => some (v, (nextTok cs).2)

/-- Modelled from the spec: the decimal "next integer" accessor. -/
def at_tok_nextint (p : Cursor) : Option (Int × Cursor) := at_tok_nextint_base 10 p

/-- Modelled from the spec: the "hex integer" accessor. -/
def at_tok_nexthexint (p : Cursor) : Option (Int × Cursor) := at_tok_nextint_base 16 p

/-- Modelled from the spec: the "next boolean" accessor: an integer field that
must be 0 or 1. -/
def at_tok_nextbool (p : Cursor) : Option (Bool × Cursor) :=
  match at_tok_nextint p with
  | none => none
  | some (v, q) => if v = 0 then some (false, q) else if v = 1 then some (true, q) else none

/-- Modelled from the spec: the "next quoted string" accessor: the text of the
next field, quotes removed; fails on an exhausted line. -/
def at_tok_nextstr (p : Cursor) : Option (List Char × Cursor) :=
  match p with
  | none => none
  | some cs => some (nextTok cs)

/-! ## Call list lines -/

/-- The call states of `RIL_CallState` (ril.h), in the order of the CLCC codes
0..5 that `clccStateToRILState` maps to them. -/
inductive RIL_CallState
  | ACTIVE | HOLDING | DIALING | ALERTING | INCOMING | WAITING
  deriving DecidableEq, Repr

/-- The fields of `RIL_Call` (ril.h) that the source reads or writes. -/
structure RIL_Call where
  state : RIL_CallState
  index : Int
  toa : Int
  isMpty : Bool
  isMT : Bool
  isVoice : Bool
  number : Option (List Char)
  numberPresentation : Int
  name : Option (List Char)
  namePresentation : Int
  deriving DecidableEq, Repr

/-- A call record after `memset(p_calls, 0, ...)`: every field zero or NULL. -/
def RIL_Call.zero : RIL_Call :=
  { state := .ACTIVE, index := 0, toa := 0, isMpty := false, isMT := false,
    isVoice := false, number := none, numberPresentation := 0, name := none,
    namePresentation := 0 }

/-- The source function `clccStateToRILState`: `none` is the return code -1. -/
def clccStateToRILState (state : Int) : Option RIL_CallState :=
  if state = 0 then some .ACTIVE
  else if state = 1 then some .HOLDING
  else if state = 2 then some .DIALING
  else if state = 3 then some .ALERTING
  else if state = 4 then some .INCOMING
  else if state = 5 then some .WAITING
  else none

/-- The source function `convertCliValidity`. -/
def convertCliValidity (cliValidity : Int) : Int :=
  if cliValidity ≤ 0 ∨ cliValidity > 4 then 0
  else if cliValidity = 2 ∨ cliValidity = 4 then 2
  else cliValidity

/-- The C library `strspn(s, "+0123456789")`: length of the longest prefix of
`s` made of characters of the accept set. -/
def strspn (s : List Char) (accept : List Char) : Nat :=
  (s.takeWhile (fun c => accept.contains c)).length

/-- The accept set `"+0123456789"` of the number check in `callFromCLCCLine`. -/
def numberChars : List Char := "+0123456789".toList

/-- The second optional block of `callFromCLCCLine` (source lines 363-384): the
alpha field, then the priority, then the CLI validity, each read only when the
line has more fields. -/
def callFromCLCCLine_alpha (line : Cursor) (p_call : RIL_Call) : Int × RIL_Call :=
  if at_tok_hasmore line then
    match at_tok_nextstr line with
    | none => (0, p_call)
    | some (_alpha, l1) =>
      if at_tok_hasmore l1 then
        match at_tok_nextint l1 with
        | none => (-1, p_call)
        | some (_priority, l2) =>
          if at_tok_hasmore l2 then
            match at_tok_nextint l2 with
            | none => (-1, p_call)
            | some (cliValidity, _) =>
              (0, { p_call with numberPresentation := convertCliValidity cliValidity })
          else (0, p_call)
      else (0, p_call)
  else (0, p_call)

/-- The source function `callFromCLCCLine`.  The result is the return code (0 or
-1) and the call record as the function leaves it: fields written before a
failure stay written.  The locals `alpha` and `priority` are read and dropped;
the final `uusInfo = NULL` concerns a field that is not part of the record
here. -/
def callFromCLCCLine (line : List Char) (p_call : RIL_Call) : Int × RIL_Call :=
  match at_tok_start line with
  | none => (-1, p_call)
  | some l0 =>
  match at_tok_nextint l0 with
  | none => (-1, p_call)
  | some (index, l1) =>
  let c1 := { p_call with index := index }
  match at_tok_nextbool l1 with
  | none => (-1, c1)
  | some (isMT, l2) =>
  let c2 := { c1 with isMT := isMT }
  match at_tok_nextint l2 with
  | none => (-1, c2)
  | some (state, l3) =>
  match clccStateToRILState state with
  | none => (-1, c2)
  | some st =>
  let c3 := { c2 with state := st }
  match at_tok_nextint l3 with
  | none => (-1, c3)
  | some (mode, l4) =>
  let c4 := { c3 with isVoice := decide (mode = 0) }
  match at_tok_nextbool l4 with
  | none => (-1, c4)
  | some (isMpty, l5) =>
  let c5 := { c4 with isMpty := isMpty }
  if at_tok_hasmore l5 then
    match at_tok_nextstr l5 with
    | none => (0, c5)
    | some (number, l6) =>
      let c6 := { c5 with number := if strspn number numberChars = 0 then none else some number }
      match at_tok_nextint l6 with
      | none => (-1, c6)
      | some (toa, l7) => callFromCLCCLine_alpha l7 { c6 with toa := toa }
  else callFromCLCCLine_alpha l5 c5

/-- The CLCC line of the comment at the head of `callFromCLCCLine`. -/
def clccExampleLine : List Char :=
  "+CLCC: 1,0,2,0,0,\"+18005551212\",145,\"\",2,0".toList

/-- The number field of a CLCC line as `callFromCLCCLine` reaches it: the sixth
field of the payload, present when the line has more fields behind the five
mandatory ones. -/
def clccNumberField (line : List Char) : Option (List Char) :=
  match at_tok_start line with
  | none => none
  | some l0 =>
  match at_tok_nextstr l0 with
  | none => none
  | some (_, l1) =>
  match at_tok_nextstr l1 with
  | none => none
  | some (_, l2) =>
  match at_tok_nextstr l2 with
  | none => none
  | some (_, l3) =>
  match at_tok_nextstr l3 with
  | none => none
  | some (_, l4) =>
  match at_tok_nextstr l4 with
  | none => none
  | some (_, l5) =>
  if at_tok_hasmore l5 then (at_tok_nextstr l5).map (fun r => r.1) else none

/-! ## Memory faults -/

/-- Result of a piece of C code that writes through pointers: either it returns
a value, or it performs an invalid memory access (a write outside an allocated
array, a NULL dereference, the use of an indeterminate pointer), after which its
behaviour is undefined. -/
inductive Run (α : Type)
  | ret (a : α)
  | fault
  deriving DecidableEq, Repr

/-- Sequencing: a fault stops the run. -/
def Run.bind {α β : Type} (r : Run α) (f : α → Run β) : Run β :=
  match r with
  | .ret a => f a
  | .fault => .fault

/-- The assignment `a[i] = v` into an array of `a.length` ints: a fault when the
index is outside the array. -/
def storeInt (a : List Int) (i : Int) (v : Int) : Run (List Int) :=
  if 0 ≤ i ∧ i < a.length then .ret (a.set i.toNat v) else .fault

/-- The read `a[i]` from an array of `a.length` ints: a fault when the index is
outside the array. -/
def loadInt (a : List Int) (i : Int) : Run Int :=
  if 0 ≤ i ∧ i < a.length then .ret (a.getD i.toNat 0) else .fault

/-- The content of a member of a C object with automatic storage: `indeterminate`
as long as nothing has been stored to it (the object was declared without an
initialiser), otherwise the value stored last. -/
inductive Member (α : Type)
  | indeterminate
  | val (a : α)
  deriving DecidableEq, Repr

/-- Reading a member in order to use its value (in a comparison or a test, as
the argument of `free`): a fault when the member is indeterminate. -/
def Member.load {α : Type} (m : Member α) : Run α :=
  match m with
  | .indeterminate => .fault
  | .val a => .ret a

/-- Reading the string a `char *` member points to (`strlen`, `strcpy`,
`sscanf`): a fault when the pointer is indeterminate or NULL. -/
def Member.string (m : Member (Option (List Char))) : Run (List Char) :=
  match m with
  | .val (some s) => .ret s
  | _ => .fault

/-- Whether a member holds a value. -/
def Member.isStored {α : Type} (m : Member α) : Bool :=
  match m with
  | .indeterminate => false
  | .val _ => true

/-- The C library `free` on the content of a `char *` member (NULL is allowed):
a fault when the pointer is indeterminate. -/
def free (m : Member (Option (List Char))) : Run Unit :=
  m.load.bind fun _ => .ret ()

/-! ## Modem technology -/

/-- Modem technology bit `MDM_GSM`. -/
def MDM_GSM : Nat := 0x01
/-- Modem technology bit `MDM_WCDMA`. -/
def MDM_WCDMA : Nat := 0x02
/-- Modem technology bit `MDM_CDMA`. -/
def MDM_CDMA : Nat := 0x04
/-- Modem technology bit `MDM_EVDO`. -/
def MDM_EVDO : Nat := 0x08
/-- Modem technology bit `MDM_LTE`. -/
def MDM_LTE : Nat := 0x10

/-- The struct `ModemInfo`.  `supportedTechs` is a bitmask of technology bits,
kept as a natural number; the other fields are `int`s. -/
structure ModemInfo where
  supportedTechs : Nat
  currentTech : Int
  isMultimode : Int
  preferredNetworkMode : Int
  subscription_source : Int
  deriving DecidableEq, Repr

/-- The table `net2modem`. -/
def net2modem : List Nat :=
  [ MDM_GSM ||| MDM_WCDMA,
    MDM_GSM,
    MDM_WCDMA,
    MDM_GSM ||| MDM_WCDMA,
    MDM_CDMA ||| MDM_EVDO,
    MDM_CDMA,
    MDM_EVDO,
    MDM_GSM ||| MDM_WCDMA ||| MDM_CDMA ||| MDM_EVDO,
    MDM_LTE ||| MDM_CDMA ||| MDM_EVDO,
    MDM_LTE ||| MDM_GSM ||| MDM_WCDMA,
    MDM_LTE ||| MDM_CDMA ||| MDM_EVDO ||| MDM_GSM ||| MDM_WCDMA,
    MDM_LTE ]

/-- The table `net2pmask`. -/
def net2pmask : List Int :=
  [ ((MDM_GSM ||| (MDM_WCDMA <<< 8) : Nat) : Int),
    (MDM_GSM : Int),
    (MDM_WCDMA : Int),
    ((MDM_GSM ||| MDM_WCDMA : Nat) : Int),
    ((MDM_CDMA ||| MDM_EVDO : Nat) : Int),
    (MDM_CDMA : Int),
    (MDM_EVDO : Int),
    ((MDM_GSM ||| MDM_WCDMA ||| MDM_CDMA ||| MDM_EVDO : Nat) : Int),
    ((MDM_LTE ||| MDM_CDMA ||| MDM_EVDO : Nat) : Int),
    ((MDM_LTE ||| MDM_GSM ||| MDM_WCDMA : Nat) : Int),
    ((MDM_LTE ||| MDM_CDMA ||| MDM_EVDO ||| MDM_GSM ||| MDM_WCDMA : Nat) : Int),
    (MDM_LTE : Int) ]

/-- Modelled from the spec: the radio technology codes `RADIO_TECH_*` of ril.h
that the source names; ril.h is not among the sources, so the codes are kept as
an enumeration.  All of them are positive numbers in ril.h. -/
inductive RIL_RadioTechnology
  | GPRS | HSPA | LTE | IS95A | IS95B | RTT_1x | EVDO_0 | EVDO_A | EVDO_B | EHRPD
  deriving DecidableEq, Repr

/-- The source function `techFromModemType`; `none` is the return value -1.  The
switch is on `1 << mdmtype`, which equals a technology bit exactly for
`mdmtype` 0..4 (a shift count outside 0..31 is undefined in C and is taken to
match no case). -/
def techFromModemType (mdmtype : Int) : Option RIL_RadioTechnology :=
  if mdmtype = 2 then some .RTT_1x        -- MDM_CDMA
  else if mdmtype = 3 then some .EVDO_A   -- MDM_EVDO
  else if mdmtype = 0 then some .GPRS     -- MDM_GSM
  else if mdmtype = 1 then some .HSPA     -- MDM_WCDMA
  else if mdmtype = 4 then some .LTE      -- MDM_LTE
  else none

/-- The source function `is3gpp2`, on the value `techFromModemType` returned. -/
def is3gpp2 (radioTech : Option RIL_RadioTechnology) : Bool :=
  match radioTech with
  | some .IS95A | some .IS95B | some .RTT_1x | some .EVDO_0 | some .EVDO_A
  | some .EVDO_B | some .EHRPD => true
  | _ => false

/-! ## Registration state -/

/-- What `parseRegistrationState` hands back through its three out-pointers. -/
structure RegistrationState where
  type : Option RIL_RadioTechnology
  items : Int
  response : List Int
  deriving DecidableEq, Repr

/-- The source function `parseRegistrationState`.  `ret none` is the return code
-1, `ret (some r)` the return code 0 with the three outputs.  `resp` is the
array of `commas + 1` ints that `calloc` returns (the allocation is taken to
succeed); a write past its end is a fault. -/
def parseRegistrationState (currentTech : Int) (str : List Char) :
    Run (Option RegistrationState) :=
  match at_tok_start str with
  | none => .ret none
  | some none => .fault
  | some (some cs) =>
    let line : Cursor := some cs
    let commas : Nat := cs.count ','
    let resp : List Int := List.replicate (commas + 1) 0
    let done (r : List Int) : Run (Option RegistrationState) :=
      .ret (some { type := techFromModemType currentTech, items := commas + 1, response := r })
    match commas with
    | 0 =>
      match at_tok_nextint line with
      | none => .ret none
      | some (v0, _) =>
        (storeInt resp 0 v0).bind fun r0 =>
        (storeInt r0 1 (-1)).bind fun r1 =>
        (storeInt r1 2 (-1)).bind done
    | 1 =>
      match at_tok_nextint line with
      | none => .ret none
      | some (_skip, l1) =>
      match at_tok_nextint l1 with
      | none => .ret none
      | some (v0, _) =>
        (storeInt resp 0 v0).bind fun r0 =>
        (storeInt r0 1 (-1)).bind fun r1 =>
        (storeInt r1 2 (-1)).bind done
    | 2 =>
      match at_tok_nextint line with
      | none => .ret none
      | some (v0, l1) =>
      match at_tok_nexthexint l1 with
      | none => .ret none
      | some (v1, l2) =>
      match at_tok_nexthexint l2 with
      | none => .ret none
      | some (v2, _) =>
        (storeInt resp 0 v0).bind fun r0 =>
        (storeInt r0 1 v1).bind fun r1 =>
        (storeInt r1 2 v2).bind done
    | 3 =>
      match at_tok_nextint line with
      | none => .ret none
      | some (_skip, l1) =>
      match at_tok_nextint l1 with
      | none => .ret none
      | some (v0, l2) =>
      match at_tok_nexthexint l2 with
      | none => .ret none
      | some (v1, l3) =>
      match at_tok_nexthexint l3 with
      | none => .ret none
      | some (v2, _) =>
        (storeInt resp 0 v0).bind fun r0 =>
        (storeInt r0 1 v1).bind fun r1 =>
        (storeInt r1 2 v2).bind done
    | 4 =>
      match at_tok_nextint line with
      | none => .ret none
      | some (_skip, l1) =>
      match at_tok_nextint l1 with
      | none => .ret none
      | some (v0, l2) =>
      match at_tok_nexthexint l2 with
      | none => .ret none
      | some (v1, l3) =>
      match at_tok_nexthexint l3 with
      | none => .ret none
      | some (v2, l4) =>
      match at_tok_nexthexint l4 with
      | none => .ret none
      | some (v3, _) =>
        (storeInt resp 0 v0).bind fun r0 =>
        (storeInt r0 1 v1).bind fun r1 =>
        (storeInt r1 2 v2).bind fun r2 =>
        (storeInt r2 3 v3).bind done
    | _ => .ret none

/-- Field number `i` (from 0) of a tokenizer cursor, read as an integer in the
given base: `i` fields are skipped, the next one is converted. -/
def fieldInt (base : Nat) (i : Nat) (p : Cursor) : Option Int :=
  match i with
  | 0 => (at_tok_nextint_base base p).map (fun r => r.1)
  | n + 1 =>
    match at_tok_nextstr p with
    | none => none
    | some (_, q) => fieldInt base n q

/-! ## Channel, sinks and global state -/

/-- Modelled from the spec: the channel is an external collaborator,
"sendCommand(text) -> (success, intermediateLines[])".  A reply is either a
transport failure (the command could not be sent or timed out: the call returns
a negative code and no response), or a response with the modem's final verdict
(`success` is false when the modem rejected the command) and the intermediate
lines received before it. -/
inductive ATReply
  | failed
  | final (success : Bool) (p_intermediates : List (List Char))
  deriving DecidableEq, Repr

/-- Modelled from the spec: the outcome codes `RIL_E_*` of ril.h that the source
passes to the completion sink; ril.h is not among the sources. -/
inductive RIL_Errno
  | SUCCESS | RADIO_NOT_AVAILABLE | GENERIC_FAILURE | PASSWORD_INCORRECT
  | REQUEST_NOT_SUPPORTED | MODE_NOT_SUPPORTED | SIM_ABSENT
  deriving DecidableEq, Repr

/-- The fields of `RIL_Data_Call_Response_v6` (ril.h) that the source writes.  A
`char *` field is `none` when NULL; every member is indeterminate until the code
stores to it. -/
structure RIL_Data_Call_Response_v6 where
  status : Member Int
  suggestedRetryTime : Member Int
  cid : Member Int
  active : Member Int
  type : Member (Option (List Char))
  ifname : Member (Option (List Char))
  addresses : Member (Option (List Char))
  dnses : Member (Option (List Char))
  gateways : Member (Option (List Char))
  deriving DecidableEq, Repr

/-- A local declared as `RIL_Data_Call_Response_v6 tmp_rp;`, without
initialiser: every member is indeterminate. -/
def RIL_Data_Call_Response_v6.uninitialised : RIL_Data_Call_Response_v6 :=
  { status := .indeterminate, suggestedRetryTime := .indeterminate, cid := .indeterminate,
    active := .indeterminate, type := .indeterminate, ifname := .indeterminate,
    addresses := .indeterminate, dnses := .indeterminate, gateways := .indeterminate }

/-- The typed payload handed to the completion or notification sink. -/
inductive Payload
  | null
  | calls (pp_calls : List RIL_Call)
  | dataCalls (responses : List RIL_Data_Call_Response_v6)
  | dataCall (response : RIL_Data_Call_Response_v6)
  | int (value : Int)
  | strings (responseStr : List (Option (List Char)))
  | tech (value : RIL_RadioTechnology)
  | raw (data : List Int)
  | text (s : List Char)
  | bytes (pdu : List Int)
  deriving DecidableEq, Repr

/-- An argument of the `printf`-style format of a command. -/
inductive Arg
  | int (v : Int)
  | str (s : List Char)
  deriving DecidableEq, Repr

/-- The unsolicited response codes the embedded functions emit. -/
inductive RIL_Unsol
  | DATA_CALL_LIST_CHANGED | RESPONSE_CALL_STATE_CHANGED | VOICE_RADIO_TECH_CHANGED
  | RESPONSE_RADIO_STATE_CHANGED | RESPONSE_SIM_STATUS_CHANGED | NITZ_TIME_RECEIVED
  | CALL_RING | STK_PROACTIVE_COMMAND | RESPONSE_VOICE_NETWORK_STATE_CHANGED
  | RESPONSE_NEW_SMS | RESPONSE_NEW_SMS_STATUS_REPORT | RESPONSE_NEW_BROADCAST_SMS
  | CDMA_SUBSCRIPTION_SOURCE_CHANGED | ENTER_EMERGENCY_CALLBACK_MODE
  | EXIT_EMERGENCY_CALLBACK_MODE | CDMA_PRL_CHANGED | SIGNAL_STRENGTH
  deriving DecidableEq, Repr

/-- The functions the embedded code schedules through `RIL_requestTimedCallback`. -/
inductive Callback
  | sendCallStateChanged | pollSIMState | onDataCallListChanged
  deriving DecidableEq, Repr

/-- What a function does to the outside, in order: an AT command sent on the
channel (its format string and arguments), a completion, a notification, a
scheduled callback, a call to interface configuration with the value it
returned. -/
inductive Event
  | at_send_command (format : String) (args : List Arg)
  | RIL_onRequestComplete (e : RIL_Errno) (response : Payload)
  | RIL_onUnsolicitedResponse (code : RIL_Unsol) (data : Payload)
  | RIL_requestTimedCallback (callback : Callback)
  | configureInterface (ifname addr : Option (List Char)) (ret : Int)
  | deconfigureInterface (ifname : Option (List Char)) (ret : Int)
  deriving DecidableEq, Repr

/-- Whether an event is a completion. -/
def Event.isComplete : Event → Bool
  | .RIL_onRequestComplete _ _ => true
  | _ => false

/-- Whether an event is an AT command. -/
def Event.isCommand : Event → Bool
  | .at_send_command _ _ => true
  | _ => false

/-- The number of completion calls in a trace. -/
def completions (trace : List Event) : Nat := (trace.filter Event.isComplete).length

/-- The struct `CnapInfo`. -/
structure CnapInfo where
  name : List Char
  CNI_validity : Int
  deriving DecidableEq, Repr

/-- An empty caller-name entry: `name[0] = 0`, validity 0. -/
def CnapInfo.empty : CnapInfo := { name := [], CNI_validity := 0 }

/-- The constant `A_MAX_CALL_CONNECTIONS`. -/
def A_MAX_CALL_CONNECTIONS : Nat := 7

/-- The constant `REPOLL_CALLS_COUNT_MAX`. -/
def REPOLL_CALLS_COUNT_MAX : Int := 4

/-- The radio states the source uses. -/
inductive RIL_RadioState
  | OFF | UNAVAILABLE | ON
  deriving DecidableEq, Repr

/-- The compile-time switches of the source. `USE_TI_COMMANDS` also enables
`WORKAROUND_ERRONEOUS_ANSWER` and `WORKAROUND_FAKE_CGEV`. -/
structure Build where
  USE_TI_COMMANDS : Bool
  POLL_CALL_STATE : Bool
  deriving DecidableEq, Repr

/-- The macro `WORKAROUND_ERRONEOUS_ANSWER`, defined exactly under
`USE_TI_COMMANDS`. -/
def Build.WORKAROUND_ERRONEOUS_ANSWER (b : Build) : Bool := b.USE_TI_COMMANDS

/-- The static variables of the source that the embedded functions use. -/
structure Globals where
  sState : RIL_RadioState
  s_closed : Int
  sMdmInfo : ModemInfo
  s_incomingOrWaitingLine : Int
  s_repollCallsCount : Int
  s_expectAnswer : Int
  s_maxDataContexts : Int
  sCnapInfo : CnapInfo
  sCnapInfoList : Fin 7 → CnapInfo

/-- The static initialisers of the source; `sMdmInfo` is what `mainLoop`
allocates. -/
def Globals.init (mdm : ModemInfo) : Globals :=
  { sState := .UNAVAILABLE, s_closed := 0, sMdmInfo := mdm,
    s_incomingOrWaitingLine := -1, s_repollCallsCount := 0, s_expectAnswer := 0,
    s_maxDataContexts := 0, sCnapInfo := CnapInfo.empty,
    sCnapInfoList := fun _ => CnapInfo.empty }

/-- How a request handler ends: it returns, leaving the globals and a trace of
events, or it crashes on an invalid memory access after the events of the
trace. -/
inductive Outcome
  | done (g : Globals) (trace : List Event)
  | crash (trace : List Event)

/-- The trace of an outcome. -/
def Outcome.trace : Outcome → List Event
  | .done _ t => t
  | .crash t => t

/-- A handler that returns has completed its request exactly once (nothing is
said about a run that crashes). -/
def Outcome.onceIfReturns : Outcome → Prop
  | .done _ t => completions t = 1
  | .crash _ => True

/-! ## The call list -/

/-- The local variables of the parse loop of `requestGetCurrentCalls` (source
lines 823-860) together with the statics it writes.  `valid` is
`p_calls[0 .. countValidCalls)`, `slot` is `p_calls[countValidCalls]`, the record
the next line is parsed into. -/
structure ClccLoop where
  valid : List RIL_Call
  slot : RIL_Call
  needRepoll : Bool
  s_incomingOrWaitingLine : Int
  sCnapInfo : CnapInfo
  sCnapInfoList : Fin 7 → CnapInfo

/-- One iteration of the parse loop of `requestGetCurrentCalls`.  A line that
does not parse is skipped, and what it wrote stays in the slot; the caller-name
write at `index - 1` is a fault outside the 7-entry array. -/
def clccLoopBody (b : Build) (st : ClccLoop) (line : List Char) : Run ClccLoop :=
  let r := callFromCLCCLine line st.slot
  if r.1 ≠ 0 then .ret { st with slot := r.2 }
  else
    let call := r.2
    let incomingOrWaiting : Bool :=
      call.state = RIL_CallState.INCOMING || call.state = RIL_CallState.WAITING
    let line1 : Int :=
      if b.WORKAROUND_ERRONEOUS_ANSWER && incomingOrWaiting then call.index
      else st.s_incomingOrWaitingLine
    let needRepoll : Bool :=
      if call.state ≠ RIL_CallState.ACTIVE ∧ call.state ≠ RIL_CallState.HOLDING then true
      else st.needRepoll
    let next (info : CnapInfo) (list : Fin 7 → CnapInfo) : ClccLoop :=
      { valid := st.valid ++ [call], slot := RIL_Call.zero, needRepoll := needRepoll,
        s_incomingOrWaitingLine := line1, sCnapInfo := info, sCnapInfoList := list }
    if incomingOrWaiting ∧
        (st.sCnapInfo.name ≠ [] ∨ (st.sCnapInfo.CNI_validity > 0 ∧ st.sCnapInfo.CNI_validity ≤ 2)) then
      if h : 0 ≤ call.index - 1 ∧ call.index - 1 < 7 then
        .ret (next CnapInfo.empty
          (Function.update st.sCnapInfoList ⟨(call.index - 1).toNat, by omega⟩ st.sCnapInfo))
      else .fault
    else .ret (next st.sCnapInfo st.sCnapInfoList)

/-- The parse loop of `requestGetCurrentCalls` over the intermediate lines. -/
def clccLoop (b : Build) (st : ClccLoop) (lines : List (List Char)) : Run ClccLoop :=
  match lines with
  | [] => .ret st
  | line :: rest => (clccLoopBody b st line).bind fun st1 => clccLoop b st1 rest

/-- The inner search of the fill loop (source lines 866-872): the first `j` with
`p_calls[j].index == i + 1` gets the name and validity of cache slot `i`; the
result is `none` when no call matches (`j >= countValidCalls`). -/
def cnapAttach (calls : List RIL_Call) (i : Nat) (info : CnapInfo) : Option (List RIL_Call) :=
  match calls with
  | [] => none
  | c :: rest =>
    if c.index = (i : Int) + 1 then
      some ({ c with name := some info.name, namePresentation := info.CNI_validity } :: rest)
    else (cnapAttach rest i info).map (fun r => c :: r)

/-- One iteration of the fill loop of `requestGetCurrentCalls` (source lines
863-880) for cache slot `i`. -/
def cnapFillBody (st : List RIL_Call × (Fin 7 → CnapInfo)) (i : Fin 7) :
    List RIL_Call × (Fin 7 → CnapInfo) :=
  let info := st.2 i
  if info.name ≠ [] ∨ info.CNI_validity > 0 then
    match cnapAttach st.1 i.val info with
    | some calls => (calls, st.2)
    | none => (st.1, Function.update st.2 i CnapInfo.empty)
  else st

/-- The fill loop of `requestGetCurrentCalls`, `i` from 0 to 6. -/
def cnapFill (calls : List RIL_Call) (list : Fin 7 → CnapInfo) :
    List RIL_Call × (Fin 7 → CnapInfo) :=
  (List.finRange 7).foldl cnapFillBody (calls, list)

/-- The test of the erroneous-answer workaround (source lines 890-907): the
previous poll had an incoming or waiting line, this one has none, no answer is
expected, and some call at the previous line is now active while the repoll
counter is under its ceiling. -/
def workaroundHit (prevIncomingOrWaitingLine : Int) (s_incomingOrWaitingLine : Int)
    (s_expectAnswer : Int) (s_repollCallsCount : Int) (calls : List RIL_Call) : Bool :=
  decide (prevIncomingOrWaitingLine ≥ 0) && decide (s_incomingOrWaitingLine < 0) &&
  decide (s_expectAnswer = 0) &&
  calls.any (fun c => decide (c.index = prevIncomingOrWaitingLine) &&
    decide (c.state = RIL_CallState.ACTIVE) &&
    decide (s_repollCallsCount < REPOLL_CALLS_COUNT_MAX))

/-- The source function `requestGetCurrentCalls`; `reply` is what the channel
answers to `AT+CLCC`. -/
def requestGetCurrentCalls (b : Build) (g : Globals) (reply : ATReply) : Outcome :=
  let prevIncomingOrWaitingLine := g.s_incomingOrWaitingLine
  let g0 : Globals :=
    if b.WORKAROUND_ERRONEOUS_ANSWER then { g with s_incomingOrWaitingLine := -1 } else g
  let sent := [Event.at_send_command "AT+CLCC" []]
  match reply with
  | .failed => .done g0 (sent ++ [.RIL_onRequestComplete .GENERIC_FAILURE .null])
  | .final false _ => .done g0 (sent ++ [.RIL_onRequestComplete .GENERIC_FAILURE .null])
  | .final true lines =>
    let st0 : ClccLoop :=
      { valid := [], slot := RIL_Call.zero, needRepoll := false,
        s_incomingOrWaitingLine := g0.s_incomingOrWaitingLine,
        sCnapInfo := g0.sCnapInfo, sCnapInfoList := g0.sCnapInfoList }
    match clccLoop b st0 lines with
    | .fault => .crash sent
    | .ret st =>
      let filled := cnapFill st.valid st.sCnapInfoList
      let g1 : Globals :=
        { g0 with s_incomingOrWaitingLine := st.s_incomingOrWaitingLine,
                  sCnapInfo := st.sCnapInfo, sCnapInfoList := filled.2 }
      if b.WORKAROUND_ERRONEOUS_ANSWER &&
          workaroundHit prevIncomingOrWaitingLine g1.s_incomingOrWaitingLine
            g1.s_expectAnswer g1.s_repollCallsCount filled.1 then
        .done { g1 with s_repollCallsCount := g1.s_repollCallsCount + 1 }
          (sent ++ [.RIL_onRequestComplete .GENERIC_FAILURE .null])
      else
        let g2 : Globals :=
          if b.WORKAROUND_ERRONEOUS_ANSWER then
            { g1 with s_expectAnswer := 0, s_repollCallsCount := 0 }
          else g1
        let poll : Bool :=
          if b.POLL_CALL_STATE then decide (filled.1.length ≠ 0) else st.needRepoll
        .done g2 (sent ++ [.RIL_onRequestComplete .SUCCESS (.calls filled.1)] ++
          (if poll then [.RIL_requestTimedCallback .sendCallStateChanged] else []))

/-- The index and state that a CLCC line contributes to the call list: those
`callFromCLCCLine` writes when the line parses; `none` when it does not. -/
def clccIndexState (line : List Char) : Option (Int × RIL_CallState) :=
  let r := callFromCLCCLine line RIL_Call.zero
  if r.1 = 0 then some (r.2.index, r.2.state) else none

/-! ## Data contexts -/

/-- The C format `%d` of an `int`. -/
def fmtDec (v : Int) : List Char :=
  if v < 0 then '-' :: Nat.toDigits 10 v.natAbs else Nat.toDigits 10 v.toNat

/-- Whether the four pointer members that `freeParsedCGCONTRDP` frees all hold a
value. -/
def RIL_Data_Call_Response_v6.pointersStored (r : RIL_Data_Call_Response_v6) : Bool :=
  r.ifname.isStored && r.addresses.isStored && r.gateways.isStored && r.dnses.isStored

/-- The source function `freeParsedCGCONTRDP`: `type` is set to NULL, then
`ifname`, `addresses`, `gateways` and `dnses` are freed and set to NULL, in this
order.  Freeing a member that was never stored to is a fault. -/
def freeParsedCGCONTRDP (response : RIL_Data_Call_Response_v6) :
    Run RIL_Data_Call_Response_v6 :=
  (free response.ifname).bind fun _ =>
  (free response.addresses).bind fun _ =>
  (free response.gateways).bind fun _ =>
  (free response.dnses).bind fun _ =>
  .ret { response with type := .val none, ifname := .val none, addresses := .val none,
                       gateways := .val none, dnses := .val none }

/-- The label `error` of `parseCGCONTRDP`: the record is freed and -1
returned. -/
def parseCGCONTRDP_error (response : RIL_Data_Call_Response_v6) :
    Run (Int × RIL_Data_Call_Response_v6) :=
  (freeParsedCGCONTRDP response).bind fun r => .ret (-1, r)

/-- The source function `parseCGCONTRDP`.  The result is the return code and the
record as the function leaves it; on an early `return 0` the members not yet
reached keep what the record held on entry.  The run faults when the `error`
label frees a member that was never stored to. -/
def parseCGCONTRDP (line : List Char) (response : RIL_Data_Call_Response_v6) :
    Run (Int × RIL_Data_Call_Response_v6) :=
  match at_tok_start line with
  | none => parseCGCONTRDP_error response
  | some l0 =>
  match at_tok_nextint l0 with
  | none => parseCGCONTRDP_error response
  | some (cid, l1) =>
  let r1 := { response with cid := .val cid, status := .val 0, active := .val 2,
                            type := .val (some "IP".toList) }
  match at_tok_nextint l1 with
  | none => parseCGCONTRDP_error r1
  | some (bearer_id, l2) =>
  let r2 := { r1 with ifname := .val (some ("rmnet".toList ++ fmtDec bearer_id)) }
  match at_tok_nextstr l2 with
  | none => parseCGCONTRDP_error r2
  | some (_apn, l3) =>
  if !at_tok_hasmore l3 then .ret (0, r2) else
  match at_tok_nextstr l3 with
  | none => parseCGCONTRDP_error r2
  | some (addr, l4) =>
  let r3 := { r2 with addresses := .val (some addr) }
  if !at_tok_hasmore l4 then .ret (0, r3) else
  match at_tok_nextstr l4 with
  | none => parseCGCONTRDP_error r3
  | some (gw, l5) =>
  let r4 := { r3 with gateways := .val (some gw) }
  if !at_tok_hasmore l5 then .ret (0, r4) else
  match at_tok_nextstr l5 with
  | none => parseCGCONTRDP_error r4
  | some (dns1, l6) =>
  if at_tok_hasmore l6 then
    match at_tok_nextstr l6 with
    | none => parseCGCONTRDP_error r4
    | some (dns2, _) => .ret (0, { r4 with dnses := .val (some (dns1 ++ ' ' :: dns2)) })
  else .ret (0, { r4 with dnses := .val (some dns1) })

/-- The tokenizer calls at the head of the `+CGACT:` loops of
`requestOrSendDataCallList` and `findFreeCid`: the context id and the activation
state of a line; `none` is the jump to `error`. -/
def cgactLine (line : List Char) : Option (Int × Int) :=
  match at_tok_start line with
  | none => none
  | some l0 =>
  match at_tok_nextint l0 with
  | none => none
  | some (cid, l1) =>
  match at_tok_nextint l1 with
  | none => none
  | some (active, _) => some (cid, active)

/-- An entry of `responses` as `requestOrSendDataCallList` initialises it. -/
def dataCallInit : RIL_Data_Call_Response_v6 :=
  { status := .val (-1), suggestedRetryTime := .val (-1), cid := .val (-1), active := .val (-1),
    type := .val (some []), ifname := .val (some []), addresses := .val (some []),
    dnses := .val (some []), gateways := .val (some []) }

/-- The first loop of `requestOrSendDataCallList` (source lines 610-627): entry
`i` of `responses` gets the id and state of line `i`; `none` is the jump to
`error`. -/
def cgactLoop (lines : List (List Char)) : Option (List RIL_Data_Call_Response_v6) :=
  match lines with
  | [] => some []
  | line :: rest =>
    match cgactLine line with
    | none => none
    | some (cid, active) =>
      match cgactLoop rest with
      | none => none
      | some rs => some ({ dataCallInit with cid := .val cid, active := .val active } :: rs)

/-- The macro `COPY_FIELD` of `requestOrSendDataCallList` on one member:
`strlen` and `strcpy` read the string of `tmp_rp`, the entry gets a copy. -/
def COPY_FIELD (f : Member (Option (List Char))) : Run (Member (Option (List Char))) :=
  f.string.bind fun s => .ret (.val (some s))

/-- The copy of a parsed parameter record into the entry it matches (source
lines 657-676): `status`, `type` and `ifname` always, `addresses`, `gateways`
and `dnses` as far as the tests `if (tmp_rp.addresses)`, `if (tmp_rp.gateways)`,
`if (tmp_rp.dnses)` find a non-NULL pointer.  Each test reads the member. -/
def copyFields (r tmp_rp : RIL_Data_Call_Response_v6) : Run RIL_Data_Call_Response_v6 :=
  let r0 := { r with status := tmp_rp.status, type := tmp_rp.type }
  (COPY_FIELD tmp_rp.ifname).bind fun ifname =>
  let r1 := { r0 with ifname := ifname }
  tmp_rp.addresses.load.bind fun a =>
  if a.isSome then
    (COPY_FIELD tmp_rp.addresses).bind fun addresses =>
    let r2 := { r1 with addresses := addresses }
    tmp_rp.gateways.load.bind fun gw =>
    if gw.isSome then
      (COPY_FIELD tmp_rp.gateways).bind fun gateways =>
      let r3 := { r2 with gateways := gateways }
      tmp_rp.dnses.load.bind fun d =>
      if d.isSome then
        (COPY_FIELD tmp_rp.dnses).bind fun dnses => .ret { r3 with dnses := dnses }
      else .ret r3
    else .ret r2
  else .ret r1

/-- The search `for (i = 0; i < n; i++) if (responses[i].cid == tmp_rp.cid)
break;` followed by the copy into entry `i`; `none` when `i >= n`, that is when
no entry has the id. -/
def cgcontrdpMerge (responses : List RIL_Data_Call_Response_v6)
    (tmp_rp : RIL_Data_Call_Response_v6) : Run (Option (List RIL_Data_Call_Response_v6)) :=
  match responses with
  | [] => .ret none
  | r :: rest =>
    r.cid.load.bind fun c =>
    tmp_rp.cid.load.bind fun c1 =>
    if c = c1 then (copyFields r tmp_rp).bind fun r1 => .ret (some (r1 :: rest))
    else (cgcontrdpMerge rest tmp_rp).bind fun o => .ret (o.map (fun rs => r :: rs))

/-- One iteration of the second loop of `requestOrSendDataCallList` (source
lines 641-681) on the pair of `responses` and `tmp_rp`; `none` is the jump to
`error`.  Whether an entry matched or not, the iteration ends with
`freeParsedCGCONTRDP(&tmp_rp)`. -/
def cgcontrdpLoopBody
    (st : List RIL_Data_Call_Response_v6 × RIL_Data_Call_Response_v6) (line : List Char) :
    Run (Option (List RIL_Data_Call_Response_v6 × RIL_Data_Call_Response_v6)) :=
  (parseCGCONTRDP line st.2).bind fun r =>
  if r.1 < 0 then .ret none
  else
    (cgcontrdpMerge st.1 r.2).bind fun m =>
    (freeParsedCGCONTRDP r.2).bind fun tmp =>
    match m with
    | none => .ret (some (st.1, tmp))
    | some rs => .ret (some (rs, tmp))

/-- The second loop of `requestOrSendDataCallList`. -/
def cgcontrdpLoop
    (st : List RIL_Data_Call_Response_v6 × RIL_Data_Call_Response_v6)
    (lines : List (List Char)) :
    Run (Option (List RIL_Data_Call_Response_v6 × RIL_Data_Call_Response_v6)) :=
  match lines with
  | [] => .ret (some st)
  | line :: rest =>
    (cgcontrdpLoopBody st line).bind fun o =>
    match o with
    | none => .ret none
    | some st1 => cgcontrdpLoop st1 rest

/-- Delivery of the data call list: the completion of the request when a token
was given, the DATA_CALL_LIST_CHANGED notification when not. -/
def deliverDataCallList (t : Bool) (e : RIL_Errno) (data : Payload) : Event :=
  if t then .RIL_onRequestComplete e data
  else .RIL_onUnsolicitedResponse .DATA_CALL_LIST_CHANGED data

/-- The source function `requestOrSendDataCallList`.  `t` tells whether a token
was passed, `cgact` and `cgcontrdp` are the channel's replies to the two
commands.  The local `tmp_rp` is declared without initialiser (source line 594):
the second loop starts with every member of it indeterminate, and the run
crashes when the loop reads or frees a pointer member that `parseCGCONTRDP` has
not stored to.  The statics are not touched. -/
def requestOrSendDataCallList (g : Globals) (t : Bool) (cgact cgcontrdp : ATReply) : Outcome :=
  let sent1 := [Event.at_send_command "AT+CGACT?" []]
  match cgact with
  | .failed => .done g (sent1 ++ [deliverDataCallList t .GENERIC_FAILURE .null])
  | .final false _ => .done g (sent1 ++ [deliverDataCallList t .GENERIC_FAILURE .null])
  | .final true lines1 =>
    match cgactLoop lines1 with
    | none => .done g (sent1 ++ [deliverDataCallList t .GENERIC_FAILURE .null])
    | some responses =>
      let sent2 := sent1 ++ [Event.at_send_command "AT+CGCONTRDP" []]
      match cgcontrdp with
      | .failed => .done g (sent2 ++ [deliverDataCallList t .GENERIC_FAILURE .null])
      | .final false _ => .done g (sent2 ++ [deliverDataCallList t .GENERIC_FAILURE .null])
      | .final true lines2 =>
        match cgcontrdpLoop (responses, .uninitialised) lines2 with
        | .fault => .crash sent2
        | .ret none => .done g (sent2 ++ [deliverDataCallList t .GENERIC_FAILURE .null])
        | .ret (some st) =>
          .done g (sent2 ++ [deliverDataCallList t .SUCCESS (.dataCalls st.1)])

/-- The `+CGACT:` loop of `findFreeCid` (source lines 2033-2062) on the array
`dataStates`.  `ret none` is the jump to `error`; otherwise the run ends with
`new_cid` (-1 when no line was inactive) and the array.  The store at `cid - 1`
is a fault outside the array. -/
def findFreeCid_loop (s_maxDataContexts : Int) (dataStates : List Int)
    (lines : List (List Char)) : Run (Option (Int × List Int)) :=
  match lines with
  | [] => .ret (some (-1, dataStates))
  | line :: rest =>
    match cgactLine line with
    | none => .ret none
    | some (cid, state) =>
      if state = 0 then .ret (some (cid, dataStates))
      else if cid > s_maxDataContexts then findFreeCid_loop s_maxDataContexts dataStates rest
      else
        (storeInt dataStates (cid - 1) state).bind fun ds =>
          findFreeCid_loop s_maxDataContexts ds rest

/-- The final scan of `findFreeCid`: the first position of `dataStates` that
holds 0, plus one; -1 when there is none. -/
def firstFreeCid (dataStates : List Int) : Int :=
  match dataStates with
  | [] => -1
  | d :: rest => if d = 0 then 1 else
    (if firstFreeCid rest = -1 then -1 else firstFreeCid rest + 1)

/-- The source function `findFreeCid`, after it has sent `AT+CGACT?`; `reply` is
the channel's reply.  `dataStates` is the zeroed array of `s_maxDataContexts`
ints (the static only grows from 0, so the size is not negative). -/
def findFreeCid (s_maxDataContexts : Int) (reply : ATReply) : Run Int :=
  let dataStates : List Int := List.replicate s_maxDataContexts.toNat 0
  match reply with
  | .failed => .ret (-1)
  | .final false _ => .ret (-1)
  | .final true lines =>
    (findFreeCid_loop s_maxDataContexts dataStates lines).bind fun r =>
      match r with
      | none => .ret (-1)
      | some (new_cid, ds) => if new_cid > -1 then .ret new_cid else .ret (firstFreeCid ds)

/-! ## Technology query and preferred network type -/

/-- The source function `networkModePossible`.  The two size tests compare a
`size_t` (12) with the `int` mode, so a negative mode fails them. -/
def networkModePossible (mdm : ModemInfo) (nm : Int) : Bool :=
  decide (0 ≤ nm ∧ nm < (net2pmask.length : Int)) &&
  decide (0 ≤ nm ∧ nm < (net2modem.length : Int)) &&
  decide ((net2modem.getD nm.toNat 0) &&& mdm.supportedTechs = net2modem.getD nm.toNat 0)

/-- The source function `parse_technology_response`: the return code (-1, 1 or
0), the value stored through `current` and the value stored through
`preferred` (`none` when the function does not reach the store). -/
def parse_technology_response (response : List Char) : Int × Option Int × Option Int :=
  match at_tok_start response with
  | none => (-1, none, none)
  | some p0 =>
    if !at_tok_hasmore p0 then (-1, none, none)
    else
      match at_tok_nextint p0 with
      | none => (-1, none, none)
      | some (ct, p1) =>
        match at_tok_nexthexint p1 with
        | none => (1, some ct, none)
        | some (pt, _) => (0, some ct, some pt)

/-- The source function `query_ctec`, after it has sent `AT+CTEC?`; `reply` is
the channel's reply.  Reading the line of a successful response without
intermediate lines is a NULL dereference. -/
def query_ctec (reply : ATReply) : Run (Int × Option Int × Option Int) :=
  match reply with
  | .failed => .ret (-1, none, none)
  | .final false _ => .ret (-1, none, none)
  | .final true [] => .fault
  | .final true (line :: _) => .ret (parse_technology_response line)

/-- The source function `setRadioTechnology` on `sMdmInfo`: the statics after
it and the notifications it emits.  `tech > 0` holds for every technology code
and fails for -1. -/
def setRadioTechnology (g : Globals) (newtech : Int) : Globals × List Event :=
  let oldtech := g.sMdmInfo.currentTech
  if newtech ≠ oldtech then
    let g1 : Globals := { g with sMdmInfo := { g.sMdmInfo with currentTech := newtech } }
    if techFromModemType newtech ≠ techFromModemType oldtech then
      match techFromModemType g1.sMdmInfo.currentTech with
      | some tech => (g1, [.RIL_onUnsolicitedResponse .VOICE_RADIO_TECH_CHANGED (.tech tech)])
      | none => (g1, [])
    else (g1, [])
  else (g, [])

/-- The C library `strstr(haystack, needle) != NULL`. -/
def strstr (haystack needle : List Char) : Bool :=
  match haystack with
  | [] => needle.isEmpty
  | c :: rest => needle.isPrefixOf (c :: rest) || strstr rest needle

/-- The source function `requestSetPreferredNetworkType`.  `value` is the
requested mode, `ctecQuery` the channel's reply to `AT+CTEC?` and `ctecSet` its
reply to the `AT+CTEC=` command, when that is sent. -/
def requestSetPreferredNetworkType (g : Globals) (value : Int) (ctecQuery ctecSet : ATReply) :
    Outcome :=
  if !networkModePossible g.sMdmInfo value then
    .done g [.RIL_onRequestComplete .MODE_NOT_SUPPORTED .null]
  else
    let preferred : Int := net2pmask.getD value.toNat 0
    let sent1 := [Event.at_send_command "AT+CTEC?" []]
    match query_ctec ctecQuery with
    | .fault => .crash sent1
    | .ret (res, current, _) =>
      if res < 0 then .done g (sent1 ++ [.RIL_onRequestComplete .GENERIC_FAILURE .null])
      else
        let old := g.sMdmInfo.preferredNetworkMode
        if old ≠ preferred then
          let sent2 := sent1 ++
            [Event.at_send_command "AT+CTEC=%d,\"%x\"" [.int (current.getD 0), .int preferred]]
          match ctecSet with
          | .failed => .done g (sent2 ++ [.RIL_onRequestComplete .GENERIC_FAILURE .null])
          | .final false _ =>
            .done g (sent2 ++ [.RIL_onRequestComplete .GENERIC_FAILURE .null])
          | .final true lines =>
            let g1 : Globals :=
              { g with sMdmInfo := { g.sMdmInfo with preferredNetworkMode := value } }
            match lines with
            | [] => .crash sent2
            | line :: _ =>
              if !strstr line "DONE".toList then
                match parse_technology_response line with
                | (_, some current1, _) =>
                  let r := setRadioTechnology g1 current1
                  .done r.1 (sent2 ++ r.2 ++ [.RIL_onRequestComplete .SUCCESS .null])
                | (_, none, _) => .done g1 (sent2 ++ [.RIL_onRequestComplete .SUCCESS .null])
              else .done g1 (sent2 ++ [.RIL_onRequestComplete .SUCCESS .null])
        else .done g (sent1 ++ [.RIL_onRequestComplete .SUCCESS .null])

/-! ## Registration state request -/

/-- The request codes of ril.h that the embedded part of `onRequest` handles by
name; every other code is `other`. -/
inductive Request
  | GET_SIM_STATUS | GET_CURRENT_CALLS | HANGUP_WAITING_OR_BACKGROUND
  | HANGUP_FOREGROUND_RESUME_BACKGROUND | SWITCH_WAITING_OR_HOLDING_AND_ACTIVE | ANSWER
  | UDUB | LAST_CALL_FAIL_CAUSE | VOICE_REGISTRATION_STATE | DATA_REGISTRATION_STATE
  | SMS_ACKNOWLEDGE | DATA_CALL_LIST | OEM_HOOK_RAW | ENTER_SIM_PIN2 | ENTER_SIM_PUK2
  | CHANGE_SIM_PIN2 | SET_PREFERRED_NETWORK_TYPE
  | other (code : Int)
  deriving DecidableEq, Repr

/-- The C format `%x` of a non-negative `int`. -/
def fmtHex (v : Int) : List Char := Nat.toDigits 16 v.toNat

/-- The canned entries 3..14 of the voice registration reply for a 3GPP2
technology (source lines 1606-1617). -/
def cannedVoice3gpp2 : List (Option (List Char)) :=
  [ some "8".toList, some "1".toList, some "123".toList, some "222".toList, some "0".toList,
    some "4".toList, some "65535".toList, some "0".toList, some "1".toList, some "0".toList,
    some "0".toList, some "0".toList ]

/-- The source function `requestRegistrationState`; `reply` is the channel's
reply to `AT+CREG?` resp. `AT+CGREG?`.  The code tests only the return code of
the command before it reads the line of the first intermediate response, a NULL
dereference when the response has none.  A request code other than the two
registration requests goes to `error` (the `assert(0)` is taken to be compiled
out). -/
def requestRegistrationState (g : Globals) (request : Request) (reply : ATReply) : Outcome :=
  let failure := Event.RIL_onRequestComplete .GENERIC_FAILURE .null
  let run (cmd : String) (numElements : Nat) : Outcome :=
    let sent := [Event.at_send_command cmd []]
    match reply with
    | .failed => .done g (sent ++ [failure])
    | .final _ [] => .crash sent
    | .final _ (line :: _) =>
      match parseRegistrationState g.sMdmInfo.currentTech line with
      | .fault => .crash sent
      | .ret none => .done g (sent ++ [failure])
      | .ret (some reg) =>
        let responseStr : List (Option (List Char)) := List.replicate numElements none
        let filled : Run (List (Option (List Char))) :=
          if is3gpp2 reg.type then
            if request = .VOICE_REGISTRATION_STATE then
              .ret (responseStr.take 3 ++ cannedVoice3gpp2)
            else .ret (responseStr.set 3 (some "8".toList))
          else
            (loadInt reg.response 1).bind fun lac =>
            let s1 := if lac ≥ 0 then responseStr.set 1 (some (fmtHex lac)) else responseStr
            (loadInt reg.response 2).bind fun cid =>
            let s2 := if cid ≥ 0 then s1.set 2 (some (fmtHex cid)) else s1
            if reg.items > 3 then
              (loadInt reg.response 3).bind fun nt => .ret (s2.set 3 (some (fmtDec nt)))
            else .ret s2
        match filled with
        | .fault => .crash sent
        | .ret strs =>
          match loadInt reg.response 0 with
          | .fault => .crash sent
          | .ret stat =>
            .done g (sent ++
              [.RIL_onRequestComplete .SUCCESS (.strings (strs.set 0 (some (fmtDec stat))))])
  match request with
  | .VOICE_REGISTRATION_STATE => run "AT+CREG?" 15
  | .DATA_REGISTRATION_STATE => run "AT+CGREG?" 6
  | _ => .done g [failure]

/-! ## Request dispatch -/

/-- The source function `requestSMSAcknowledge`; `ackSuccess` is
`((int *)data)[0]`.  After the SUCCESS completion control falls into the `error`
label. -/
def requestSMSAcknowledge (g : Globals) (ackSuccess : Int) : Outcome :=
  if ackSuccess = 1 then
    .done g [.at_send_command "AT+CNMA=1" [], .RIL_onRequestComplete .SUCCESS .null,
             .RIL_onRequestComplete .GENERIC_FAILURE .null]
  else if ackSuccess = 0 then
    .done g [.at_send_command "AT+CNMA=2" [], .RIL_onRequestComplete .SUCCESS .null,
             .RIL_onRequestComplete .GENERIC_FAILURE .null]
  else .done g [.RIL_onRequestComplete .GENERIC_FAILURE .null]

/-- The source function `requestLastCallFailCause`; `reply` is the channel's
reply to `AT+CEER`.  On a failed command it completes the request and then
jumps to `error`, which completes it again. -/
def requestLastCallFailCause (g : Globals) (reply : ATReply) : Outcome :=
  let sent := [Event.at_send_command "AT+CEER" []]
  let failure := Event.RIL_onRequestComplete .GENERIC_FAILURE .null
  match reply with
  | .failed => .done g (sent ++ [failure, failure])
  | .final false _ => .done g (sent ++ [failure, failure])
  | .final true [] => .crash sent
  | .final true (line :: _) =>
    match at_tok_start line with
    | none => .done g (sent ++ [failure])
    | some l0 =>
      match at_tok_nextint l0 with
      | none => .done g (sent ++ [failure])
      | some (response, _) =>
        .done g (sent ++ [.RIL_onRequestComplete .SUCCESS (.int response)])

/-- What `onRequest` gets from outside besides the request: the request data
(read as ints), the channel's replies to the commands it sends, in order, and
the behaviour of the handlers that are not embedded here. -/
structure RequestEnv where
  data : List Int
  chan : Nat → ATReply
  unmodelled : Globals → Request → Outcome

/-- The source function `onRequest`, for the request codes whose handling is
embedded here; any other code is handed to `env.unmodelled`.  Reading
`((int *)data)[0]` from empty data is a fault. -/
def onRequest (b : Build) (g : Globals) (request : Request) (env : RequestEnv) : Outcome :=
  if g.sState = .UNAVAILABLE ∧ request ≠ .GET_SIM_STATUS then
    .done g [.RIL_onRequestComplete .RADIO_NOT_AVAILABLE .null]
  else
    let setExpectAnswer (g : Globals) : Globals :=
      if b.WORKAROUND_ERRONEOUS_ANSWER then { g with s_expectAnswer := 1 } else g
    match request with
    | .GET_CURRENT_CALLS => requestGetCurrentCalls b g (env.chan 0)
    | .HANGUP_WAITING_OR_BACKGROUND =>
      .done g [.at_send_command "AT+CHLD=0" [], .RIL_onRequestComplete .SUCCESS .null]
    | .HANGUP_FOREGROUND_RESUME_BACKGROUND =>
      .done g [.at_send_command "AT+CHLD=1" [], .RIL_onRequestComplete .SUCCESS .null]
    | .SWITCH_WAITING_OR_HOLDING_AND_ACTIVE =>
      match env.chan 0 with
      | .final true _ =>
        .done (setExpectAnswer g)
          [.at_send_command "AT+CHLD=2" [], .RIL_onRequestComplete .SUCCESS .null]
      | _ =>
        .done (setExpectAnswer g)
          [.at_send_command "AT+CHLD=2" [], .RIL_onRequestComplete .GENERIC_FAILURE .null]
    | .ANSWER =>
      .done (setExpectAnswer g)
        [.at_send_command "ATA" [], .RIL_onRequestComplete .SUCCESS .null]
    | .UDUB => .done g [.at_send_command "ATH" [], .RIL_onRequestComplete .SUCCESS .null]
    | .LAST_CALL_FAIL_CAUSE => requestLastCallFailCause g (env.chan 0)
    | .VOICE_REGISTRATION_STATE => requestRegistrationState g request (env.chan 0)
    | .DATA_REGISTRATION_STATE => requestRegistrationState g request (env.chan 0)
    | .SMS_ACKNOWLEDGE =>
      match env.data with
      | [] => .crash []
      | ackSuccess :: _ => requestSMSAcknowledge g ackSuccess
    | .DATA_CALL_LIST => requestOrSendDataCallList g true (env.chan 0) (env.chan 1)
    | .OEM_HOOK_RAW => .done g [.RIL_onRequestComplete .SUCCESS (.raw env.data)]
    | .ENTER_SIM_PIN2 => .done g []
    | .ENTER_SIM_PUK2 => .done g []
    | .CHANGE_SIM_PIN2 => .done g []
    | .SET_PREFERRED_NETWORK_TYPE =>
      match env.data with
      | [] => .crash []
      | value :: _ => requestSetPreferredNetworkType g value (env.chan 0) (env.chan 1)
    | .GET_SIM_STATUS => env.unmodelled g request
    | .other _ => env.unmodelled g request

/-- The context ids of the activation lines that parse, in order. -/
def cgactIds (lines : List (List Char)) : List Int :=
  lines.filterMap (fun l => (cgactLine l).map Prod.fst)

/-- An activation response with the contexts 1 and 3. -/
def cgactExample : List (List Char) := ["+CGACT: 1,1".toList, "+CGACT: 3,1".toList]

/-- A parameter response with records for the contexts 1, 3 and 5. -/
def cgcontrdpExample : List (List Char) :=
  [ "+CGCONTRDP: 1,5,\"internet\",\"10.0.2.15/24\",\"10.0.2.2\",\"10.0.2.3\"".toList,
    "+CGCONTRDP: 3,6,\"mms\"".toList,
    "+CGCONTRDP: 5,7,\"ims\"".toList ]

/-- A parameter response with records for the contexts 1, 3 and 5 in which the
first record stops after the APN. -/
def cgcontrdpShortExample : List (List Char) :=
  [ "+CGCONTRDP: 1,5,\"internet\"".toList,
    "+CGCONTRDP: 3,6,\"mms\"".toList,
    "+CGCONTRDP: 5,7,\"ims\"".toList ]

/-- A CLCC line whose number field starts with digits and goes on with letters. -/
def clccMixedNumberLine : List Char := "+CLCC: 1,1,4,0,0,\"123abc\",129".toList

/-- A CLCC line with a placeholder in place of the number. -/
def clccPlaceholderLine : List Char := "+CLCC: 1,1,4,0,0,\"NOT AVAILABLE\",128".toList

/-- A build with the TI commands, hence with the erroneous-answer workaround. -/
def tiBuild : Build := { USE_TI_COMMANDS := true, POLL_CALL_STATE := false }

/-- A modem description: GSM, WCDMA and LTE supported, GSM current. -/
def gsmModem : ModemInfo :=
  { supportedTechs := MDM_GSM ||| MDM_WCDMA ||| MDM_LTE, currentTech := 0, isMultimode := 0,
    preferredNetworkMode := 1, subscription_source := 0 }

/-- The statics after a poll that saw an incoming call on line 2, with the
repoll counter at `count`. -/
def afterIncomingOnLine2 (count : Int) : Globals :=
  { Globals.init gsmModem with s_incomingOrWaitingLine := 2, s_repollCallsCount := count }

/-- The statics of a powered-on GSM modem whose cached preferred mask is that of
mode 1 (GSM only). -/
def radioOn : Globals := { Globals.init gsmModem with sState := .ON }

/-- An environment in which every command fails in transport and the request
data is the single int `d`. -/
def deadChannel (d : Int) : RequestEnv :=
  { data := [d], chan := fun _ => .failed, unmodelled := fun g _ => .done g [] }

/-! ## Radio state and SIM status -/

/-- The values of `SIM_Status` that `getSIMStatus` returns. -/
inductive SIM_Status
  | SIM_ABSENT | SIM_NOT_READY | SIM_READY | SIM_PIN | SIM_PUK | SIM_NETWORK_PERSONALIZATION
  deriving DecidableEq, Repr

/-- Modelled from the spec: the numeric error the modem reports with a rejected
command, as the channel's `at_get_cme_error` classifies it for `getSIMStatus`:
"SIM not inserted" or anything else.  For an accepted command the channel
reports success. -/
inductive CmeReported
  | SIM_NOT_INSERTED | other
  deriving DecidableEq, Repr

/-- The source function `getSIMStatus`: the status and the commands it sends.
`cpin` is the channel's reply to `AT+CPIN?`, `cme` the error class of a rejected
command.  Reading the line of an accepted response without intermediate line is
a NULL dereference. -/
def getSIMStatus (sState : RIL_RadioState) (cpin : ATReply) (cme : CmeReported) :
    Run (SIM_Status × List Event) :=
  if sState = .OFF then .ret (.SIM_ABSENT, [])
  else if sState = .UNAVAILABLE then .ret (.SIM_NOT_READY, [])
  else
    let sent := [Event.at_send_command "AT+CPIN?" []]
    match cpin with
    | .failed => .ret (.SIM_NOT_READY, sent)
    | .final false _ =>
      match cme with
      | .SIM_NOT_INSERTED => .ret (.SIM_ABSENT, sent)
      | .other => .ret (.SIM_NOT_READY, sent)
    | .final true [] => .fault
    | .final true (cpinLine :: _) =>
      match at_tok_start cpinLine with
      | none => .ret (.SIM_NOT_READY, sent)
      | some l0 =>
        match at_tok_nextstr l0 with
        | none => .ret (.SIM_NOT_READY, sent)
        | some (cpinResult, _) =>
          if cpinResult = "SIM PIN".toList then .ret (.SIM_PIN, sent)
          else if cpinResult = "SIM PUK".toList then .ret (.SIM_PUK, sent)
          else if cpinResult = "PH-NET PIN".toList then .ret (.SIM_NETWORK_PERSONALIZATION, sent)
          else if cpinResult ≠ "READY".toList then .ret (.SIM_ABSENT, sent)
          else .ret (.SIM_READY, sent)

/-- The source function `onSIMReady`: the two commands it sends. -/
def onSIMReady : List Event :=
  [.at_send_command "AT+CSMS=1" [], .at_send_command "AT+CNMI=1,2,2,1,1" []]

/-- The source function `pollSIMState`: what it emits (it writes no static). -/
def pollSIMState (sState : RIL_RadioState) (cpin : ATReply) (cme : CmeReported) :
    Run (List Event) :=
  if sState ≠ .ON then .ret []
  else
    (getSIMStatus sState cpin cme).bind fun r =>
      match r.1 with
      | .SIM_NOT_READY => .ret (r.2 ++ [.RIL_requestTimedCallback .pollSIMState])
      | .SIM_READY =>
        .ret (r.2 ++ onSIMReady ++
          [.RIL_onUnsolicitedResponse .RESPONSE_SIM_STATUS_CHANGED .null])
      | _ => .ret (r.2 ++ [.RIL_onUnsolicitedResponse .RESPONSE_SIM_STATUS_CHANGED .null])

/-- The source function `onRadioPowerOn`: what it emits. -/
def onRadioPowerOn (b : Build) (sState : RIL_RadioState) (cpin : ATReply) (cme : CmeReported) :
    Run (List Event) :=
  let ti : List Event :=
    if b.USE_TI_COMMANDS then
      [.at_send_command "AT%CPHS=1" [], .at_send_command "AT%CTZV=1" []]
    else []
  (pollSIMState sState cpin cme).bind fun evs => .ret (ti ++ evs)

/-- The source function `setRadioState`.  `cpin` and `cme` are what the channel
answers to the `AT+CPIN?` of the post-power-on initialisation, when that runs. -/
def setRadioState (b : Build) (g : Globals) (newState : RIL_RadioState) (cpin : ATReply)
    (cme : CmeReported) : Outcome :=
  let oldState := g.sState
  let newState1 := if g.s_closed > 0 then RIL_RadioState.UNAVAILABLE else newState
  let g1 : Globals :=
    if g.sState ≠ newState1 ∨ g.s_closed > 0 then { g with sState := newState1 } else g
  if g1.sState ≠ oldState then
    let changed := [Event.RIL_onUnsolicitedResponse .RESPONSE_RADIO_STATE_CHANGED .null]
    if g1.sState = .ON then
      match onRadioPowerOn b g1.sState cpin cme with
      | .fault => .crash changed
      | .ret evs => .done g1 (changed ++ evs)
    else .done g1 changed
  else .done g1 []

/-- A sequence of `setRadioState` calls, each with its requested state and the
channel's answers; a crash ends the sequence. -/
def setRadioStates (b : Build) (g : Globals)
    (calls : List (RIL_RadioState × ATReply × CmeReported)) : Outcome :=
  match calls with
  | [] => .done g []
  | (newState, cpin, cme) :: rest =>
    match setRadioState b g newState cpin cme with
    | .crash t => .crash t
    | .done g1 t =>
      match setRadioStates b g1 rest with
      | .crash t1 => .crash (t ++ t1)
      | .done g2 t1 => .done g2 (t ++ t1)

/-! ## Unsolicited lines -/

/-- Modelled from the spec: the "line-prefix predicate" `strStartsWith` of the
classifier; its code (misc.c) is not among the sources. -/
def strStartsWith (line pfx : List Char) : Bool := pfx.isPrefixOf line

/-- The constant `A_CALL_NAME_MAX_SIZE`. -/
def A_CALL_NAME_MAX_SIZE : Nat := 80

/-- The source function `handleSignalStrength`: `num` integers read one after
the other; `none` is the return code -1. -/
def handleSignalStrength (line : Cursor) (num : Nat) : Option (List Int) :=
  match num with
  | 0 => some []
  | n + 1 =>
    match at_tok_nextint line with
    | none => none
    | some (v, l1) => (handleSignalStrength l1 n).map (fun vs => v :: vs)

/-- One half byte of the `+CBM:` decoding (source lines 4231 and 4233): the
value `(c >= 'a') ? (c - 'a' + 10) : (c - '0')`. -/
def cbmNibble (c : Char) : Int :=
  if c ≥ 'a' then (c.toNat : Int) - ('a'.toNat : Int) + 10
  else (c.toNat : Int) - ('0'.toNat : Int)

/-- The decoding loop of the `+CBM:` branch: byte `i` is
`((hi << 4) & 0xF0) | (lo & 0x0F)` for the characters `2i` and `2i + 1`; a last
unpaired character is not read. -/
def cbmDecode (sms_pdu : List Char) : List Int :=
  match sms_pdu with
  | hi :: lo :: rest => ((cbmNibble hi % 16) * 16 + cbmNibble lo % 16) :: cbmDecode rest
  | _ => []

/-- What `onUnsolicited` gets from outside besides the line: the PDU line that
accompanies an SMS notification (NULL when there is none), the channel's answer
to an `AT+CPIN?`, and the number of ints in `RIL_SignalStrength_v6` (ril.h). -/
structure UnsolEnv where
  sms_pdu : Option (List Char)
  cpin : ATReply
  cme : CmeReported
  signalInts : Nat

/-- The branches of the `if` chain of `onUnsolicited`, in the order of the
source. -/
inductive UnsolKind
  | CTZV | RING | CALL_STATE | CUSATP | CREG | CMT | CDS | CBM | CGEV | CME_ERROR_150
  | CTEC | CCSS | WSOS | WPRL | CFUN | CSQ | CNAP | unmatched
  deriving DecidableEq, Repr

/-- The `if` chain of `onUnsolicited`: the first branch whose prefix test the
line passes.  The `+CME ERROR: 150` test exists under `WORKAROUND_FAKE_CGEV`,
that is under `USE_TI_COMMANDS`. -/
def unsolKind (b : Build) (s : List Char) : UnsolKind :=
  if strStartsWith s "%CTZV:".toList then .CTZV
  else if strStartsWith s "+CRING:".toList || strStartsWith s "RING".toList then .RING
  else if strStartsWith s "NO CARRIER".toList || strStartsWith s "+CCWA".toList
      || strStartsWith s "CALL STATE CHANGED".toList then .CALL_STATE
  else if strStartsWith s "+CUSATP:".toList then .CUSATP
  else if strStartsWith s "+CREG:".toList || strStartsWith s "+CGREG:".toList then .CREG
  else if strStartsWith s "+CMT:".toList then .CMT
  else if strStartsWith s "+CDS:".toList then .CDS
  else if strStartsWith s "+CBM:".toList then .CBM
  else if strStartsWith s "+CGEV:".toList then .CGEV
  else if b.USE_TI_COMMANDS && strStartsWith s "+CME ERROR: 150".toList then .CME_ERROR_150
  else if strStartsWith s "+CTEC: ".toList then .CTEC
  else if strStartsWith s "+CCSS: ".toList then .CCSS
  else if strStartsWith s "+WSOS: ".toList then .WSOS
  else if strStartsWith s "+WPRL: ".toList then .WPRL
  else if strStartsWith s "+CFUN:".toList then .CFUN
  else if strStartsWith s "+CSQ:".toList then .CSQ
  else if strStartsWith s "+CNAP:".toList then .CNAP
  else .unmatched

/-- The `+CTEC: ` branch of `onUnsolicited` (source lines 4252-4269).  The mask
`1 << tech` is one of the five technology bits exactly for `tech` 0..4. -/
def onUnsolicited_CTEC (g : Globals) (s : List Char) : Outcome :=
  match parse_technology_response s with
  | (_, some tech, _) =>
    if tech = 0 ∨ tech = 2 ∨ tech = 3 ∨ tech = 1 ∨ tech = 4 then
      .done (setRadioTechnology g tech).1 (setRadioTechnology g tech).2
    else .done g []
  | (_, none, _) => .done g []

/-- The `+CCSS: ` branch of `onUnsolicited` (source lines 4270-4288). -/
def onUnsolicited_CCSS (g : Globals) (s : List Char) : Outcome :=
  match at_tok_start s with
  | none => .done g []
  | some p =>
    match at_tok_nextint p with
    | none => .done g []
    | some (source, _) =>
      .done { g with sMdmInfo := { g.sMdmInfo with subscription_source := source } }
        [.RIL_onUnsolicitedResponse .CDMA_SUBSCRIPTION_SOURCE_CHANGED (.int source)]

/-- The `+CFUN:` branch of `onUnsolicited` (source lines 4332-4360). -/
def onUnsolicited_CFUN (b : Build) (g : Globals) (s : List Char) (cpin : ATReply)
    (cme : CmeReported) : Outcome :=
  match at_tok_start s with
  | none => .done g []
  | some p =>
    match at_tok_nextint p with
    | none => .done g []
    | some (state, _) =>
      if state = 0 then setRadioState b g .OFF cpin cme
      else if state = 1 then setRadioState b g .ON cpin cme
      else .done g []

/-- The `+CNAP:` branch of `onUnsolicited` (source lines 4379-4415): the name is
copied, cut to 79 characters, only when no validity is pending; otherwise
`len` stays 0 and the stored name becomes empty. -/
def onUnsolicited_CNAP (g : Globals) (s : List Char) : Outcome :=
  match at_tok_start s with
  | none => .done g []
  | some p =>
    match at_tok_nextstr p with
    | none => .done g []
    | some (name, p1) =>
      match at_tok_nextint p1 with
      | none => .done g []
      | some (namePresentation, _) =>
        let len : Nat :=
          if g.sCnapInfo.CNI_validity = 0 then
            (if name.length ≥ A_CALL_NAME_MAX_SIZE then A_CALL_NAME_MAX_SIZE - 1
             else name.length)
          else 0
        let stored : List Char :=
          if g.sCnapInfo.CNI_validity = 0 then name.take len else []
        .done { g with sCnapInfo := { name := stored, CNI_validity := namePresentation } } []

/-- The branches of `onUnsolicited` that only forward a notification or schedule
a callback: what they emit, `none` when reading a NULL `sms_pdu` faults.  The
four branches that write statics or call `setRadioState` are not handled
here. -/
def onUnsolicited_forward (b : Build) (k : UnsolKind) (s : List Char) (env : UnsolEnv) :
    Option (List Event) :=
  let refresh : List Event :=
    if b.USE_TI_COMMANDS then [.RIL_requestTimedCallback .onDataCallListChanged] else []
  match k with
  | .CTZV =>
    match at_tok_start s with
    | none => some []
    | some p =>
      match at_tok_nextstr p with
      | none => some []
      | some (response, _) =>
        some [.RIL_onUnsolicitedResponse .NITZ_TIME_RECEIVED (.text response)]
  | .RING =>
    some [.RIL_onUnsolicitedResponse .CALL_RING .null,
          .RIL_onUnsolicitedResponse .RESPONSE_CALL_STATE_CHANGED .null]
  | .CALL_STATE =>
    some ([.RIL_onUnsolicitedResponse .RESPONSE_CALL_STATE_CHANGED .null] ++ refresh)
  | .CUSATP =>
    match at_tok_start s with
    | none => some []
    | some line =>
      match at_tok_nextstr line with
      | none => some []
      | some (pStkPdu, _) =>
        some [.RIL_onUnsolicitedResponse .STK_PROACTIVE_COMMAND (.text pStkPdu)]
  | .CREG =>
    some ([.RIL_onUnsolicitedResponse .RESPONSE_VOICE_NETWORK_STATE_CHANGED .null] ++ refresh)
  | .CMT => env.sms_pdu.map fun pdu => [.RIL_onUnsolicitedResponse .RESPONSE_NEW_SMS (.text pdu)]
  | .CDS =>
    env.sms_pdu.map fun pdu =>
      [.RIL_onUnsolicitedResponse .RESPONSE_NEW_SMS_STATUS_REPORT (.text pdu)]
  | .CBM =>
    env.sms_pdu.map fun pdu =>
      [.RIL_onUnsolicitedResponse .RESPONSE_NEW_BROADCAST_SMS (.bytes (cbmDecode pdu))]
  | .CGEV => some [.RIL_requestTimedCallback .onDataCallListChanged]
  | .CME_ERROR_150 => some [.RIL_requestTimedCallback .onDataCallListChanged]
  | .WSOS =>
    match at_tok_start s with
    | none => some []
    | some p =>
      match at_tok_nextbool p with
      | none => some []
      | some (state, _) =>
        some [.RIL_onUnsolicitedResponse
          (if state then .ENTER_EMERGENCY_CALLBACK_MODE else .EXIT_EMERGENCY_CALLBACK_MODE)
          .null]
  | .WPRL =>
    match at_tok_start s with
    | none => some []
    | some p =>
      match at_tok_nextint p with
      | none => some []
      | some (version, _) => some [.RIL_onUnsolicitedResponse .CDMA_PRL_CHANGED (.int version)]
  | .CSQ =>
    match at_tok_start s with
    | none => some []
    | some p =>
      match handleSignalStrength p env.signalInts with
      | none => some []
      | some response => some [.RIL_onUnsolicitedResponse .SIGNAL_STRENGTH (.raw response)]
  | _ => some []

/-- The source function `onUnsolicited` on the line `s`.  Memory management
(`strdup`, `free`) is not part of the model. -/
def onUnsolicited (b : Build) (g : Globals) (s : List Char) (env : UnsolEnv) : Outcome :=
  if g.sState = .UNAVAILABLE then .done g []
  else
    match unsolKind b s with
    | .CTEC => onUnsolicited_CTEC g s
    | .CCSS => onUnsolicited_CCSS g s
    | .CFUN => onUnsolicited_CFUN b g s env.cpin env.cme
    | .CNAP => onUnsolicited_CNAP g s
    | k =>
      match onUnsolicited_forward b k s env with
      | none => .crash []
      | some evs => .done g evs

/-! ## Preferred network type query -/

/-- The source function `requestGetPreferredNetworkType`; `ctecQuery` is the
channel's reply to `AT+CTEC?`.  The switch has the cases -1, 1 and 0. -/
def requestGetPreferredNetworkType (g : Globals) (ctecQuery : ATReply) : Outcome :=
  let sent := [Event.at_send_command "AT+CTEC?" []]
  match query_ctec ctecQuery with
  | .fault => .crash sent
  | .ret (res, _, preferred) =>
    if res = -1 ∨ res = 1 then
      .done g (sent ++ [.RIL_onRequestComplete .GENERIC_FAILURE .null])
    else if res = 0 then
      match net2pmask.findIdx? (fun m => decide (preferred.getD 0 = m)) with
      | some i => .done g (sent ++ [.RIL_onRequestComplete .SUCCESS (.int i)])
      | none => .done g (sent ++ [.RIL_onRequestComplete .GENERIC_FAILURE .null])
    else .done g sent

/-! ## Data call setup and teardown -/

/-- What the library calls inside `configureInterface` and
`deconfigureInterface` return: the item count of `sscanf(addr, "%[.0-9]/%d")`
and the return codes of the `ifc_*` functions (0 is success). -/
structure NetEnv where
  sscanf_items : Int
  ifc_init : Int
  ifc_up : Int
  ifc_set_addr : Int
  ifc_set_prefixLength : Int
  ifc_down : Int
  deriving DecidableEq, Repr

/-- The source function `configureInterface`: 0 on success, -1 on failure. -/
def configureInterface (n : NetEnv) : Int :=
  if n.sscanf_items ≠ 2 then -1
  else if n.ifc_init ≠ 0 then -1
  else if n.ifc_up = 0 then
    (if n.ifc_set_addr ≠ 0 ∨ n.ifc_set_prefixLength ≠ 0 then -1 else 0)
  else -1

/-- The source function `deconfigureInterface`: -1 when `ifc_init` fails,
otherwise what `ifc_down` returns. -/
def deconfigureInterface (n : NetEnv) : Int :=
  if n.ifc_init ≠ 0 then -1 else n.ifc_down

/-- How the `/dev/qmi` part of `requestSetupDataCall` goes: the device does not
exist (`open` fails), one of its steps jumps to `error` (a write or read error,
the retries used up, `netcfg` failing), or the link comes up. -/
inductive QmiDevice
  | absent | failed | up
  deriving DecidableEq, Repr

/-- What `requestSetupDataCall` gets from outside: the qmi device, the channel's
replies to the `AT+CGACT?` of `findFreeCid` and to `AT+CGCONTRDP=<cid>` (the
replies to the commands in between are not looked at), the library behaviour for
the two interface calls, and the channel's replies in the
`requestOrSendDataCallList` call that ends the qmi path. -/
structure SetupEnv where
  qmi : QmiDevice
  cgact : ATReply
  cgcontrdp : ATReply
  configure : NetEnv
  deconfigure : NetEnv
  listCgact : ATReply
  listCgcontrdp : ATReply

/-- The source function `requestSetupDataCall`.  `apn` is `data[2]`, `pdp_type`
is `data[6]` when the request carries more than six strings.  The local
`tmp_rp` is declared without initialiser (source line 2163): `parseCGCONTRDP`
gets it with every member indeterminate.  The call of `configureInterface` reads
`tmp_rp.ifname` and, in `sscanf`, the string at `tmp_rp.addresses`; on both
paths after it `freeParsedCGCONTRDP(&tmp_rp)` frees the four pointer members.
The run crashes when one of these is a member that `parseCGCONTRDP` has not
stored to. -/
def requestSetupDataCall (b : Build) (g : Globals) (apn : List Char)
    (pdp_type : Option (List Char)) (env : SetupEnv) : Outcome :=
  let failure := Event.RIL_onRequestComplete .GENERIC_FAILURE .null
  let ti : List Event :=
    if b.USE_TI_COMMANDS then
      [.at_send_command "AT%CPRIM=\"GMM\",\"CONFIG MULTISLOT_CLASS=<10>\"" [],
       .at_send_command "AT%DATA=2,\"UART\",1,,\"SER\",\"UART\",0" []]
    else []
  match env.qmi with
  | .failed => .done g (ti ++ [failure])
  | .up =>
    match requestOrSendDataCallList g true env.listCgact env.listCgcontrdp with
    | .done g1 t => .done g1 (ti ++ t)
    | .crash t => .crash (ti ++ t)
  | .absent =>
    let pdp : List Char := pdp_type.getD "IP".toList
    let sent0 := ti ++ [Event.at_send_command "AT+CGACT?" []]
    match findFreeCid g.s_maxDataContexts env.cgact with
    | .fault => .crash sent0
    | .ret cid =>
      if cid < 0 then .done g (sent0 ++ [failure])
      else
        let sent1 := sent0 ++
          [Event.at_send_command "AT+CGDCONT=%d,\"%s\",\"%s\",,0,0" [.int cid, .str pdp, .str apn],
           .at_send_command "AT+CGQREQ=%d" [.int cid],
           .at_send_command "AT+CGQMIN=%d" [.int cid],
           .at_send_command "AT+CGEREP=1,0" [],
           .at_send_command "AT+CGACT=0,%d" [.int cid],
           .at_send_command "ATD*99***%d#" [.int cid],
           .at_send_command "AT+CGCONTRDP=%d" [.int cid]]
        match env.cgcontrdp with
        | .failed => .done g (sent1 ++ [failure])
        | .final false _ => .done g (sent1 ++ [failure])
        | .final true [] => .crash sent1
        | .final true (line :: _) =>
          match parseCGCONTRDP line .uninitialised with
          | .fault => .crash sent1
          | .ret r =>
          if r.1 < 0 then .done g (sent1 ++ [failure])
          else
            match r.2.ifname.load, r.2.addresses.string with
            | .ret ifname, .ret addr =>
              let ret := configureInterface env.configure
              if ret < 0 then
                let sent2 := sent1 ++
                  [.configureInterface ifname (some addr) ret,
                   .deconfigureInterface ifname (deconfigureInterface env.deconfigure)]
                match freeParsedCGCONTRDP r.2 with
                | .fault => .crash sent2
                | .ret _ => .done g (sent2 ++ [failure])
              else
                let sent2 := sent1 ++
                  [.configureInterface ifname (some addr) ret,
                   .RIL_onRequestComplete .SUCCESS (.dataCall r.2)]
                match freeParsedCGCONTRDP r.2 with
                | .fault => .crash sent2
                | .ret _ => .done g sent2
            | _, _ => .crash sent1

/-- The C library `atoi`: the leading decimal numeral, 0 when there is none. -/
def atoi (s : List Char) : Int := (strtol 10 s).getD 0

/-- The source function `requestDeactivateDataCall`.  `cid` is `data[0]`,
`cgactOff` and `cgdcont` are the channel's replies to the two commands,
`deconfigure` the library behaviour for the interface call. -/
def requestDeactivateDataCall (g : Globals) (cid : List Char) (cgactOff cgdcont : ATReply)
    (deconfigure : NetEnv) : Outcome :=
  let failure := Event.RIL_onRequestComplete .GENERIC_FAILURE .null
  let sent1 := [Event.at_send_command "AT+CGACT=0,%s" [.str cid]]
  match cgactOff with
  | .failed => .done g (sent1 ++ [failure])
  | .final false _ => .done g (sent1 ++ [failure])
  | .final true _ =>
    let sent2 := sent1 ++ [Event.at_send_command "AT+CGDCONT=%s" [.str cid]]
    match cgdcont with
    | .failed => .done g (sent2 ++ [failure])
    | .final false _ => .done g (sent2 ++ [failure])
    | .final true _ =>
      let id := atoi cid - 1
      let ifname := "rmnet".toList ++ fmtDec id
      .done g (sent2 ++
        [.deconfigureInterface (some ifname) (deconfigureInterface deconfigure),
         .RIL_onRequestComplete .SUCCESS .null])

/-! ## Reachable states of the repoll workaround -/

/-- One step of the command context, as far as the three statics of the
erroneous-answer workaround are concerned: a call-list poll with any reply, an
answer request or a switch request (both set the expect-answer flag), or
anything else, which leaves the three statics alone. -/
inductive WorkaroundStep (b : Build) : Globals → Globals → Prop
  | poll (g g1 : Globals) (reply : ATReply) (trace : List Event)
      (h : requestGetCurrentCalls b g reply = .done g1 trace) : WorkaroundStep b g g1
  | answer (g g1 : Globals) (env : RequestEnv) (trace : List Event)
      (h : onRequest b g .ANSWER env = .done g1 trace) : WorkaroundStep b g g1
  | switchCalls (g g1 : Globals) (env : RequestEnv) (trace : List Event)
      (h : onRequest b g .SWITCH_WAITING_OR_HOLDING_AND_ACTIVE env = .done g1 trace) :
      WorkaroundStep b g g1
  | other (g g1 : Globals)
      (hline : g1.s_incomingOrWaitingLine = g.s_incomingOrWaitingLine)
      (hcount : g1.s_repollCallsCount = g.s_repollCallsCount)
      (hexpect : g1.s_expectAnswer = g.s_expectAnswer) : WorkaroundStep b g g1

/-- The states reachable from the static initialisers by such steps. -/
inductive WorkaroundReachable (b : Build) (mdm : ModemInfo) : Globals → Prop
  | init : WorkaroundReachable b mdm (Globals.init mdm)
  | step (g g1 : Globals) (hg : WorkaroundReachable b mdm g) (hs : WorkaroundStep b g g1) :
      WorkaroundReachable b mdm g1

/-! ## Examples and auxiliary notions for the radio, call-list and data claims -/

/-- The statics of a GSM modem whose radio is off. -/
def radioOff : Globals := { Globals.init gsmModem with sState := .OFF }

/-- An unsolicited-line environment in which the SMS PDU line is missing and the
SIM query fails in transport. -/
def quietEnv : UnsolEnv :=
  { sms_pdu := none, cpin := .failed, cme := .other, signalInts := 12 }

/-- A build without the TI commands and without call-state polling. -/
def plainBuild : Build := { USE_TI_COMMANDS := false, POLL_CALL_STATE := false }

/-- The statics an outcome leaves, when the run returns. -/
def Outcome.globals : Outcome → Option Globals
  | .done g _ => some g
  | .crash _ => none

/-- The part of the statics that `onUnsolicited` never writes: the three statics
of the repoll workaround, the caller-name list, the context count, the closed
flag, and the capability fields of `ModemInfo`. -/
def UnsolFrame (g g1 : Globals) : Prop :=
  g1.s_incomingOrWaitingLine = g.s_incomingOrWaitingLine ∧
  g1.s_repollCallsCount = g.s_repollCallsCount ∧
  g1.s_expectAnswer = g.s_expectAnswer ∧
  g1.sCnapInfoList = g.sCnapInfoList ∧
  g1.s_maxDataContexts = g.s_maxDataContexts ∧
  g1.s_closed = g.s_closed ∧
  g1.sMdmInfo.supportedTechs = g.sMdmInfo.supportedTechs ∧
  g1.sMdmInfo.isMultimode = g.sMdmInfo.isMultimode ∧
  g1.sMdmInfo.preferredNetworkMode = g.sMdmInfo.preferredNetworkMode

/-- A caller name is pending in `sCnapInfo`: the test of source lines 851-852,
a non-empty name or a validity of 1 or 2. -/
def CnapInfo.pending (c : CnapInfo) : Prop :=
  c.name ≠ [] ∨ (c.CNI_validity > 0 ∧ c.CNI_validity ≤ 2)

/-- A CLCC line with an incoming call on line 1. -/
def clccIncomingLine : List Char := "+CLCC: 1,1,4,0,0".toList

/-- The statics an outcome leaves; `d` when the run crashed. -/
def Outcome.globalsD (d : Globals) : Outcome → Globals
  | .done g _ => g
  | .crash _ => d

/-- The statics after power on and a poll that sees an incoming call on
line 1. -/
def ringingOnLine1 : Globals :=
  (requestGetCurrentCalls tiBuild radioOn (.final true [clccIncomingLine])).globalsD radioOn

/-- The statics after a further poll, which reports the call on line 1 active
although no answer was requested. -/
def repolledOnce : Globals :=
  (requestGetCurrentCalls tiBuild ringingOnLine1
    (.final true ["+CLCC: 1,1,0,0,0".toList])).globalsD ringingOnLine1

/-- An interface library in which `ifc_init` fails. -/
def failingNet : NetEnv :=
  { sscanf_items := 2, ifc_init := -1, ifc_up := 0, ifc_set_addr := 0,
    ifc_set_prefixLength := 0, ifc_down := 0 }

/-- A setup environment without qmi device: no context is active, the parameter
record of the new context parses, and the interface library fails. -/
def failingSetup : SetupEnv :=
  { qmi := .absent, cgact := .final true [], cgcontrdp := .final true cgcontrdpExample,
    configure := failingNet, deconfigure := failingNet, listCgact := .failed,
    listCgcontrdp := .failed }

/-- The same setup environment with a parameter record that stops after the
address: it carries neither gateway nor DNS. -/
def shortRecordSetup : SetupEnv :=
  { failingSetup with
    cgcontrdp := .final true ["+CGCONTRDP: 1,5,\"internet\",\"10.0.2.15/24\"".toList] }

/-- The statics of a powered-on modem with three data contexts. -/
def radioOnThreeContexts : Globals := { radioOn with s_maxDataContexts := 3 }

/-- The index and state of a call say that it is incoming or waiting. -/
def isIncomingOrWaiting (p : Int × RIL_CallState) : Bool :=
  p.2 = RIL_CallState.INCOMING || p.2 = RIL_CallState.WAITING

/-- The entry of `sCnapInfoList` that belongs to call index `k`, for `k` in
1..7: entry `k - 1`. -/
def cnapSlot (k : Int) : Fin 7 := ⟨(k - 1).toNat % 7, Nat.mod_lt _ (by decide)⟩

/-- Some call of the list has index `k` and carries the name and validity of
`info`. -/
def Named (k : Int) (info : CnapInfo) (calls : List RIL_Call) : Prop :=
  ∃ c ∈ calls, c.index = k ∧ c.name = some info.name ∧
    c.namePresentation = info.CNI_validity

/-- The loop state after a line that parsed into `call` (the local function
`next` of `clccLoopBody`). -/
def clccNext (b : Build) (st : ClccLoop) (call : RIL_Call) (info : CnapInfo)
    (list : Fin 7 → CnapInfo) : ClccLoop :=
  { valid := st.valid ++ [call], slot := RIL_Call.zero,
    needRepoll :=
      if call.state ≠ RIL_CallState.ACTIVE ∧ call.state ≠ RIL_CallState.HOLDING then true
      else st.needRepoll,
    s_incomingOrWaitingLine :=
      if b.WORKAROUND_ERRONEOUS_ANSWER && isIncomingOrWaiting (call.index, call.state)
      then call.index else st.s_incomingOrWaitingLine,
    sCnapInfo := info, sCnapInfoList := list }

/-- The statics of a powered-on modem with the caller name "Bob" (validity 1)
pending. -/
def bobPending : Globals :=
  { radioOn with sCnapInfo := { name := "Bob".toList, CNI_validity := 1 } }

/-- A call-list response with an active call on line 1 and a waiting call on
line 2. -/
def clccActiveAndWaiting : List (List Char) :=
  ["+CLCC: 1,0,0,0,0".toList, "+CLCC: 2,1,5,0,0".toList]

/-! ## Fields of a response line -/

/-- The line has a field number `k` (from 0) behind the cursor: after `k` fields
have been read off, the has-more test of the tokenizer succeeds. -/
def hasField (k : Nat) (p : Cursor) : Bool :=
  match k with
  | 0 => at_tok_hasmore p
  | n + 1 =>
    match at_tok_nextstr p with
    | none => false
    | some (_, q) => hasField n q

/-- Field number `k` (from 0) behind the cursor, read as a string. -/
def fieldStr (k : Nat) (p : Cursor) : Option (List Char) :=
  match k with
  | 0 => (at_tok_nextstr p).map (fun r => r.1)
  | n + 1 =>
    match at_tok_nextstr p with
    | none => none
    | some (_, q) => fieldStr n q

/-- Field number `k` (from 0) behind the cursor, read as a boolean. -/
def fieldBool (k : Nat) (p : Cursor) : Option Bool :=
  match k with
  | 0 => (at_tok_nextbool p).map (fun r => r.1)
  | n + 1 =>
    match at_tok_nextstr p with
    | none => none
    | some (_, q) => fieldBool n q

/-- The number of characters a cursor still has in front of it, plus one; 0 for
the NULL cursor. -/
def cursorLen (p : Cursor) : Nat :=
  match p with
  | none => 0
  | some cs => cs.length + 1

/-! ## Modem probing -/

/-- The loop `while (!at_tok_nextint(&line, &val)) techs |= (1 << val)` of
`query_supported_techs`.  A shift count outside 0..30 is undefined in C and ends
the run.  Every iteration consumes a field, so `fuel` iterations suffice when
`fuel` exceeds the length of the line. -/
def supportedTechsLoop (fuel : Nat) (line : Cursor) (techs : Nat) : Run Nat :=
  match fuel with
  | 0 => .ret techs
  | fuel1 + 1 =>
    match at_tok_nextint line with
    | none => .ret techs
    | some (val, rest) =>
      if 0 ≤ val ∧ val < 31 then supportedTechsLoop fuel1 rest (techs ||| (1 <<< val.toNat))
      else .fault

/-- The source function `query_supported_techs`, after it has sent `AT+CTEC=?`;
`reply` is the channel's reply.  `ret none` is the return code -1, `ret (some
techs)` the return code 0 with the mask stored through `supported`.  Reading the
line of an accepted response without intermediate line is a NULL dereference. -/
def query_supported_techs (reply : ATReply) : Run (Option Nat) :=
  match reply with
  | .failed => .ret none
  | .final false _ => .ret none
  | .final true [] => .fault
  | .final true (line :: _) =>
    match at_tok_start line with
    | none => .ret none
    | some p =>
      if !at_tok_hasmore p then .ret none
      else (supportedTechsLoop (line.length + 1) p 0).bind fun techs => .ret (some techs)

/-- The source function `is_multimode_modem`: its return value and the
`ModemInfo` it leaves.  `ctecQuery` and `ctecTest` are the channel's replies to
`AT+CTEC?` and `AT+CTEC=?`. -/
def is_multimode_modem (mdm : ModemInfo) (ctecQuery ctecTest : ATReply) :
    Run (Int × ModemInfo) :=
  match query_ctec ctecQuery with
  | .fault => .fault
  | .ret (res, tech, preferred) =>
    if res = 0 then
      let mdm1 : ModemInfo :=
        { mdm with currentTech := tech.getD 0, preferredNetworkMode := preferred.getD 0 }
      match query_supported_techs ctecTest with
      | .fault => .fault
      | .ret none => .ret (0, mdm1)
      | .ret (some techs) => .ret (1, { mdm1 with supportedTechs := techs })
    else .ret (0, mdm)

/-- The source function `probeForModemMode`: the `ModemInfo` it leaves.  `wnam`
is the channel's reply to `AT+WNAM`.  The two non-multimode branches store the
constants `MDM_CDMA` and `MDM_GSM` in `currentTech`. -/
def probeForModemMode (info : ModemInfo) (ctecQuery ctecTest wnam : ATReply) :
    Run ModemInfo :=
  (is_multimode_modem info ctecQuery ctecTest).bind fun r =>
    if r.1 ≠ 0 then .ret { r.2 with isMultimode := 1 }
    else
      let info1 : ModemInfo := { r.2 with isMultimode := 0 }
      match wnam with
      | .final true _ =>
        .ret { info1 with supportedTechs := MDM_CDMA ||| MDM_EVDO,
                          currentTech := (MDM_CDMA : Int) }
      | _ =>
        .ret { info1 with supportedTechs := MDM_GSM ||| MDM_WCDMA ||| MDM_LTE,
                          currentTech := (MDM_GSM : Int) }

/-- The macro `TECH_BIT`: `1 << currentTech` (undefined in C for a negative
shift count; taken at the count 0 here, the callers below have a count of 0 or
more). -/
def TECH_BIT (mdm : ModemInfo) : Nat := 1 <<< mdm.currentTech.toNat

/-- The test of the `default` case of `onRequest` (source lines 3393-3398): the
request goes to `onCdmaSpecificRequest` when it holds, to
`onGsmSpecificRequest` when not. -/
def cdmaSpecificRequest (mdm : ModemInfo) : Bool :=
  decide (TECH_BIT mdm &&& (MDM_CDMA ||| MDM_EVDO) ≠ 0)

/-- What `probeForModemMode` leaves for a modem it takes for CDMA. -/
def cdmaProbed (info : ModemInfo) : ModemInfo :=
  { info with isMultimode := 0, supportedTechs := MDM_CDMA ||| MDM_EVDO, currentTech := 4 }

/-- What `probeForModemMode` leaves for a modem it takes for GSM. -/
def gsmProbed (info : ModemInfo) : ModemInfo :=
  { info with isMultimode := 0, supportedTechs := MDM_GSM ||| MDM_WCDMA ||| MDM_LTE,
              currentTech := 1 }

/-! ## Examples and auxiliary notions for the behaviour claims -/

/-- An accepted `AT+CPIN?` reply that reports the SIM ready. -/
def cpinReady : ATReply := .final true ["+CPIN: READY".toList]

/-- An accepted `AT+CTEC?` reply: current technology 0, preferred mask 1. -/
def ctecGsmReply : ATReply := .final true ["+CTEC: 0,1".toList]

/-- An accepted reply to the `AT+CTEC=` set command. -/
def ctecSetDone : ATReply := .final true ["+CTEC: DONE".toList]

/-- The set command `AT+CTEC=0,"201"` for mode 0. -/
def ctecSetMode0 : Event :=
  .at_send_command "AT+CTEC=%d,\"%x\"" [.int 0, .int 513]

/-- The call record after the five mandatory fields of a CLCC line have been
stored. -/
def clccMandatory (p_call : RIL_Call) (index : Int) (isMT : Bool) (st : RIL_CallState)
    (mode : Int) (isMpty : Bool) : RIL_Call :=
  { p_call with index := index, isMT := isMT, state := st, isVoice := decide (mode = 0),
                isMpty := isMpty }

/-- The call record after the number group has been stored: the number, or NULL
when it does not start with a character of `"+0123456789"`, and the type of
address. -/
def clccWithNumber (c : RIL_Call) (number : List Char) (toa : Int) : RIL_Call :=
  { c with number := if strspn number numberChars = 0 then none else some number, toa := toa }

/-- The entry of a caller-name slot is not empty: the test of the fill loop
(source lines 864-865). -/
def CnapInfo.nonEmpty (c : CnapInfo) : Prop := c.name ≠ [] ∨ c.CNI_validity > 0

/-- A `+CGREG:` response with five fields; the network type is the hexadecimal
digit `a`. -/
def cgregFiveFields : List Char := "+CGREG: 1,1,1a,2b,a".toList

/-- A `+CREG:` response with four fields, without network type. -/
def cregFourFields : List Char := "+CREG: 1,1,1a,2b".toList

/-- The entry of the registration reply for lac or cid: the `%x` string of a
value that is not negative, nothing for a negative one (source lines
1623-1626). -/
def hexEntry (v : Int) : Option (List Char) := if v ≥ 0 then some (fmtHex v) else none

/-- The hexadecimal digits that the `+CBM:` decoding handles: 0-9 and a-f. -/
def lowerHexDigits : List Char := "0123456789abcdef".toList

/-- The value of a hexadecimal digit character (0-9, a-f or A-F); 0 for any
other character. -/
def hexValue (c : Char) : Int := (((digitVal 16 c).getD 0 : Nat) : Int)

/-- An unsolicited-line environment whose PDU line is `pdu`. -/
def pduEnv (pdu : List Char) : UnsolEnv :=
  { sms_pdu := some pdu, cpin := .failed, cme := .other, signalInts := 12 }

/-- The invariant of the repoll workaround: the counter is 0, or it is 1 and no
incoming or waiting line is recorded. -/
def RepollInvariant (g : Globals) : Prop :=
  g.s_repollCallsCount = 0 ∨ (g.s_repollCallsCount = 1 ∧ g.s_incomingOrWaitingLine < 0)

/-! ## Theorems -/

/-- C1 (as stated): the claim that the example CLCC line parses to a record with
numberPresentation 2 is false: the record `callFromCLCCLine` returns does not
have numberPresentation 2. -/
theorem C1_example_line_presentation_not_two :
    ¬ ∃ c : RIL_Call, callFromCLCCLine clccExampleLine RIL_Call.zero = (0, c) ∧
        c.index = 1 ∧ c.isMT = false ∧ c.state = RIL_CallState.DIALING ∧ c.isVoice = true ∧
        c.isMpty = false ∧ c.number = some "+18005551212".toList ∧ c.toa = 145 ∧
        c.numberPresentation = 2 := by
  rintro ⟨c, h, -, -, -, -, -, -, -, h2⟩
  have h0 : (callFromCLCCLine clccExampleLine RIL_Call.zero).2.numberPresentation = 0 := by decide
  rw [h] at h0
  simp only at h0
  omega

/-- C1 (amended): on the example CLCC line `callFromCLCCLine` succeeds and
writes index 1, isMT false, state Dialing, isVoice true, isMpty false, number
"+18005551212", toa 145 and numberPresentation 0 (the ninth field, 2, is the
priority; the CLI validity is the tenth field, 0), whatever the record held
before; the name fields are left as they were. -/
theorem C1_example_line_parses (p_call : RIL_Call) :
    callFromCLCCLine clccExampleLine p_call =
      (0, { p_call with index := 1, isMT := false, state := RIL_CallState.DIALING,
                        isVoice := true, isMpty := false,
                        number := some "+18005551212".toList, toa := 145,
                        numberPresentation := 0 }) := by
  rfl

/-- C7: `convertCliValidity` maps 2 and 4 to 2, 1 and 3 to themselves and every
other integer to 0, so its result always lies in 0..3. -/
theorem C7_convertCliValidity_table (v : Int) :
    convertCliValidity v =
        (if v = 2 ∨ v = 4 then 2 else if v = 1 ∨ v = 3 then v else 0) ∧
      0 ≤ convertCliValidity v ∧ convertCliValidity v ≤ 3 := by
  unfold convertCliValidity
  split_ifs <;> omega


theorem callFromCLCCLine_alpha_frame (l : Cursor) (c : RIL_Call) :
    (callFromCLCCLine_alpha l c).2.index = c.index ∧
      (callFromCLCCLine_alpha l c).2.state = c.state := by
  unfold callFromCLCCLine_alpha
  repeat (first | exact ⟨rfl, rfl⟩ | split)

theorem callFromCLCCLine_alpha_rc (l : Cursor) (c d : RIL_Call) :
    (callFromCLCCLine_alpha l c).1 = (callFromCLCCLine_alpha l d).1 := by
  unfold callFromCLCCLine_alpha
  cases at_tok_hasmore l <;> simp only [Bool.false_eq_true, if_false, if_true]
  cases at_tok_nextstr l with
  | none => rfl
  | some r =>
    obtain ⟨a, l1⟩ := r
    simp only
    cases at_tok_hasmore l1 <;> simp only [Bool.false_eq_true, if_false, if_true]
    cases at_tok_nextint l1 with
    | none => rfl
    | some r =>
      obtain ⟨a, l2⟩ := r
      simp only
      cases at_tok_hasmore l2 <;> simp only [Bool.false_eq_true, if_false, if_true]
      cases at_tok_nextint l2 with
      | none => rfl
      | some r => rfl

/-- The return code of `callFromCLCCLine`, and on success the index and state it
writes, do not depend on what the record held before. -/
theorem callFromCLCCLine_frame (line : List Char) (p q : RIL_Call) :
    (callFromCLCCLine line p).1 = (callFromCLCCLine line q).1 ∧
    ((callFromCLCCLine line p).1 = 0 →
      (callFromCLCCLine line p).2.index = (callFromCLCCLine line q).2.index ∧
      (callFromCLCCLine line p).2.state = (callFromCLCCLine line q).2.state) := by
  unfold callFromCLCCLine
  cases at_tok_start line with
  | none => simp
  | some l0 =>
  simp only
  cases at_tok_nextint l0 with
  | none => simp
  | some r1 =>
  obtain ⟨index, l1⟩ := r1
  simp only
  cases at_tok_nextbool l1 with
  | none => simp
  | some r2 =>
  obtain ⟨isMT, l2⟩ := r2
  simp only
  cases at_tok_nextint l2 with
  | none => simp
  | some r3 =>
  obtain ⟨state, l3⟩ := r3
  simp only
  cases clccStateToRILState state with
  | none => simp
  | some st =>
  simp only
  cases at_tok_nextint l3 with
  | none => simp
  | some r4 =>
  obtain ⟨mode, l4⟩ := r4
  simp only
  cases at_tok_nextbool l4 with
  | none => simp
  | some r5 =>
  obtain ⟨isMpty, l5⟩ := r5
  simp only
  cases at_tok_hasmore l5 with
  | false =>
    simp only [Bool.false_eq_true, if_false]
    refine ⟨callFromCLCCLine_alpha_rc _ _ _, fun _ => ?_⟩
    simp [callFromCLCCLine_alpha_frame]
  | true =>
    simp only [if_true]
    cases at_tok_nextstr l5 with
    | none => simp
    | some r6 =>
    obtain ⟨number, l6⟩ := r6
    simp only
    cases at_tok_nextint l6 with
    | none => simp
    | some r7 =>
    obtain ⟨toa, l7⟩ := r7
    simp only
    refine ⟨callFromCLCCLine_alpha_rc _ _ _, fun _ => ?_⟩
    simp [callFromCLCCLine_alpha_frame]


theorem clccLoopBody_quiet (b : Build) (st : ClccLoop) (line : List Char)
    (hq : ∀ i s, clccIndexState line = some (i, s) →
      s ≠ RIL_CallState.INCOMING ∧ s ≠ RIL_CallState.WAITING) :
    ∃ st1, clccLoopBody b st line = .ret st1 ∧
      st1.valid.map (fun c => (c.index, c.state)) =
        st.valid.map (fun c => (c.index, c.state)) ++ (clccIndexState line).toList ∧
      st1.s_incomingOrWaitingLine = st.s_incomingOrWaitingLine ∧
      st1.sCnapInfo = st.sCnapInfo ∧ st1.sCnapInfoList = st.sCnapInfoList := by
  have hf := callFromCLCCLine_frame line st.slot RIL_Call.zero
  unfold clccLoopBody
  by_cases hrc : (callFromCLCCLine line st.slot).1 = 0
  · have hz : (callFromCLCCLine line RIL_Call.zero).1 = 0 := by rw [← hf.1]; exact hrc
    have his : clccIndexState line =
        some ((callFromCLCCLine line st.slot).2.index, (callFromCLCCLine line st.slot).2.state) := by
      simp [clccIndexState, hz, (hf.2 hrc).1, (hf.2 hrc).2]
    have hs := hq _ _ his
    simp [hrc, his, hs.1, hs.2]
  · have hz : ¬ (callFromCLCCLine line RIL_Call.zero).1 = 0 := by rw [← hf.1]; exact hrc
    simp [hrc, clccIndexState, hz]

theorem clccLoop_quiet (b : Build) (lines : List (List Char))
    (hq : ∀ line ∈ lines, ∀ i s, clccIndexState line = some (i, s) →
      s ≠ RIL_CallState.INCOMING ∧ s ≠ RIL_CallState.WAITING) (st : ClccLoop) :
    ∃ st1, clccLoop b st lines = .ret st1 ∧
      st1.valid.map (fun c => (c.index, c.state)) =
        st.valid.map (fun c => (c.index, c.state)) ++ lines.filterMap clccIndexState ∧
      st1.s_incomingOrWaitingLine = st.s_incomingOrWaitingLine ∧
      st1.sCnapInfo = st.sCnapInfo ∧ st1.sCnapInfoList = st.sCnapInfoList := by
  induction lines generalizing st with
  | nil => exact ⟨st, by simp [clccLoop]⟩
  | cons line rest ih =>
    obtain ⟨st1, h1, hv1, hl1, hc1, hcl1⟩ :=
      clccLoopBody_quiet b st line (hq line (List.mem_cons_self _ _))
    obtain ⟨st2, h2, hv2, hl2, hc2, hcl2⟩ :=
      ih (fun l hl => hq l (List.mem_cons_of_mem _ hl)) st1
    refine ⟨st2, ?_, ?_, ?_, ?_, ?_⟩
    · simp [clccLoop, h1, Run.bind, h2]
    · rw [hv2, hv1]
      cases h : clccIndexState line <;> simp [List.filterMap_cons, h]
    · rw [hl2, hl1]
    · rw [hc2, hc1]
    · rw [hcl2, hcl1]

theorem cnapAttach_frame (calls : List RIL_Call) (i : Nat) (info : CnapInfo)
    (calls1 : List RIL_Call) (h : cnapAttach calls i info = some calls1) :
    calls1.map (fun c => (c.index, c.state)) = calls.map (fun c => (c.index, c.state)) := by
  induction calls generalizing calls1 with
  | nil => simp [cnapAttach] at h
  | cons c rest ih =>
    unfold cnapAttach at h
    split_ifs at h with hc
    · simp only [Option.some.injEq] at h
      subst h
      simp
    · cases hr : cnapAttach rest i info with
      | none => simp [hr] at h
      | some r =>
        simp only [hr, Option.map_some', Option.some.injEq] at h
        subst h
        simp [ih r hr]

theorem cnapFillBody_frame (st : List RIL_Call × (Fin 7 → CnapInfo)) (i : Fin 7) :
    (cnapFillBody st i).1.map (fun c => (c.index, c.state)) =
      st.1.map (fun c => (c.index, c.state)) := by
  unfold cnapFillBody
  simp only
  split_ifs
  · cases h : cnapAttach st.1 i.val (st.2 i) with
    | none => rfl
    | some r => exact cnapAttach_frame _ _ _ _ h
  · rfl

theorem cnapFill_frame (calls : List RIL_Call) (list : Fin 7 → CnapInfo) :
    (cnapFill calls list).1.map (fun c => (c.index, c.state)) =
      calls.map (fun c => (c.index, c.state)) := by
  unfold cnapFill
  generalize List.finRange 7 = is
  generalize hst : (calls, list) = st
  have : calls = st.1 := by rw [← hst]
  rw [this]
  clear this hst
  induction is generalizing st with
  | nil => rfl
  | cons i rest ih =>
    simp only [List.foldl_cons]
    rw [ih, cnapFillBody_frame]

theorem workaroundHit_map (prev cur expect count : Int) (calls : List RIL_Call) :
    workaroundHit prev cur expect count calls =
      (decide (prev ≥ 0) && decide (cur < 0) && decide (expect = 0) &&
        (calls.map (fun c => (c.index, c.state))).any (fun p => decide (p.1 = prev) &&
          decide (p.2 = RIL_CallState.ACTIVE) && decide (count < REPOLL_CALLS_COUNT_MAX))) := by
  unfold workaroundHit
  congr 1
  induction calls with
  | nil => rfl
  | cons c rest ih => simp [List.any_cons, ih]


/-- C3: with the erroneous-answer workaround enabled, if the previous poll left
line `k` (`k ≥ 0`) recorded as incoming or waiting, no answer is expected, and
the AT+CLCC response has no incoming or waiting call but an active call with
index `k`, then with the repoll counter below 4 `requestGetCurrentCalls` sends
AT+CLCC, completes once with GENERIC_FAILURE and increments the counter; with the
counter at 4 it completes once with SUCCESS, carrying one record per line that
parsed, in order, among them the active call with index `k`. -/
theorem C3_repoll_workaround (b : Build) (hb : b.WORKAROUND_ERRONEOUS_ANSWER = true)
    (g : Globals) (lines : List (List Char)) (k : Int) (hk : 0 ≤ k)
    (hprev : g.s_incomingOrWaitingLine = k) (hexp : g.s_expectAnswer = 0)
    (hnone : ∀ line ∈ lines, ∀ i s, clccIndexState line = some (i, s) →
      s ≠ RIL_CallState.INCOMING ∧ s ≠ RIL_CallState.WAITING)
    (hact : ∃ line ∈ lines, clccIndexState line = some (k, RIL_CallState.ACTIVE)) :
    (g.s_repollCallsCount < 4 →
      ∃ g1, requestGetCurrentCalls b g (.final true lines) =
          .done g1 [.at_send_command "AT+CLCC" [],
                    .RIL_onRequestComplete .GENERIC_FAILURE .null] ∧
        g1.s_repollCallsCount = g.s_repollCallsCount + 1) ∧
    (g.s_repollCallsCount = 4 →
      ∃ g1 calls rest, requestGetCurrentCalls b g (.final true lines) =
          .done g1 ([.at_send_command "AT+CLCC" [],
                     .RIL_onRequestComplete .SUCCESS (.calls calls)] ++ rest) ∧
        completions rest = 0 ∧
        calls.map (fun c => (c.index, c.state)) = lines.filterMap clccIndexState ∧
        ∃ c ∈ calls, c.index = k ∧ c.state = RIL_CallState.ACTIVE) := by
  obtain ⟨st1, hloop, hvalid, hline, -, -⟩ := clccLoop_quiet b lines hnone
    { valid := [], slot := RIL_Call.zero, needRepoll := false,
      s_incomingOrWaitingLine := -1,
      sCnapInfo := g.sCnapInfo, sCnapInfoList := g.sCnapInfoList }
  simp only [List.map_nil, List.nil_append] at hvalid hline
  have hmap := cnapFill_frame st1.valid st1.sCnapInfoList
  rw [hvalid] at hmap
  have hany : ((lines.filterMap clccIndexState).any (fun p => decide (p.1 = k) &&
      decide (p.2 = RIL_CallState.ACTIVE))) = true := by
    obtain ⟨line, hmem, his⟩ := hact
    rw [List.any_eq_true]
    exact ⟨(k, RIL_CallState.ACTIVE), List.mem_filterMap.mpr ⟨line, hmem, his⟩, by simp⟩
  have hhit : workaroundHit k (-1) 0 g.s_repollCallsCount
      (cnapFill st1.valid st1.sCnapInfoList).1 = decide (g.s_repollCallsCount < 4) := by
    rw [workaroundHit_map, hmap]
    by_cases hc : g.s_repollCallsCount < 4
    · simpa [hk, hc, REPOLL_CALLS_COUNT_MAX] using hany
    · have hfalse : ((lines.filterMap clccIndexState).any (fun p => decide (p.1 = k) &&
          decide (p.2 = RIL_CallState.ACTIVE) &&
          decide (g.s_repollCallsCount < REPOLL_CALLS_COUNT_MAX))) = false := by
        rw [List.any_eq_false]
        intro p _
        simp [REPOLL_CALLS_COUNT_MAX, hc]
      rw [hfalse]
      simp [hc]
  have hmem : ∃ c ∈ (cnapFill st1.valid st1.sCnapInfoList).1,
      c.index = k ∧ c.state = RIL_CallState.ACTIVE := by
    obtain ⟨line, hl, his⟩ := hact
    have : (k, RIL_CallState.ACTIVE) ∈
        List.map (fun c => (c.index, c.state)) (cnapFill st1.valid st1.sCnapInfoList).1 := by
      rw [hmap]
      exact List.mem_filterMap.mpr ⟨line, hl, his⟩
    obtain ⟨c, hc, hce⟩ := List.mem_map.mp this
    simp only [Prod.mk.injEq] at hce
    exact ⟨c, hc, hce.1, hce.2⟩
  constructor
  · intro hc
    refine ⟨{ g with s_incomingOrWaitingLine := st1.s_incomingOrWaitingLine,
                     sCnapInfo := st1.sCnapInfo,
                     sCnapInfoList := (cnapFill st1.valid st1.sCnapInfoList).2,
                     s_repollCallsCount := g.s_repollCallsCount + 1 }, ?_, rfl⟩
    unfold requestGetCurrentCalls
    simp [hb, hloop, hprev, hexp, hline, hhit, hc]
  · intro hc
    refine ⟨{ g with s_incomingOrWaitingLine := st1.s_incomingOrWaitingLine,
                     sCnapInfo := st1.sCnapInfo,
                     sCnapInfoList := (cnapFill st1.valid st1.sCnapInfoList).2,
                     s_expectAnswer := 0, s_repollCallsCount := 0 },
      (cnapFill st1.valid st1.sCnapInfoList).1,
      (if (if b.POLL_CALL_STATE then
            decide ((cnapFill st1.valid st1.sCnapInfoList).1.length ≠ 0)
          else st1.needRepoll) then [.RIL_requestTimedCallback .sendCallStateChanged] else []),
      ?_, ?_, hmap, hmem⟩
    · have hhit4 : workaroundHit k (-1) 0 4 (cnapFill st1.valid st1.sCnapInfoList).1 = false := by
        rw [← hc, hhit]
        simp [hc]
      unfold requestGetCurrentCalls
      simp [hb, hloop, hprev, hexp, hline, hhit4, hc]
    · split_ifs <;> rfl


/-- C3 at the scenario of the spec: line 2 was incoming at the previous poll and
is reported active now; with the counter at 3 the poll fails and the counter
becomes 4, with the counter at 4 the poll succeeds. -/
theorem C3_repoll_workaround_scenario :
    (∃ g1, requestGetCurrentCalls tiBuild (afterIncomingOnLine2 3)
          (.final true ["+CLCC: 2,1,0,0,0".toList]) =
          .done g1 [.at_send_command "AT+CLCC" [],
                    .RIL_onRequestComplete .GENERIC_FAILURE .null] ∧
        g1.s_repollCallsCount = 3 + 1) ∧
    (∃ g1 calls rest, requestGetCurrentCalls tiBuild (afterIncomingOnLine2 4)
          (.final true ["+CLCC: 2,1,0,0,0".toList]) =
          .done g1 ([.at_send_command "AT+CLCC" [],
                     .RIL_onRequestComplete .SUCCESS (.calls calls)] ++ rest) ∧
        completions rest = 0 ∧
        calls.map (fun c => (c.index, c.state)) =
          ["+CLCC: 2,1,0,0,0".toList].filterMap clccIndexState ∧
        ∃ c ∈ calls, c.index = 2 ∧ c.state = RIL_CallState.ACTIVE) := by
  have his : clccIndexState "+CLCC: 2,1,0,0,0".toList = some (2, RIL_CallState.ACTIVE) := by
    decide
  have hnone : ∀ line ∈ ["+CLCC: 2,1,0,0,0".toList], ∀ i s,
      clccIndexState line = some (i, s) →
        s ≠ RIL_CallState.INCOMING ∧ s ≠ RIL_CallState.WAITING := by
    intro line hl i s h
    rw [List.mem_singleton] at hl
    subst hl
    rw [his] at h
    simp only [Option.some.injEq, Prod.mk.injEq] at h
    rw [← h.2]
    exact ⟨by decide, by decide⟩
  exact ⟨(C3_repoll_workaround tiBuild rfl (afterIncomingOnLine2 3) _ 2 (by decide) rfl rfl
            hnone ⟨_, List.mem_singleton.mpr rfl, his⟩).1 (by decide),
         (C3_repoll_workaround tiBuild rfl (afterIncomingOnLine2 4) _ 2 (by decide) rfl rfl
            hnone ⟨_, List.mem_singleton.mpr rfl, his⟩).2 rfl⟩

theorem at_tok_nextint_cursor {p : Cursor} {v : Int} {q : Cursor}
    (h : at_tok_nextint p = some (v, q)) : ∃ t, at_tok_nextstr p = some (t, q) := by
  unfold at_tok_nextint at_tok_nextint_base at h
  cases p with
  | none => simp at h
  | some cs =>
    cases hs : strtol 10 (nextTok cs).1 with
    | none => simp [hs] at h
    | some w =>
      simp only [hs, Option.some.injEq, Prod.mk.injEq] at h
      exact ⟨(nextTok cs).1, by simp [at_tok_nextstr, ← h.2]⟩

theorem at_tok_nextbool_cursor {p : Cursor} {v : Bool} {q : Cursor}
    (h : at_tok_nextbool p = some (v, q)) : ∃ t, at_tok_nextstr p = some (t, q) := by
  unfold at_tok_nextbool at h
  cases hi : at_tok_nextint p with
  | none => simp [hi] at h
  | some r =>
    obtain ⟨w, q1⟩ := r
    simp only [hi] at h
    have hq : q1 = q := by
      split_ifs at h <;> simp_all
    subst hq
    exact at_tok_nextint_cursor hi

theorem callFromCLCCLine_alpha_number (l : Cursor) (c : RIL_Call) :
    (callFromCLCCLine_alpha l c).2.number = c.number := by
  unfold callFromCLCCLine_alpha
  repeat (first | rfl | split)

/-- On a CLCC line that parses and has a number field `s`, the number
`callFromCLCCLine` stores is `s`, or NULL when `strspn` finds no leading
character of the accept set. -/
theorem callFromCLCCLine_number (line : List Char) (p_call : RIL_Call) (s : List Char)
    (hnum : clccNumberField line = some s)
    (hok : (callFromCLCCLine line p_call).1 = 0) :
    (callFromCLCCLine line p_call).2.number =
      if strspn s numberChars = 0 then none else some s := by
  unfold clccNumberField at hnum
  unfold callFromCLCCLine at hok ⊢
  cases h0 : at_tok_start line with
  | none => simp [h0] at hnum
  | some l0 =>
  simp only [h0] at hnum hok ⊢
  cases h1 : at_tok_nextint l0 with
  | none => simp [h1] at hok
  | some r1 =>
  obtain ⟨index, l1⟩ := r1
  obtain ⟨t1, ht1⟩ := at_tok_nextint_cursor h1
  simp only [h1, ht1] at hnum hok ⊢
  cases h2 : at_tok_nextbool l1 with
  | none => simp [h2] at hok
  | some r2 =>
  obtain ⟨isMT, l2⟩ := r2
  obtain ⟨t2, ht2⟩ := at_tok_nextbool_cursor h2
  simp only [h2, ht2] at hnum hok ⊢
  cases h3 : at_tok_nextint l2 with
  | none => simp [h3] at hok
  | some r3 =>
  obtain ⟨state, l3⟩ := r3
  obtain ⟨t3, ht3⟩ := at_tok_nextint_cursor h3
  simp only [h3, ht3] at hnum hok ⊢
  cases hst : clccStateToRILState state with
  | none => simp [hst] at hok
  | some st =>
  simp only [hst] at hok ⊢
  cases h4 : at_tok_nextint l3 with
  | none => simp [h4] at hok
  | some r4 =>
  obtain ⟨mode, l4⟩ := r4
  obtain ⟨t4, ht4⟩ := at_tok_nextint_cursor h4
  simp only [h4, ht4] at hnum hok ⊢
  cases h5 : at_tok_nextbool l4 with
  | none => simp [h5] at hok
  | some r5 =>
  obtain ⟨isMpty, l5⟩ := r5
  obtain ⟨t5, ht5⟩ := at_tok_nextbool_cursor h5
  simp only [h5, ht5] at hnum hok ⊢
  cases hm : at_tok_hasmore l5 with
  | false => simp [hm] at hnum
  | true =>
  simp only [hm, if_true] at hnum hok ⊢
  cases h6 : at_tok_nextstr l5 with
  | none => simp [h6] at hnum
  | some r6 =>
  obtain ⟨number, l6⟩ := r6
  simp only [h6, Option.map_some', Option.some.injEq] at hnum hok ⊢
  subst hnum
  cases h7 : at_tok_nextint l6 with
  | none => simp [h7] at hok
  | some r7 =>
  obtain ⟨toa, l7⟩ := r7
  simp only [h7] at hok ⊢
  rw [callFromCLCCLine_alpha_number]

theorem strspn_eq_zero_iff (s : List Char) (accept : List Char) :
    strspn s accept = 0 ↔ ∀ ch ∈ s.head?, ch ∉ accept := by
  cases s with
  | nil => simp [strspn]
  | cons c rest =>
    by_cases hc : c ∈ accept <;> simp [strspn, List.takeWhile, hc]

/-- C6 (as stated): the claim that a number with a character outside
'+', '0'..'9' is always nulled is false: on a line that parses and whose number
field is "123abc" (the letters are outside the set), the record keeps the
number. -/
theorem C6_mixed_number_is_kept :
    clccNumberField clccMixedNumberLine = some "123abc".toList ∧
    ('a' ∈ "123abc".toList ∧ 'a' ∉ numberChars) ∧
    (callFromCLCCLine clccMixedNumberLine RIL_Call.zero).1 = 0 ∧
    (callFromCLCCLine clccMixedNumberLine RIL_Call.zero).2.number ≠ none := by
  decide

/-- C6 (amended): on every CLCC line that parses and has a number field `s`, the
record's number is NULL exactly when `s` is empty or its first character is
outside '+', '0'..'9'; a number whose first character is in the set is stored
whole, whatever characters follow. -/
theorem C6_number_nulled_by_leading_character (line : List Char) (p_call : RIL_Call)
    (s : List Char) (hnum : clccNumberField line = some s)
    (hok : (callFromCLCCLine line p_call).1 = 0) :
    (callFromCLCCLine line p_call).2.number =
      match s with
      | [] => none
      | ch :: _ => if ch ∈ numberChars then some s else none := by
  rw [callFromCLCCLine_number line p_call s hnum hok]
  cases s with
  | nil => simp [strspn]
  | cons ch rest =>
    by_cases hc : ch ∈ numberChars
    · have : ¬ strspn (ch :: rest) numberChars = 0 := by
        rw [strspn_eq_zero_iff]
        simp [hc]
      simp [this, hc]
    · have : strspn (ch :: rest) numberChars = 0 := by
        rw [strspn_eq_zero_iff]
        simp [hc]
      simp [this, hc]

/-- C6 at a placeholder: the number "NOT AVAILABLE" starts outside the set and
is nulled. -/
theorem C6_placeholder_is_nulled :
    clccNumberField clccPlaceholderLine = some "NOT AVAILABLE".toList ∧
    (callFromCLCCLine clccPlaceholderLine RIL_Call.zero).1 = 0 ∧
    (callFromCLCCLine clccPlaceholderLine RIL_Call.zero).2.number = none :=
  ⟨by decide, by decide,
    (C6_number_nulled_by_leading_character clccPlaceholderLine RIL_Call.zero
      "NOT AVAILABLE".toList (by decide) (by decide)).trans (by decide)⟩

theorem at_tok_nextint_base_cursor {b : Nat} {p : Cursor} {v : Int} {q : Cursor}
    (h : at_tok_nextint_base b p = some (v, q)) : ∃ t, at_tok_nextstr p = some (t, q) := by
  unfold at_tok_nextint_base at h
  cases p with
  | none => simp at h
  | some cs =>
    cases hs : strtol b (nextTok cs).1 with
    | none => simp [hs] at h
    | some w =>
      simp only [hs, Option.some.injEq, Prod.mk.injEq] at h
      exact ⟨(nextTok cs).1, by simp [at_tok_nextstr, ← h.2]⟩

theorem fieldInt_zero {b : Nat} {p : Cursor} {v : Int} (h : fieldInt b 0 p = some v) :
    ∃ q, at_tok_nextint_base b p = some (v, q) := by
  unfold fieldInt at h
  cases hn : at_tok_nextint_base b p with
  | none => simp [hn] at h
  | some r =>
    obtain ⟨w, q⟩ := r
    simp only [hn, Option.map_some', Option.some.injEq] at h
    exact ⟨q, by rw [h]⟩

theorem fieldInt_succ {b c : Nat} {p : Cursor} {v : Int} {q : Cursor} (n : Nat)
    (h : at_tok_nextint_base b p = some (v, q)) : fieldInt c (n + 1) p = fieldInt c n q := by
  obtain ⟨t, ht⟩ := at_tok_nextint_base_cursor h
  rw [fieldInt, ht]

/-- The field table of `parseRegistrationState`, by number of commas `k` in the
payload: for `k ≥ 5` the parse fails; for `k` = 2, 3, 4, when the fields
tokenise, it succeeds with stat the first field (`k = 2`) or the second
(`k = 3, 4`) read as decimal, lac and cid the two fields behind stat read as
hexadecimal, and for `k = 4` the fifth field read as hexadecimal behind them;
for `k ≤ 1`, when the fields tokenise, the run ends in a memory fault. -/
theorem parseRegistrationState_table (currentTech : Int) (str cs : List Char)
    (hstart : at_tok_start str = some (some cs)) :
    (5 ≤ cs.count ',' → parseRegistrationState currentTech str = .ret none) ∧
    (cs.count ',' = 2 → ∀ stat lac cid, fieldInt 10 0 (some cs) = some stat →
      fieldInt 16 1 (some cs) = some lac → fieldInt 16 2 (some cs) = some cid →
      parseRegistrationState currentTech str =
        .ret (some { type := techFromModemType currentTech, items := 3,
                     response := [stat, lac, cid] })) ∧
    (cs.count ',' = 3 → ∀ n stat lac cid, fieldInt 10 0 (some cs) = some n →
      fieldInt 10 1 (some cs) = some stat →
      fieldInt 16 2 (some cs) = some lac → fieldInt 16 3 (some cs) = some cid →
      parseRegistrationState currentTech str =
        .ret (some { type := techFromModemType currentTech, items := 4,
                     response := [stat, lac, cid, 0] })) ∧
    (cs.count ',' = 4 → ∀ n stat lac cid nt, fieldInt 10 0 (some cs) = some n →
      fieldInt 10 1 (some cs) = some stat →
      fieldInt 16 2 (some cs) = some lac → fieldInt 16 3 (some cs) = some cid →
      fieldInt 16 4 (some cs) = some nt →
      parseRegistrationState currentTech str =
        .ret (some { type := techFromModemType currentTech, items := 5,
                     response := [stat, lac, cid, nt, 0] })) ∧
    (cs.count ',' = 0 → ∀ stat, fieldInt 10 0 (some cs) = some stat →
      parseRegistrationState currentTech str = .fault) ∧
    (cs.count ',' = 1 → ∀ n stat, fieldInt 10 0 (some cs) = some n →
      fieldInt 10 1 (some cs) = some stat →
      parseRegistrationState currentTech str = .fault) := by
  refine ⟨?_, ?_, ?_, ?_, ?_, ?_⟩
  · intro hk
    unfold parseRegistrationState
    simp only [hstart]
    split <;> first | omega | rfl
  · intro hk stat lac cid h0 h1 h2
    obtain ⟨q0, hq0⟩ := fieldInt_zero h0
    rw [fieldInt_succ 0 hq0] at h1
    rw [fieldInt_succ 1 hq0] at h2
    obtain ⟨q1, hq1⟩ := fieldInt_zero h1
    rw [fieldInt_succ 0 hq1] at h2
    obtain ⟨q2, hq2⟩ := fieldInt_zero h2
    unfold parseRegistrationState
    simp only [hstart, hk]
    simp [at_tok_nextint, at_tok_nexthexint, hq0, hq1, hq2, storeInt, Run.bind,
      List.replicate]
  · intro hk n stat lac cid hn h0 h1 h2
    obtain ⟨qn, hqn⟩ := fieldInt_zero hn
    rw [fieldInt_succ 0 hqn] at h0
    rw [fieldInt_succ 1 hqn] at h1
    rw [fieldInt_succ 2 hqn] at h2
    obtain ⟨q0, hq0⟩ := fieldInt_zero h0
    rw [fieldInt_succ 0 hq0] at h1
    rw [fieldInt_succ 1 hq0] at h2
    obtain ⟨q1, hq1⟩ := fieldInt_zero h1
    rw [fieldInt_succ 0 hq1] at h2
    obtain ⟨q2, hq2⟩ := fieldInt_zero h2
    unfold parseRegistrationState
    simp only [hstart, hk]
    simp [at_tok_nextint, at_tok_nexthexint, hqn, hq0, hq1, hq2, storeInt, Run.bind,
      List.replicate]
  · intro hk n stat lac cid nt hn h0 h1 h2 h3
    obtain ⟨qn, hqn⟩ := fieldInt_zero hn
    rw [fieldInt_succ 0 hqn] at h0
    rw [fieldInt_succ 1 hqn] at h1
    rw [fieldInt_succ 2 hqn] at h2
    rw [fieldInt_succ 3 hqn] at h3
    obtain ⟨q0, hq0⟩ := fieldInt_zero h0
    rw [fieldInt_succ 0 hq0] at h1
    rw [fieldInt_succ 1 hq0] at h2
    rw [fieldInt_succ 2 hq0] at h3
    obtain ⟨q1, hq1⟩ := fieldInt_zero h1
    rw [fieldInt_succ 0 hq1] at h2
    rw [fieldInt_succ 1 hq1] at h3
    obtain ⟨q2, hq2⟩ := fieldInt_zero h2
    rw [fieldInt_succ 0 hq2] at h3
    obtain ⟨q3, hq3⟩ := fieldInt_zero h3
    unfold parseRegistrationState
    simp only [hstart, hk]
    simp [at_tok_nextint, at_tok_nexthexint, hqn, hq0, hq1, hq2, hq3, storeInt, Run.bind,
      List.replicate]
  · intro hk stat h0
    obtain ⟨q0, hq0⟩ := fieldInt_zero h0
    unfold parseRegistrationState
    simp only [hstart, hk]
    simp [at_tok_nextint, hq0, storeInt, Run.bind, List.replicate]
  · intro hk n stat hn h0
    obtain ⟨qn, hqn⟩ := fieldInt_zero hn
    rw [fieldInt_succ 0 hqn] at h0
    obtain ⟨q0, hq0⟩ := fieldInt_zero h0
    unfold parseRegistrationState
    simp only [hstart, hk]
    simp [at_tok_nextint, hqn, hq0, storeInt, Run.bind, List.replicate]

/-- C2 (failing inputs): on the responses `+CREG: 1` (no comma) and `+CREG: 0,1`
(one comma), whose fields tokenise, `parseRegistrationState` allocates one resp.
two ints and then stores the sentinel -1 at `resp[1]` and `resp[2]`, outside the
allocation: the run ends in a memory fault instead of returning lac = cid = -1. -/
theorem C2_sentinel_written_out_of_bounds (currentTech : Int) :
    parseRegistrationState currentTech "+CREG: 1".toList = Run.fault ∧
    parseRegistrationState currentTech "+CREG: 0,1".toList = Run.fault := by
  constructor <;> rfl


theorem freeParsedCGCONTRDP_stored (r : RIL_Data_Call_Response_v6)
    (h : r.pointersStored = true) :
    freeParsedCGCONTRDP r =
      .ret { r with type := .val none, ifname := .val none, addresses := .val none,
                    gateways := .val none, dnses := .val none } := by
  obtain ⟨st, srt, cid, act, ty, ifn, addr, dns, gw⟩ := r
  cases ifn <;> cases addr <;> cases dns <;> cases gw <;>
    first
    | rfl
    | (simp [RIL_Data_Call_Response_v6.pointersStored, Member.isStored] at h)

theorem freeParsedCGCONTRDP_fault (r : RIL_Data_Call_Response_v6)
    (h : r.pointersStored = false) : freeParsedCGCONTRDP r = .fault := by
  obtain ⟨st, srt, cid, act, ty, ifn, addr, dns, gw⟩ := r
  cases ifn <;> cases addr <;> cases dns <;> cases gw <;>
    first
    | rfl
    | (simp [RIL_Data_Call_Response_v6.pointersStored, Member.isStored] at h)

/-- What `parseCGCONTRDP` does on a line, on an object whose pointer members all
hold a value and on an uninitialised one: either the line does not parse, and
the function returns -1 on the former and faults on the latter (its `error`
label frees `dnses`, which nothing has stored to), or it parses, and the
function returns 0 on both with the same context id and interface name. -/
theorem parseCGCONTRDP_cases (line : List Char) (tmp : RIL_Data_Call_Response_v6)
    (htmp : tmp.pointersStored = true) :
    (parseCGCONTRDP line .uninitialised = .fault ∧
      ∃ r, parseCGCONTRDP line tmp = .ret (-1, r) ∧ r.pointersStored = true) ∨
    (∃ c s r r0, parseCGCONTRDP line tmp = .ret (0, r) ∧
      parseCGCONTRDP line .uninitialised = .ret (0, r0) ∧
      r.cid = .val c ∧ r0.cid = .val c ∧ r.ifname = .val (some s) ∧ r0.ifname = .val (some s) ∧
      r.pointersStored = true ∧
      (r0.dnses.isStored = true → r0.pointersStored = true) ∧
      (r0.addresses.isStored = true → ∃ a, r0.addresses = .val (some a))) := by
  obtain ⟨st, srt, cid0, act, ty, ifn, addr0, dns, gw0⟩ := tmp
  cases ifn with
  | indeterminate => simp [RIL_Data_Call_Response_v6.pointersStored, Member.isStored] at htmp
  | val ifn =>
  cases addr0 with
  | indeterminate => simp [RIL_Data_Call_Response_v6.pointersStored, Member.isStored] at htmp
  | val addr0 =>
  cases dns with
  | indeterminate => simp [RIL_Data_Call_Response_v6.pointersStored, Member.isStored] at htmp
  | val dns =>
  cases gw0 with
  | indeterminate => simp [RIL_Data_Call_Response_v6.pointersStored, Member.isStored] at htmp
  | val gw0 =>
  unfold parseCGCONTRDP
  cases at_tok_start line with
  | none => exact Or.inl ⟨rfl, _, rfl, rfl⟩
  | some l0 =>
  simp only
  cases at_tok_nextint l0 with
  | none => exact Or.inl ⟨rfl, _, rfl, rfl⟩
  | some r1 =>
  obtain ⟨cid, l1⟩ := r1
  simp only
  cases at_tok_nextint l1 with
  | none => exact Or.inl ⟨rfl, _, rfl, rfl⟩
  | some r2 =>
  obtain ⟨bearer, l2⟩ := r2
  simp only
  cases at_tok_nextstr l2 with
  | none => exact Or.inl ⟨rfl, _, rfl, rfl⟩
  | some r3 =>
  obtain ⟨apn, l3⟩ := r3
  simp only
  cases at_tok_hasmore l3 with
  | false =>
    exact Or.inr ⟨_, _, _, _, rfl, rfl, rfl, rfl, rfl, rfl, rfl,
      fun h => Bool.noConfusion h, fun h => Bool.noConfusion h⟩
  | true =>
  simp only [Bool.not_true, Bool.false_eq_true, if_false]
  cases at_tok_nextstr l3 with
  | none => exact Or.inl ⟨rfl, _, rfl, rfl⟩
  | some r4 =>
  obtain ⟨addr, l4⟩ := r4
  simp only
  cases at_tok_hasmore l4 with
  | false =>
    exact Or.inr ⟨_, _, _, _, rfl, rfl, rfl, rfl, rfl, rfl, rfl,
      fun h => Bool.noConfusion h, fun _ => ⟨_, rfl⟩⟩
  | true =>
  simp only [Bool.not_true, Bool.false_eq_true, if_false]
  cases at_tok_nextstr l4 with
  | none => exact Or.inl ⟨rfl, _, rfl, rfl⟩
  | some r5 =>
  obtain ⟨gw, l5⟩ := r5
  simp only
  cases at_tok_hasmore l5 with
  | false =>
    exact Or.inr ⟨_, _, _, _, rfl, rfl, rfl, rfl, rfl, rfl, rfl,
      fun h => Bool.noConfusion h, fun _ => ⟨_, rfl⟩⟩
  | true =>
  simp only [Bool.not_true, Bool.false_eq_true, if_false]
  cases at_tok_nextstr l5 with
  | none => exact Or.inl ⟨rfl, _, rfl, rfl⟩
  | some r6 =>
  obtain ⟨dns1, l6⟩ := r6
  simp only
  cases at_tok_hasmore l6 with
  | false =>
    exact Or.inr ⟨_, _, _, _, rfl, rfl, rfl, rfl, rfl, rfl, rfl, fun _ => rfl, fun _ => ⟨_, rfl⟩⟩
  | true =>
  simp only [if_true]
  cases at_tok_nextstr l6 with
  | none => exact Or.inl ⟨rfl, _, rfl, rfl⟩
  | some r7 =>
    exact Or.inr ⟨_, _, _, _, rfl, rfl, rfl, rfl, rfl, rfl, rfl, fun _ => rfl, fun _ => ⟨_, rfl⟩⟩

theorem cgactLoop_ids (lines : List (List Char))
    (h : ∀ l ∈ lines, (cgactLine l).isSome = true) :
    ∃ rs, cgactLoop lines = some rs ∧ rs.length = lines.length ∧
      rs.map (fun r => r.cid) = (cgactIds lines).map Member.val := by
  induction lines with
  | nil => exact ⟨[], rfl, rfl, rfl⟩
  | cons l rest ih =>
    obtain ⟨rs, hrs, hlen, hids⟩ := ih (fun x hx => h x (List.mem_cons_of_mem _ hx))
    have hl := h l (List.mem_cons_self _ _)
    cases hc : cgactLine l with
    | none => simp [hc] at hl
    | some ca =>
      obtain ⟨cid, active⟩ := ca
      refine ⟨{ dataCallInit with cid := .val cid, active := .val active } :: rs, ?_, ?_, ?_⟩
      · simp [cgactLoop, hc, hrs]
      · simp [hlen]
      · simp only [cgactIds] at hids ⊢
        simp [List.filterMap_cons, hc, hids]

/-- The copy of a record whose pointer members all hold a value, with an
interface name, into an entry: no fault, and the entry keeps its context id. -/
theorem copyFields_stored (r tmp : RIL_Data_Call_Response_v6) (s : List Char)
    (hif : tmp.ifname = .val (some s)) (h : tmp.pointersStored = true) :
    ∃ r1, copyFields r tmp = .ret r1 ∧ r1.cid = r.cid := by
  obtain ⟨st, srt, cid0, act, ty, ifn, addr0, dns, gw0⟩ := tmp
  simp only at hif
  subst hif
  cases addr0 with
  | indeterminate => simp [RIL_Data_Call_Response_v6.pointersStored, Member.isStored] at h
  | val addr0 =>
  cases dns with
  | indeterminate => simp [RIL_Data_Call_Response_v6.pointersStored, Member.isStored] at h
  | val dns =>
  cases gw0 with
  | indeterminate => simp [RIL_Data_Call_Response_v6.pointersStored, Member.isStored] at h
  | val gw0 =>
  cases addr0 <;> cases gw0 <;> cases dns <;> exact ⟨_, rfl, rfl⟩

theorem cgcontrdpMerge_stored (rs : List RIL_Data_Call_Response_v6)
    (tmp : RIL_Data_Call_Response_v6) (c : Int) (s : List Char)
    (hrs : ∀ x ∈ rs, x.cid.isStored = true) (hc : tmp.cid = .val c)
    (hif : tmp.ifname = .val (some s)) (h : tmp.pointersStored = true) :
    ∃ o, cgcontrdpMerge rs tmp = .ret o ∧
      (∀ rs1, o = some rs1 → rs1.map (fun r => r.cid) = rs.map (fun r => r.cid)) ∧
      ((∀ x ∈ rs, x.cid ≠ .val c) → o = none) := by
  induction rs with
  | nil => exact ⟨none, rfl, by simp, fun _ => rfl⟩
  | cons r rest ih =>
    obtain ⟨o, ho, hcids, hnone⟩ := ih (fun x hx => hrs x (List.mem_cons_of_mem _ hx))
    have hr := hrs r (List.mem_cons_self _ _)
    cases hrc : r.cid with
    | indeterminate => simp [hrc, Member.isStored] at hr
    | val c0 =>
      unfold cgcontrdpMerge
      simp only [hrc, hc, Member.load, Run.bind]
      by_cases hcc : c0 = c
      · obtain ⟨r1, hr1, hr1c⟩ := copyFields_stored r tmp s hif h
        simp only [hcc, if_true, hr1, Run.bind]
        refine ⟨_, rfl, ?_, ?_⟩
        · intro rs1 h1
          simp only [Option.some.injEq] at h1
          subst h1
          simp [hr1c]
        · intro hne
          exact absurd (by rw [hrc, hcc]) (hne r (List.mem_cons_self _ _))
      · simp only [hcc, if_false, ho, Run.bind]
        refine ⟨_, rfl, ?_, ?_⟩
        · intro rs1 h1
          cases o with
          | none => simp at h1
          | some x =>
            simp only [Option.map_some', Option.some.injEq] at h1
            subst h1
            simp [hcids x rfl]
        · intro hne
          rw [hnone (fun x hx => hne x (List.mem_cons_of_mem _ hx))]
          rfl

/-- One iteration of the second loop on a `tmp_rp` whose pointer members all
hold a value (as every iteration after the first finds it): a line that does not
parse is the jump to `error`; a line that parses leaves the context ids of the
entries as they are, the entries themselves as they are when no entry has the
id of the record, and `tmp_rp` again with all pointer members holding a
value. -/
theorem cgcontrdpLoopBody_stored (rs : List RIL_Data_Call_Response_v6)
    (tmp : RIL_Data_Call_Response_v6) (line : List Char)
    (hrs : ∀ x ∈ rs, x.cid.isStored = true) (htmp : tmp.pointersStored = true) :
    (parseCGCONTRDP line .uninitialised = .fault ∧
      cgcontrdpLoopBody (rs, tmp) line = .ret none) ∨
    (∃ c r0 rs1 tmp1, parseCGCONTRDP line .uninitialised = .ret (0, r0) ∧ r0.cid = .val c ∧
      cgcontrdpLoopBody (rs, tmp) line = .ret (some (rs1, tmp1)) ∧
      rs1.map (fun r => r.cid) = rs.map (fun r => r.cid) ∧
      tmp1.pointersStored = true ∧
      ((∀ x ∈ rs, x.cid ≠ .val c) → rs1 = rs)) := by
  rcases parseCGCONTRDP_cases line tmp htmp with
    ⟨hu, r, hr, _⟩ | ⟨c, s, r, r0, hr, hu, hc, hc0, hif, _, hst, _, _⟩
  · left
    refine ⟨hu, ?_⟩
    unfold cgcontrdpLoopBody
    simp [hr, Run.bind]
  · right
    obtain ⟨o, ho, hcids, hnone⟩ := cgcontrdpMerge_stored rs r c s hrs hc hif hst
    have hfree := freeParsedCGCONTRDP_stored r hst
    refine ⟨c, r0, o.getD rs,
      { r with type := .val none, ifname := .val none, addresses := .val none,
               gateways := .val none, dnses := .val none }, hu, hc0, ?_, ?_, ?_, ?_⟩
    · unfold cgcontrdpLoopBody
      simp only [hr, Run.bind, ho, hfree]
      cases o <;> simp
    · cases o with
      | none => rfl
      | some x => exact hcids x rfl
    · rfl
    · intro hne
      rw [hnone hne]
      rfl

/-- The first iteration of the second loop, on the uninitialised `tmp_rp`: when
the record stops before the DNS field, the iteration ends in a fault, since
`tmp_rp.dnses` is still indeterminate when it is tested or freed. -/
theorem cgcontrdpLoopBody_short_record (rs : List RIL_Data_Call_Response_v6)
    (line : List Char) (rc : Int) (r0 : RIL_Data_Call_Response_v6)
    (h0 : parseCGCONTRDP line .uninitialised = .ret (rc, r0))
    (hd : r0.dnses.isStored = false) :
    cgcontrdpLoopBody (rs, .uninitialised) line = .fault := by
  have hrc : rc = 0 := by
    rcases parseCGCONTRDP_cases line dataCallInit rfl with ⟨hu, _⟩ | ⟨c, s, r, r1, _, hu, _⟩
    · rw [hu] at h0
      cases h0
    · rw [hu] at h0
      simp only [Run.ret.injEq, Prod.mk.injEq] at h0
      exact h0.1.symm
  subst hrc
  have hf : freeParsedCGCONTRDP r0 = .fault := by
    apply freeParsedCGCONTRDP_fault
    simp [RIL_Data_Call_Response_v6.pointersStored, hd]
  unfold cgcontrdpLoopBody
  simp only [h0, Run.bind, lt_self_iff_false, if_false, hf]
  cases cgcontrdpMerge rs r0 <;> rfl

/-- The first iteration of the second loop, on the uninitialised `tmp_rp`, when
the record carries its fields up to the DNS: as an iteration on a `tmp_rp` whose
pointer members hold values. -/
theorem cgcontrdpLoopBody_first (rs : List RIL_Data_Call_Response_v6) (line : List Char)
    (r0 : RIL_Data_Call_Response_v6) (hrs : ∀ x ∈ rs, x.cid.isStored = true)
    (h0 : parseCGCONTRDP line .uninitialised = .ret (0, r0))
    (hd : r0.dnses.isStored = true) :
    ∃ c rs1 tmp1, r0.cid = .val c ∧
      cgcontrdpLoopBody (rs, .uninitialised) line = .ret (some (rs1, tmp1)) ∧
      rs1.map (fun r => r.cid) = rs.map (fun r => r.cid) ∧
      tmp1.pointersStored = true ∧
      ((∀ x ∈ rs, x.cid ≠ .val c) → rs1 = rs) := by
  rcases parseCGCONTRDP_cases line dataCallInit rfl with
    ⟨hu, _⟩ | ⟨c, s, r, r1, _, hu, _, hc0, _, hif, _, hst, _⟩
  · rw [hu] at h0
    cases h0
  · rw [hu] at h0
    simp only [Run.ret.injEq, Prod.mk.injEq, true_and] at h0
    subst h0
    have hst1 := hst hd
    obtain ⟨o, ho, hcids, hnone⟩ := cgcontrdpMerge_stored rs r1 c s hrs hc0 hif hst1
    have hfree := freeParsedCGCONTRDP_stored r1 hst1
    refine ⟨c, o.getD rs,
      { r1 with type := .val none, ifname := .val none, addresses := .val none,
                gateways := .val none, dnses := .val none }, hc0, ?_, ?_, ?_, ?_⟩
    · unfold cgcontrdpLoopBody
      simp only [hu, Run.bind, ho, hfree]
      cases o <;> simp
    · cases o with
      | none => rfl
      | some x => exact hcids x rfl
    · rfl
    · intro hne
      rw [hnone hne]
      rfl

theorem cgcontrdpLoop_stored (lines : List (List Char))
    (h : ∀ p ∈ lines, ∃ r0, parseCGCONTRDP p .uninitialised = .ret (0, r0))
    (rs : List RIL_Data_Call_Response_v6) (tmp : RIL_Data_Call_Response_v6)
    (hrs : ∀ x ∈ rs, x.cid.isStored = true) (htmp : tmp.pointersStored = true) :
    ∃ rs1 tmp1, cgcontrdpLoop (rs, tmp) lines = .ret (some (rs1, tmp1)) ∧
      rs1.map (fun r => r.cid) = rs.map (fun r => r.cid) ∧ tmp1.pointersStored = true := by
  induction lines generalizing rs tmp with
  | nil => exact ⟨rs, tmp, rfl, rfl, htmp⟩
  | cons l rest ih =>
    obtain ⟨r0, hr0⟩ := h l (List.mem_cons_self _ _)
    rcases cgcontrdpLoopBody_stored rs tmp l hrs htmp with
      ⟨hu, _⟩ | ⟨c, r1, rs1, tmp1, _, _, hb, hc, ht, _⟩
    · rw [hu] at hr0
      cases hr0
    · have hrs1 : ∀ x ∈ rs1, x.cid.isStored = true := by
        intro x hx
        have hm : x.cid ∈ rs.map (fun r => r.cid) := by
          rw [← hc]
          exact List.mem_map_of_mem _ hx
        obtain ⟨y, hy, hxy⟩ := List.mem_map.mp hm
        rw [← hxy]
        exact hrs y hy
      obtain ⟨rs2, tmp2, h2, hc2, ht2⟩ :=
        ih (fun x hx => h x (List.mem_cons_of_mem _ hx)) rs1 tmp1 hrs1 ht
      refine ⟨rs2, tmp2, ?_, by rw [hc2, hc], ht2⟩
      simp only [cgcontrdpLoop, hb, Run.bind]
      exact h2

theorem cgcontrdpLoop_append
    (st : List RIL_Data_Call_Response_v6 × RIL_Data_Call_Response_v6)
    (lines : List (List Char)) (p : List Char) :
    cgcontrdpLoop st (lines ++ [p]) =
      (cgcontrdpLoop st lines).bind fun o =>
        match o with
        | none => .ret none
        | some st1 => cgcontrdpLoopBody st1 p := by
  induction lines generalizing st with
  | nil =>
    simp only [List.nil_append, cgcontrdpLoop, Run.bind]
    cases cgcontrdpLoopBody st p with
    | fault => rfl
    | ret o => cases o <;> rfl
  | cons l rest ih =>
    simp only [List.cons_append, cgcontrdpLoop]
    cases cgcontrdpLoopBody st l with
    | fault => rfl
    | ret o =>
      cases o with
      | none => rfl
      | some st1 => exact ih st1

theorem cgactLoop_stored (lines : List (List Char)) (rs : List RIL_Data_Call_Response_v6)
    (h : cgactLoop lines = some rs) : ∀ x ∈ rs, x.cid.isStored = true := by
  induction lines generalizing rs with
  | nil =>
    simp only [cgactLoop, Option.some.injEq] at h
    subst h
    simp
  | cons l rest ih =>
    unfold cgactLoop at h
    cases hc : cgactLine l with
    | none => simp [hc] at h
    | some ca =>
      obtain ⟨cid, active⟩ := ca
      cases hr : cgactLoop rest with
      | none => simp [hc, hr] at h
      | some rs0 =>
        simp only [hc, hr, Option.some.injEq] at h
        subst h
        intro x hx
        rcases List.mem_cons.mp hx with hx | hx
        · subst hx
          rfl
        · exact ih rs0 hr x hx

/-- The second loop from the uninitialised `tmp_rp`, on a response all of whose
lines parse and whose first record carries its fields up to the DNS: no fault,
no jump to `error`, and the context ids of the entries are left as they are. -/
theorem cgcontrdpLoop_from_uninitialised (params : List (List Char))
    (rs : List RIL_Data_Call_Response_v6) (hrs : ∀ x ∈ rs, x.cid.isStored = true)
    (hparams : ∀ p ∈ params, ∃ r0, parseCGCONTRDP p .uninitialised = .ret (0, r0))
    (hfirst : ∀ p ∈ params.head?, ∃ r0, parseCGCONTRDP p .uninitialised = .ret (0, r0) ∧
      r0.dnses.isStored = true) :
    ∃ rs1 tmp1, cgcontrdpLoop (rs, .uninitialised) params = .ret (some (rs1, tmp1)) ∧
      rs1.map (fun r => r.cid) = rs.map (fun r => r.cid) ∧
      (params ≠ [] → tmp1.pointersStored = true) := by
  cases params with
  | nil => exact ⟨rs, _, rfl, rfl, fun h => absurd rfl h⟩
  | cons p0 ps =>
    obtain ⟨r0, h0, hd⟩ := hfirst p0 rfl
    obtain ⟨c, rs1, tmp1, _, hb, hc, ht, _⟩ := cgcontrdpLoopBody_first rs p0 r0 hrs h0 hd
    have hrs1 : ∀ x ∈ rs1, x.cid.isStored = true := by
      intro x hx
      have hm : x.cid ∈ rs.map (fun r => r.cid) := by
        rw [← hc]
        exact List.mem_map_of_mem _ hx
      obtain ⟨y, hy, hxy⟩ := List.mem_map.mp hm
      rw [← hxy]
      exact hrs y hy
    obtain ⟨rs2, tmp2, h2, hc2, ht2⟩ := cgcontrdpLoop_stored ps
      (fun x hx => hparams x (List.mem_cons_of_mem _ hx)) rs1 tmp1 hrs1 ht
    refine ⟨rs2, tmp2, ?_, by rw [hc2, hc], fun _ => ht2⟩
    simp only [cgcontrdpLoop, hb, Run.bind]
    exact h2

/-- When both commands succeed, every `+CGACT:` line and every `+CGCONTRDP:` line
parses, and the first `+CGCONTRDP:` record carries its fields up to the DNS,
`requestOrSendDataCallList` delivers (as completion or as notification) an array
with one entry per activation line, whose context ids are those of the
activation lines in order. -/
theorem requestOrSendDataCallList_merge (g : Globals) (t : Bool)
    (acts params : List (List Char))
    (hacts : ∀ l ∈ acts, (cgactLine l).isSome = true)
    (hparams : ∀ p ∈ params, ∃ r0, parseCGCONTRDP p .uninitialised = .ret (0, r0))
    (hfirst : ∀ p ∈ params.head?, ∃ r0, parseCGCONTRDP p .uninitialised = .ret (0, r0) ∧
      r0.dnses.isStored = true) :
    ∃ rs, requestOrSendDataCallList g t (.final true acts) (.final true params) =
        .done g [.at_send_command "AT+CGACT?" [], .at_send_command "AT+CGCONTRDP" [],
                 deliverDataCallList t .SUCCESS (.dataCalls rs)] ∧
      rs.length = acts.length ∧ rs.map (fun r => r.cid) = (cgactIds acts).map Member.val := by
  obtain ⟨rs0, hrs0, hlen0, hids0⟩ := cgactLoop_ids acts hacts
  obtain ⟨rs1, tmp1, h1, hc1, _⟩ := cgcontrdpLoop_from_uninitialised params rs0
    (cgactLoop_stored acts rs0 hrs0) hparams hfirst
  refine ⟨rs1, ?_, ?_, ?_⟩
  · simp [requestOrSendDataCallList, hrs0, h1]
  · have := congrArg List.length hc1
    simp only [List.length_map] at this
    rw [this, hlen0]
  · rw [hc1, hids0]

/-- A trailing parameter record whose context id is that of no activation line
does not change what `requestOrSendDataCallList` delivers. -/
theorem requestOrSendDataCallList_unmatched (g : Globals) (t : Bool)
    (acts params : List (List Char)) (p : List Char) (r : RIL_Data_Call_Response_v6) (c : Int)
    (hacts : ∀ l ∈ acts, (cgactLine l).isSome = true)
    (hparams : ∀ p ∈ params, ∃ r0, parseCGCONTRDP p .uninitialised = .ret (0, r0))
    (hfirst : ∀ p ∈ params.head?, ∃ r0, parseCGCONTRDP p .uninitialised = .ret (0, r0) ∧
      r0.dnses.isStored = true)
    (hne : params ≠ [])
    (hp : parseCGCONTRDP p .uninitialised = .ret (0, r)) (hc : r.cid = .val c)
    (hnot : c ∉ cgactIds acts) :
    requestOrSendDataCallList g t (.final true acts) (.final true (params ++ [p])) =
      requestOrSendDataCallList g t (.final true acts) (.final true params) := by
  obtain ⟨rs0, hrs0, hlen0, hids0⟩ := cgactLoop_ids acts hacts
  have hst0 := cgactLoop_stored acts rs0 hrs0
  obtain ⟨rs1, tmp1, h1, hc1, ht1⟩ := cgcontrdpLoop_from_uninitialised params rs0
    hst0 hparams hfirst
  have hrs1 : ∀ x ∈ rs1, x.cid.isStored = true := by
    intro x hx
    have hm : x.cid ∈ rs0.map (fun r => r.cid) := by
      rw [← hc1]
      exact List.mem_map_of_mem _ hx
    obtain ⟨y, hy, hxy⟩ := List.mem_map.mp hm
    rw [← hxy]
    exact hst0 y hy
  have hno : ∀ x ∈ rs1, x.cid ≠ .val c := by
    intro x hx heq
    apply hnot
    have hm : Member.val c ∈ (cgactIds acts).map Member.val := by
      rw [← hids0, ← hc1, ← heq]
      exact List.mem_map_of_mem _ hx
    obtain ⟨y, hy, hxy⟩ := List.mem_map.mp hm
    cases hxy
    exact hy
  rcases cgcontrdpLoopBody_stored rs1 tmp1 p hrs1 (ht1 hne) with
    ⟨hu, _⟩ | ⟨c1, r1, rs2, tmp2, hu, hc2, hb, _, _, hsame⟩
  · rw [hu] at hp
    cases hp
  · rw [hu] at hp
    simp only [Run.ret.injEq, Prod.mk.injEq, true_and] at hp
    subst hp
    rw [hc] at hc2
    cases hc2
    have := hsame hno
    subst this
    have happ := cgcontrdpLoop_append (rs0, .uninitialised) params p
    rw [h1] at happ
    simp only [Run.bind, hb] at happ
    simp [requestOrSendDataCallList, hrs0, h1, happ]

/-- When the first `+CGCONTRDP:` record parses but stops before the DNS field,
`requestOrSendDataCallList` crashes after its two commands: nothing is
delivered. -/
theorem requestOrSendDataCallList_short_first_record (g : Globals) (t : Bool)
    (acts : List (List Char)) (p0 : List Char) (ps : List (List Char)) (rc : Int)
    (r0 : RIL_Data_Call_Response_v6)
    (hacts : ∀ l ∈ acts, (cgactLine l).isSome = true)
    (h0 : parseCGCONTRDP p0 .uninitialised = .ret (rc, r0))
    (hd : r0.dnses.isStored = false) :
    requestOrSendDataCallList g t (.final true acts) (.final true (p0 :: ps)) =
      .crash [.at_send_command "AT+CGACT?" [], .at_send_command "AT+CGCONTRDP" []] := by
  obtain ⟨rs0, hrs0, _, _⟩ := cgactLoop_ids acts hacts
  have hb := cgcontrdpLoopBody_short_record rs0 p0 rc r0 h0 hd
  simp [requestOrSendDataCallList, hrs0, cgcontrdpLoop, hb, Run.bind]

/-- C4 (failing input): with the activation ids 1 and 3 and parameter records
for the contexts 1, 3 and 5 that all parse, the first of them stopping after the
APN, `parseCGCONTRDP` leaves `addresses`, `gateways` and `dnses` of the
uninitialised `tmp_rp` indeterminate, and `requestOrSendDataCallList` (with or
without token) crashes after its two commands instead of delivering the entries
1 and 3. -/
theorem C4_short_first_record_is_not_merged :
    cgactIds cgactExample = [1, 3] ∧
    parseCGCONTRDP "+CGCONTRDP: 1,5,\"internet\"".toList .uninitialised =
      .ret (0, { RIL_Data_Call_Response_v6.uninitialised with
                 cid := .val 1, status := .val 0, active := .val 2,
                 type := .val (some "IP".toList), ifname := .val (some "rmnet5".toList) }) ∧
    cgcontrdpShortExample.map
        (fun p => (parseCGCONTRDP p .uninitialised).bind (fun r => .ret r.1)) =
      [.ret 0, .ret 0, .ret 0] ∧
    requestOrSendDataCallList (Globals.init gsmModem) true (.final true cgactExample)
        (.final true cgcontrdpShortExample) =
      .crash [.at_send_command "AT+CGACT?" [], .at_send_command "AT+CGCONTRDP" []] ∧
    requestOrSendDataCallList (Globals.init gsmModem) false (.final true cgactExample)
        (.final true cgcontrdpShortExample) =
      .crash [.at_send_command "AT+CGACT?" [], .at_send_command "AT+CGCONTRDP" []] :=
  ⟨by decide, by decide, by decide, rfl, rfl⟩

/-- The example of the spec: activation ids 1 and 3 with parameter records for 1,
3 and 5, the first of them complete, give an array of exactly two entries with
the ids 1 and 3. -/
theorem requestOrSendDataCallList_ids_1_3_with_records_1_3_5 :
    cgactIds cgactExample = [1, 3] ∧
    ∃ rs, requestOrSendDataCallList (Globals.init gsmModem) true
        (.final true cgactExample) (.final true cgcontrdpExample) =
        .done (Globals.init gsmModem)
          [.at_send_command "AT+CGACT?" [], .at_send_command "AT+CGCONTRDP" [],
           deliverDataCallList true .SUCCESS (.dataCalls rs)] ∧
      rs.length = cgactExample.length ∧
      rs.map (fun r => r.cid) = (cgactIds cgactExample).map Member.val :=
  ⟨by decide,
   requestOrSendDataCallList_merge (Globals.init gsmModem) true cgactExample
      cgcontrdpExample (by decide)
      (by
        intro p hp
        simp only [cgcontrdpExample, List.mem_cons, List.mem_singleton, List.not_mem_nil,
          or_false] at hp
        rcases hp with h | h | h <;> subst h <;> exact ⟨_, rfl⟩)
      (by
        intro p hp
        simp only [cgcontrdpExample, List.head?_cons, Option.mem_def, Option.some.injEq] at hp
        subst hp
        exact ⟨_, rfl, rfl⟩)⟩

theorem findFreeCid_loop_reuse (s_maxDataContexts : Int) (pre : List (List Char))
    (line : List Char) (post : List (List Char)) (cid : Int)
    (hpre : ∀ l ∈ pre, ∃ c s, cgactLine l = some (c, s) ∧ s ≠ 0 ∧ 1 ≤ c)
    (hline : cgactLine line = some (cid, 0)) (ds : List Int)
    (hlen : ds.length = s_maxDataContexts.toNat) :
    ∃ ds1, findFreeCid_loop s_maxDataContexts ds (pre ++ line :: post) =
      .ret (some (cid, ds1)) ∧ ds1.length = ds.length ∧
      ∀ i : Nat, i < ds.length →
        (ds1.getD i 0 = 0 ↔ ds.getD i 0 = 0 ∧ ((i : Int) + 1) ∉ cgactIds pre) := by
  induction pre generalizing ds with
  | nil => exact ⟨ds, by simp [findFreeCid_loop, hline], rfl, by simp [cgactIds]⟩
  | cons l rest ih =>
    obtain ⟨c, s, hl, hs, hc⟩ := hpre l (List.mem_cons_self _ _)
    have hrest := fun x hx => hpre x (List.mem_cons_of_mem l hx)
    have hids : cgactIds (l :: rest) = c :: cgactIds rest := by
      simp [cgactIds, List.filterMap_cons, hl]
    simp only [List.cons_append, findFreeCid_loop, hl, hs, if_false]
    by_cases hgt : c > s_maxDataContexts
    · simp only [hgt, if_true]
      obtain ⟨ds1, h1, hl1, ht1⟩ := ih hrest ds hlen
      refine ⟨ds1, h1, hl1, ?_⟩
      intro i hi
      rw [ht1 i hi, hids, List.mem_cons]
      have : ((i : Int) + 1) ≠ c := by
        rw [hlen] at hi
        omega
      simp [this]
    · have hin : 0 ≤ c - 1 ∧ c - 1 < (ds.length : Int) := by
        rw [hlen]
        omega
      simp only [hgt, if_false, storeInt, hin, and_self, if_true, Run.bind]
      have hjc : (((c - 1).toNat : Nat) : Int) = c - 1 := Int.toNat_of_nonneg hin.1
      generalize (c - 1).toNat = j at hjc ⊢
      obtain ⟨ds1, h1, hl1, ht1⟩ := ih hrest (ds.set j s)
        (by rw [List.length_set]; exact hlen)
      rw [List.length_set] at hl1 ht1
      refine ⟨ds1, h1, hl1, ?_⟩
      intro i hi
      rw [ht1 i hi, hids, List.mem_cons]
      by_cases hci : j = i
      · have hset : (ds.set j s).getD i 0 = s := by
          rw [hci]
          simp [List.getD_eq_getElem?_getD, List.getElem?_set, hi]
        have : (i : Int) + 1 = c := by omega
        rw [hset]
        simp [hs, this]
      · have hset : (ds.set j s).getD i 0 = ds.getD i 0 := by
          simp [List.getD_eq_getElem?_getD, List.getElem?_set, hci]
        have : ¬ ((i : Int) + 1 = c) := by omega
        rw [hset]
        simp [this]

/-- The final scan of `findFreeCid` returns -1 when no position holds 0, and
otherwise the position of the first 0, counted from 1. -/
theorem firstFreeCid_spec (ds : List Int) :
    (firstFreeCid ds = -1 ∧ ∀ i : Nat, i < ds.length → ds.getD i 0 ≠ 0) ∨
    (∃ k : Nat, k < ds.length ∧ firstFreeCid ds = (k : Int) + 1 ∧ ds.getD k 0 = 0 ∧
      ∀ i : Nat, i < k → ds.getD i 0 ≠ 0) := by
  induction ds with
  | nil => exact Or.inl ⟨rfl, by simp⟩
  | cons d rest ih =>
    unfold firstFreeCid
    by_cases hd : d = 0
    · right
      exact ⟨0, by simp, by simp [hd], by simp [hd], by simp⟩
    · simp only [hd, if_false]
      rcases ih with ⟨h1, h2⟩ | ⟨k, hk, h1, h2, h3⟩
      · left
        refine ⟨by simp [h1], ?_⟩
        intro i hi
        cases i with
        | zero => simpa using hd
        | succ j =>
          simp only [List.length_cons, Nat.add_lt_add_iff_right] at hi
          simpa using h2 j hi
      · right
        have hne : ¬ ((k : Int) + 1 = -1) := by omega
        refine ⟨k + 1, by simpa using hk, ?_, by simpa using h2, ?_⟩
        · rw [h1]
          simp only [hne, if_false]
          push_cast
          ring
        · intro i hi
          cases i with
          | zero => simpa using hd
          | succ j => simpa using h3 j (by omega)

/-- C5 (as stated): the claim fails on a response whose only line is inactive
with the context id -2: with three ids free in the table `findFreeCid` returns
1, the first free id of the table, not the id of the inactive line. -/
theorem C5_negative_inactive_id_not_reused :
    cgactLine "+CGACT: -2,0".toList = some (-2, 0) ∧
    findFreeCid 3 (.final true ["+CGACT: -2,0".toList]) = Run.ret 1 := by
  decide

/-- C5 (amended): take a successful AT+CGACT? response in which a line `line`
parses with activation state 0 and every line before it parses with a non-zero
state and an id of at least 1.  When the id `cid` of `line` is at least 0,
`findFreeCid` returns `cid`, whatever the size of the capability table and
whatever ids are free in it.  When `cid` is negative, the id is not reused:
`findFreeCid` returns the least id in 1..`s_maxDataContexts` that none of the
lines before `line` carries, and -1 when these lines carry every such id. -/
theorem C5_inactive_id_reused_first (s_maxDataContexts : Int) (pre : List (List Char))
    (line : List Char) (post : List (List Char)) (cid : Int)
    (hpre : ∀ l ∈ pre, ∃ c s, cgactLine l = some (c, s) ∧ s ≠ 0 ∧ 1 ≤ c)
    (hline : cgactLine line = some (cid, 0)) :
    (0 ≤ cid →
      findFreeCid s_maxDataContexts (.final true (pre ++ line :: post)) = Run.ret cid) ∧
    (cid < 0 →
      ∃ k, findFreeCid s_maxDataContexts (.final true (pre ++ line :: post)) = Run.ret k ∧
        ((k = -1 ∧ ∀ i : Int, 1 ≤ i → i ≤ s_maxDataContexts → i ∈ cgactIds pre) ∨
         (1 ≤ k ∧ k ≤ s_maxDataContexts ∧ k ∉ cgactIds pre ∧
           ∀ i : Int, 1 ≤ i → i < k → i ∈ cgactIds pre))) := by
  obtain ⟨ds1, h, hlen1, htab⟩ := findFreeCid_loop_reuse s_maxDataContexts pre line post cid
    hpre hline (List.replicate s_maxDataContexts.toNat 0) (by simp)
  simp only [List.length_replicate] at hlen1 htab
  have hzero : ∀ i : Nat, i < s_maxDataContexts.toNat →
      (ds1.getD i 0 = 0 ↔ ((i : Int) + 1) ∉ cgactIds pre) := by
    intro i hi
    rw [htab i hi]
    simp [List.getD_eq_getElem?_getD, List.getElem?_replicate, hi]
  constructor
  · intro hcid
    have hgt : cid > -1 := by omega
    simp [findFreeCid, h, Run.bind, hgt]
  · intro hcid
    have hgt : ¬ cid > -1 := by omega
    refine ⟨firstFreeCid ds1, by simp [findFreeCid, h, Run.bind, hgt], ?_⟩
    rcases firstFreeCid_spec ds1 with ⟨h1, h2⟩ | ⟨k, hk, h1, h2, h3⟩
    · left
      refine ⟨h1, ?_⟩
      intro i hi1 hi2
      have hlt : (i - 1).toNat < s_maxDataContexts.toNat := by omega
      have hne := h2 (i - 1).toNat (by rw [hlen1]; exact hlt)
      have := (hzero (i - 1).toNat hlt).not.mp hne
      have hcast : (((i - 1).toNat : Nat) : Int) + 1 = i := by omega
      rw [hcast] at this
      exact not_not.mp this
    · right
      rw [hlen1] at hk
      refine ⟨by omega, by omega, ?_, ?_⟩
      · rw [h1]
        exact (hzero k hk).mp h2
      · intro i hi1 hi2
        have hlt : (i - 1).toNat < k := by omega
        have hne := h3 (i - 1).toNat hlt
        have := (hzero (i - 1).toNat (by omega)).not.mp hne
        have hcast : (((i - 1).toNat : Nat) : Int) + 1 = i := by omega
        rw [hcast] at this
        exact not_not.mp this

/-- C5 at examples.  Context 1 is active, context 2 inactive, and the table of 3
ids has id 3 free: the inactive id 2 is returned.  Context 1 is active and an
inactive line carries the id -2: the least id that no earlier line carries,
2, is returned. -/
theorem C5_inactive_id_2_reused :
    (∀ l ∈ ["+CGACT: 1,1".toList], ∃ c s, cgactLine l = some (c, s) ∧ s ≠ 0 ∧ 1 ≤ c) ∧
    cgactLine "+CGACT: 2,0".toList = some (2, 0) ∧
    cgactLine "+CGACT: -2,0".toList = some (-2, 0) ∧
    findFreeCid 3 (.final true (["+CGACT: 1,1".toList] ++ "+CGACT: 2,0".toList :: [])) =
      Run.ret 2 ∧
    findFreeCid 3 (.final true (["+CGACT: 1,1".toList] ++ "+CGACT: -2,0".toList :: [])) =
      Run.ret 2 ∧
    ∃ k, findFreeCid 3 (.final true (["+CGACT: 1,1".toList] ++ "+CGACT: -2,0".toList :: [])) =
        Run.ret k ∧
      ((k = -1 ∧ ∀ i : Int, 1 ≤ i → i ≤ 3 → i ∈ cgactIds ["+CGACT: 1,1".toList]) ∨
       (1 ≤ k ∧ k ≤ 3 ∧ k ∉ cgactIds ["+CGACT: 1,1".toList] ∧
         ∀ i : Int, 1 ≤ i → i < k → i ∈ cgactIds ["+CGACT: 1,1".toList])) :=
  have hpre : ∀ l ∈ ["+CGACT: 1,1".toList], ∃ c s, cgactLine l = some (c, s) ∧ s ≠ 0 ∧ 1 ≤ c := by
    intro l hl
    rw [List.mem_singleton] at hl
    subst hl
    exact ⟨1, 1, by decide, by decide, by decide⟩
  ⟨hpre, by decide, by decide,
   (C5_inactive_id_reused_first 3 ["+CGACT: 1,1".toList] "+CGACT: 2,0".toList [] 2 hpre
     (by decide)).1 (by decide),
   by decide,
   (C5_inactive_id_reused_first 3 ["+CGACT: 1,1".toList] "+CGACT: -2,0".toList [] (-2) hpre
     (by decide)).2 (by decide)⟩


/-- C8 (as stated): the claim fails for mode 1 (GSM only) on a modem that
supports it and whose cached preferred mask is already that of mode 1: the
request sends the AT+CTEC? query, and when that query fails it completes with
GENERIC_FAILURE. -/
theorem C8_unchanged_mode_still_queries :
    networkModePossible radioOn.sMdmInfo 1 = true ∧
    net2pmask.getD (1 : Int).toNat 0 = radioOn.sMdmInfo.preferredNetworkMode ∧
    (requestSetPreferredNetworkType radioOn 1 .failed .failed).trace =
      [.at_send_command "AT+CTEC?" [], .RIL_onRequestComplete .GENERIC_FAILURE .null] ∧
    (requestSetPreferredNetworkType radioOn 1 (.final true ["+CTEC: 0,1".toList]) .failed).trace =
      [.at_send_command "AT+CTEC?" [], .RIL_onRequestComplete .SUCCESS .null] := by
  decide

/-- C8 (amended): for every mode `v` that `networkModePossible` accepts and whose
mask `net2pmask[v]` equals the cached preferred mask, the only AT command
`requestSetPreferredNetworkType` sends is the query AT+CTEC? (never the
AT+CTEC= set command); when the query yields a current technology the request
completes with SUCCESS and the statics are unchanged, and when the query fails it
completes with GENERIC_FAILURE. -/
theorem C8_unchanged_mode_sends_only_the_query (g : Globals) (v : Int) (q s : ATReply)
    (hposs : networkModePossible g.sMdmInfo v = true)
    (hsame : net2pmask.getD v.toNat 0 = g.sMdmInfo.preferredNetworkMode) :
    (requestSetPreferredNetworkType g v q s).trace.filter Event.isCommand =
      [.at_send_command "AT+CTEC?" []] ∧
    (∀ res cur pref, query_ctec q = .ret (res, cur, pref) → 0 ≤ res →
      requestSetPreferredNetworkType g v q s =
        .done g [.at_send_command "AT+CTEC?" [], .RIL_onRequestComplete .SUCCESS .null]) ∧
    (∀ res cur pref, query_ctec q = .ret (res, cur, pref) → res < 0 →
      requestSetPreferredNetworkType g v q s =
        .done g [.at_send_command "AT+CTEC?" [],
                 .RIL_onRequestComplete .GENERIC_FAILURE .null]) := by
  unfold requestSetPreferredNetworkType
  simp only [hposs, Bool.not_true, Bool.false_eq_true, if_false]
  cases hq : query_ctec q with
  | fault => simp [Outcome.trace, Event.isCommand]
  | ret r =>
    obtain ⟨res, cur, pref⟩ := r
    simp only
    by_cases hres : res < 0
    · simp only [hres, if_true]
      refine ⟨by simp [Outcome.trace, Event.isCommand], ?_, ?_⟩
      · intro res1 cur1 pref1 h h0
        simp only [Run.ret.injEq, Prod.mk.injEq] at h
        omega
      · intro _ _ _ _ _
        rfl
    · simp only [hres, if_false, hsame, ne_eq, not_true_eq_false]
      refine ⟨by simp [Outcome.trace, Event.isCommand], ?_, ?_⟩
      · intro _ _ _ _ _
        rfl
      · intro res1 cur1 pref1 h h0
        simp only [Run.ret.injEq, Prod.mk.injEq] at h
        omega

/-- C8 at an example: mode 1 requested while mode 1 is cached, the query answers
`+CTEC: 0,1`: one query, then SUCCESS. -/
theorem C8_unchanged_mode_example :
    networkModePossible radioOn.sMdmInfo 1 = true ∧
    net2pmask.getD (1 : Int).toNat 0 = radioOn.sMdmInfo.preferredNetworkMode ∧
    requestSetPreferredNetworkType radioOn 1 (.final true ["+CTEC: 0,1".toList]) .failed =
      .done radioOn [.at_send_command "AT+CTEC?" [], .RIL_onRequestComplete .SUCCESS .null] :=
  ⟨by decide, by decide,
   (C8_unchanged_mode_sends_only_the_query radioOn 1 (.final true ["+CTEC: 0,1".toList]) .failed
      (by decide) (by decide)).2.1 0 (some 0) (some 1) (by decide) (by decide)⟩

/-- C9 (failing inputs): with the radio on, `onRequest` completes an SMS
acknowledgement twice (SUCCESS, then GENERIC_FAILURE from the `error` label it
falls into), completes a last-call-fail-cause request twice when AT+CEER fails,
and does not complete an ENTER_SIM_PIN2 request at all. -/
theorem C9_requests_completed_twice_or_never :
    (onRequest tiBuild radioOn .SMS_ACKNOWLEDGE (deadChannel 1)).trace =
      [.at_send_command "AT+CNMA=1" [], .RIL_onRequestComplete .SUCCESS .null,
       .RIL_onRequestComplete .GENERIC_FAILURE .null] ∧
    completions (onRequest tiBuild radioOn .SMS_ACKNOWLEDGE (deadChannel 1)).trace = 2 ∧
    completions (onRequest tiBuild radioOn .LAST_CALL_FAIL_CAUSE (deadChannel 0)).trace = 2 ∧
    completions (onRequest tiBuild radioOn .ENTER_SIM_PIN2 (deadChannel 0)).trace = 0 := by
  decide

/-- With a token, `requestOrSendDataCallList` completes the request exactly once
whenever it returns. -/
theorem requestOrSendDataCallList_completes_once (g : Globals) (cgact cgcontrdp : ATReply) :
    (requestOrSendDataCallList g true cgact cgcontrdp).onceIfReturns := by
  unfold requestOrSendDataCallList
  repeat (first | rfl | trivial | split)

/-- Whenever `requestGetCurrentCalls` returns, it has completed the request
exactly once. -/
theorem requestGetCurrentCalls_completes_once (b : Build) (g : Globals) (reply : ATReply) :
    (requestGetCurrentCalls b g reply).onceIfReturns := by
  unfold requestGetCurrentCalls
  cases reply with
  | failed => rfl
  | final success lines =>
    cases success with
    | false => rfl
    | true =>
      cases hb : b.WORKAROUND_ERRONEOUS_ANSWER
      · simp only [Bool.false_eq_true, if_false, Bool.false_and]
        split
        · trivial
        · simp only [Outcome.onceIfReturns, completions, List.filter_append, List.length_append]
          split <;> simp [Event.isComplete]
      · simp only [if_true, Bool.true_and]
        split
        · trivial
        · split
          · simp [Outcome.onceIfReturns, completions, Event.isComplete]
          · simp only [Outcome.onceIfReturns, completions, List.filter_append,
              List.length_append]
            split <;> simp [Event.isComplete]

/-- Whenever `requestSetPreferredNetworkType` returns, it has completed the
request exactly once. -/
theorem requestSetPreferredNetworkType_completes_once (g : Globals) (v : Int)
    (q s : ATReply) : (requestSetPreferredNetworkType g v q s).onceIfReturns := by
  unfold requestSetPreferredNetworkType
  simp only []
  repeat' split
  all_goals
    first
    | trivial
    | rfl
    | (simp only [Outcome.onceIfReturns, completions, List.filter_append, List.length_append,
         setRadioTechnology]
       repeat (first | rfl | split))

/-- Whenever `requestRegistrationState` returns, it has completed the request
exactly once. -/
theorem requestRegistrationState_completes_once (g : Globals) (request : Request)
    (reply : ATReply) : (requestRegistrationState g request reply).onceIfReturns := by
  unfold requestRegistrationState
  simp only []
  repeat' split
  all_goals trivial

/-- C10 (failing input): when the modem rejects AT+CREG? (the command returns 0
with `success` 0 and no intermediate line), `requestRegistrationState` reads the
line of the missing intermediate response: it crashes after sending the command,
without having called `RIL_onRequestComplete`. -/
theorem C10_registration_request_not_completed_on_modem_error :
    requestRegistrationState radioOn .VOICE_REGISTRATION_STATE (.final false []) =
      .crash [.at_send_command "AT+CREG?" []] ∧
    completions
      (requestRegistrationState radioOn .VOICE_REGISTRATION_STATE (.final false [])).trace = 0 := by
  exact ⟨rfl, by decide⟩

/-! ## Radio state, repoll counter, unsolicited lines -/

/-- C11: while the radio state is Unavailable, `onRequest` answers every request
other than GET_SIM_STATUS with the single completion RADIO_NOT_AVAILABLE without
payload; it sends no AT command and leaves the statics as they are. -/
theorem C11_unavailable_rejects_requests (b : Build) (g : Globals) (request : Request)
    (env : RequestEnv) (hs : g.sState = .UNAVAILABLE) (hr : request ≠ .GET_SIM_STATUS) :
    onRequest b g request env = .done g [.RIL_onRequestComplete .RADIO_NOT_AVAILABLE .null] := by
  unfold onRequest
  rw [if_pos ⟨hs, hr⟩]

/-- C11 at an example: a call-list request in the initial, unavailable state. -/
theorem C11_unavailable_rejects_call_list :
    (Globals.init gsmModem).sState = .UNAVAILABLE ∧
    Request.GET_CURRENT_CALLS ≠ Request.GET_SIM_STATUS ∧
    onRequest tiBuild (Globals.init gsmModem) .GET_CURRENT_CALLS (deadChannel 0) =
      .done (Globals.init gsmModem) [.RIL_onRequestComplete .RADIO_NOT_AVAILABLE .null] :=
  ⟨rfl, by decide,
   C11_unavailable_rejects_requests tiBuild (Globals.init gsmModem) .GET_CURRENT_CALLS
     (deadChannel 0) rfl (by decide)⟩

theorem setRadioState_closed (b : Build) (g : Globals) (newState : RIL_RadioState)
    (cpin : ATReply) (cme : CmeReported) (hc : g.s_closed > 0) :
    setRadioState b g newState cpin cme =
      .done { g with sState := .UNAVAILABLE }
        (if g.sState = .UNAVAILABLE then []
         else [.RIL_onUnsolicitedResponse .RESPONSE_RADIO_STATE_CHANGED .null]) := by
  unfold setRadioState
  simp only [hc, if_true, or_true]
  by_cases hs : g.sState = .UNAVAILABLE
  · simp [hs]
  · have hs1 : ¬ RIL_RadioState.UNAVAILABLE = g.sState := fun h => hs h.symm
    simp [hs, hs1]

/-- C12: while the closed flag is set, `setRadioState` leaves the radio state
Unavailable whatever the prior and the requested state (it sends no command and
runs no power-on initialisation); hence after any non-empty sequence of
`setRadioState` calls, or any sequence that starts in Unavailable, the state is
Unavailable and the flag is still set. -/
theorem C12_closed_forces_unavailable (b : Build) (g : Globals) (hc : g.s_closed > 0) :
    (∀ newState cpin cme, ∃ g1 trace,
      setRadioState b g newState cpin cme = .done g1 trace ∧
      g1.sState = .UNAVAILABLE ∧ g1.s_closed = g.s_closed ∧
      trace.filter Event.isCommand = []) ∧
    (∀ calls, ∃ g1 trace, setRadioStates b g calls = .done g1 trace ∧
      g1.s_closed = g.s_closed ∧
      (calls ≠ [] ∨ g.sState = .UNAVAILABLE → g1.sState = .UNAVAILABLE)) := by
  constructor
  · intro newState cpin cme
    refine ⟨_, _, setRadioState_closed b g newState cpin cme hc, rfl, rfl, ?_⟩
    split <;> rfl
  · intro calls
    induction calls generalizing g with
    | nil => exact ⟨g, [], rfl, rfl, fun h => h.elim (fun h => absurd rfl h) id⟩
    | cons c rest ih =>
      obtain ⟨newState, cpin, cme⟩ := c
      obtain ⟨g2, t2, h2, hc2, hs2⟩ := ih { g with sState := .UNAVAILABLE } hc
      refine ⟨g2, (if g.sState = .UNAVAILABLE then []
         else [.RIL_onUnsolicitedResponse .RESPONSE_RADIO_STATE_CHANGED .null]) ++ t2,
        ?_, hc2, fun _ => hs2 (Or.inr rfl)⟩
      simp only [setRadioStates, setRadioState_closed b g newState cpin cme hc, h2]

/-- C12 at an example: the channel has closed while the radio was on; a request
to switch the radio on leaves it Unavailable. -/
theorem C12_closed_example :
    ({ radioOn with s_closed := 1 } : Globals).s_closed > 0 ∧
    ∃ g1 trace, setRadioState tiBuild { radioOn with s_closed := 1 } .ON .failed .other =
      .done g1 trace ∧ g1.sState = .UNAVAILABLE ∧
      g1.s_closed = ({ radioOn with s_closed := 1 } : Globals).s_closed ∧
      trace.filter Event.isCommand = [] :=
  ⟨by decide,
   (C12_closed_forces_unavailable tiBuild { radioOn with s_closed := 1 } (by decide)).1
     .ON .failed .other⟩

theorem workaroundHit_lt (prev cur expect count : Int) (calls : List RIL_Call)
    (h : workaroundHit prev cur expect count calls = true) : count < 4 := by
  unfold workaroundHit at h
  simp only [Bool.and_eq_true, List.any_eq_true, decide_eq_true_eq] at h
  obtain ⟨-, c, -, -, hlt⟩ := h
  exact hlt

theorem requestGetCurrentCalls_count_le (b : Build) (g g1 : Globals) (reply : ATReply)
    (trace : List Event) (h : requestGetCurrentCalls b g reply = .done g1 trace)
    (hg : g.s_repollCallsCount ≤ 4) : g1.s_repollCallsCount ≤ 4 := by
  unfold requestGetCurrentCalls at h
  cases reply with
  | failed =>
    simp only [Outcome.done.injEq] at h
    rw [← h.1]
    split <;> exact hg
  | final success lines =>
    cases success with
    | false =>
      simp only [Outcome.done.injEq] at h
      rw [← h.1]
      split <;> exact hg
    | true =>
      cases hb : b.WORKAROUND_ERRONEOUS_ANSWER
      · simp only [hb, Bool.false_eq_true, if_false, Bool.false_and] at h
        split at h
        · cases h
        · simp only [Outcome.done.injEq] at h
          rw [← h.1]
          exact hg
      · simp only [hb, if_true, Bool.true_and] at h
        split at h
        · cases h
        · split at h
          · rename_i hhit
            have := workaroundHit_lt _ _ _ _ _ hhit
            simp only [Outcome.done.injEq] at h
            rw [← h.1]
            simp only at this ⊢
            omega
          · simp only [Outcome.done.injEq] at h
            rw [← h.1]
            show (0 : Int) ≤ 4
            decide

theorem WorkaroundStep_count_le (b : Build) (g g1 : Globals) (hs : WorkaroundStep b g g1)
    (hg : g.s_repollCallsCount ≤ 4) : g1.s_repollCallsCount ≤ 4 := by
  cases hs with
  | poll reply trace h => exact requestGetCurrentCalls_count_le b g g1 reply trace h hg
  | answer env trace h =>
    unfold onRequest at h
    split at h
    · simp only [Outcome.done.injEq] at h
      rw [← h.1]; exact hg
    · simp only [Outcome.done.injEq] at h
      rw [← h.1]
      split <;> exact hg
  | switchCalls env trace h =>
    unfold onRequest at h
    split at h
    · simp only [Outcome.done.injEq] at h
      rw [← h.1]; exact hg
    · simp only at h
      split at h
      · simp only [Outcome.done.injEq] at h
        rw [← h.1]
        split <;> exact hg
      · simp only [Outcome.done.injEq] at h
        rw [← h.1]
        split <;> exact hg
  | other hline hcount hexpect => rw [hcount]; exact hg

/-- C13: in every state reachable from the static initialisers by call-list
polls with arbitrary replies, answer and switch requests, and any other activity
that leaves the workaround statics alone, the repoll counter
`s_repollCallsCount` is at most 4 (with the workaround enabled or not). -/
theorem C13_repoll_counter_at_most_4 (b : Build) (mdm : ModemInfo) (g : Globals)
    (h : WorkaroundReachable b mdm g) : g.s_repollCallsCount ≤ 4 := by
  induction h with
  | init =>
    show (0 : Int) ≤ 4
    decide
  | step g g1 _ hs ih => exact WorkaroundStep_count_le b g g1 hs ih

/-- C13 at an example: after power on, a poll with an incoming call on line 1
and a second poll that reports the call active without an answer request, the
workaround has asked for one repoll and the counter is 1. -/
theorem C13_repoll_counter_after_one_repoll :
    WorkaroundReachable tiBuild gsmModem repolledOnce ∧
    repolledOnce.s_repollCallsCount = 1 ∧ repolledOnce.s_repollCallsCount ≤ 4 :=
  have hr : WorkaroundReachable tiBuild gsmModem repolledOnce :=
    .step ringingOnLine1 repolledOnce
      (.step radioOn ringingOnLine1
        (.step (Globals.init gsmModem) radioOn .init (.other _ _ rfl rfl rfl))
        (.poll _ _ (.final true [clccIncomingLine])
          (requestGetCurrentCalls tiBuild radioOn (.final true [clccIncomingLine])).trace rfl))
      (.poll _ _ (.final true ["+CLCC: 1,1,0,0,0".toList])
        (requestGetCurrentCalls tiBuild ringingOnLine1
          (.final true ["+CLCC: 1,1,0,0,0".toList])).trace rfl)
  ⟨hr, by decide, C13_repoll_counter_at_most_4 tiBuild gsmModem repolledOnce hr⟩

/-- C14 (failing input): on the line `+CFUN: 1`, received while the radio state
is Off, `onUnsolicited` calls `setRadioState(RADIO_STATE_ON)`, which runs the
post-power-on initialisation inside the classifier: the commands AT+CPIN? (and
before it, in a TI build, AT%CPHS=1 and AT%CTZV=1) are sent on the channel. -/
theorem C14_power_on_line_sends_commands :
    (onUnsolicited plainBuild radioOff "+CFUN: 1".toList quietEnv).trace.filter Event.isCommand =
      [.at_send_command "AT+CPIN?" []] ∧
    (onUnsolicited tiBuild radioOff "+CFUN: 1".toList quietEnv).trace.filter Event.isCommand =
      [.at_send_command "AT%CPHS=1" [], .at_send_command "AT%CTZV=1" [],
       .at_send_command "AT+CPIN?" []] := by
  decide

theorem setRadioTechnology_commands (g : Globals) (t : Int) :
    (setRadioTechnology g t).2.filter Event.isCommand = [] := by
  unfold setRadioTechnology
  simp only []
  repeat' split
  all_goals rfl

theorem onUnsolicited_forward_commands (b : Build) (k : UnsolKind) (s : List Char)
    (env : UnsolEnv) (evs : List Event) (h : onUnsolicited_forward b k s env = some evs) :
    evs.filter Event.isCommand = [] := by
  unfold onUnsolicited_forward at h
  cases k
  all_goals simp only [] at h
  all_goals (repeat' split at h)
  all_goals (try (cases env_pdu : env.sms_pdu <;> simp [env_pdu] at h))
  all_goals (try subst h)
  all_goals (try rfl)

theorem unsolKind_CFUN (b : Build) (s : List Char) (h : unsolKind b s = .CFUN) :
    strStartsWith s "+CFUN:".toList = true := by
  unfold unsolKind at h
  generalize strStartsWith s "%CTZV:".toList = c0 at h
  generalize strStartsWith s "+CRING:".toList = c1 at h
  generalize strStartsWith s "RING".toList = c2 at h
  generalize strStartsWith s "NO CARRIER".toList = c3 at h
  generalize strStartsWith s "+CCWA".toList = c4 at h
  generalize strStartsWith s "CALL STATE CHANGED".toList = c5 at h
  generalize strStartsWith s "+CUSATP:".toList = c6 at h
  generalize strStartsWith s "+CREG:".toList = c7 at h
  generalize strStartsWith s "+CGREG:".toList = c8 at h
  generalize strStartsWith s "+CMT:".toList = c9 at h
  generalize strStartsWith s "+CDS:".toList = c10 at h
  generalize strStartsWith s "+CBM:".toList = c11 at h
  generalize strStartsWith s "+CGEV:".toList = c12 at h
  generalize strStartsWith s "+CME ERROR: 150".toList = c13 at h
  generalize strStartsWith s "+CTEC: ".toList = c14 at h
  generalize strStartsWith s "+CCSS: ".toList = c15 at h
  generalize strStartsWith s "+WSOS: ".toList = c16 at h
  generalize strStartsWith s "+WPRL: ".toList = c17 at h
  generalize strStartsWith s "+CFUN:".toList = c18 at h ⊢
  generalize strStartsWith s "+CSQ:".toList = c19 at h
  generalize strStartsWith s "+CNAP:".toList = c20 at h
  by_cases h0 : c0 = true
  · rw [if_pos h0] at h
    cases h
  rw [if_neg h0] at h
  by_cases h1 : (c1 || c2) = true
  · rw [if_pos h1] at h
    cases h
  rw [if_neg h1] at h
  by_cases h2 : (c3 || c4 || c5) = true
  · rw [if_pos h2] at h
    cases h
  rw [if_neg h2] at h
  by_cases h3 : c6 = true
  · rw [if_pos h3] at h
    cases h
  rw [if_neg h3] at h
  by_cases h4 : (c7 || c8) = true
  · rw [if_pos h4] at h
    cases h
  rw [if_neg h4] at h
  by_cases h5 : c9 = true
  · rw [if_pos h5] at h
    cases h
  rw [if_neg h5] at h
  by_cases h6 : c10 = true
  · rw [if_pos h6] at h
    cases h
  rw [if_neg h6] at h
  by_cases h7 : c11 = true
  · rw [if_pos h7] at h
    cases h
  rw [if_neg h7] at h
  by_cases h8 : c12 = true
  · rw [if_pos h8] at h
    cases h
  rw [if_neg h8] at h
  by_cases h9 : (b.USE_TI_COMMANDS && c13) = true
  · rw [if_pos h9] at h
    cases h
  rw [if_neg h9] at h
  by_cases h10 : c14 = true
  · rw [if_pos h10] at h
    cases h
  rw [if_neg h10] at h
  by_cases h11 : c15 = true
  · rw [if_pos h11] at h
    cases h
  rw [if_neg h11] at h
  by_cases h12 : c16 = true
  · rw [if_pos h12] at h
    cases h
  rw [if_neg h12] at h
  by_cases h13 : c17 = true
  · rw [if_pos h13] at h
    cases h
  rw [if_neg h13] at h
  by_cases h14 : c18 = true
  · exact h14
  rw [if_neg h14] at h
  by_cases h15 : c19 = true
  · rw [if_pos h15] at h
    cases h
  rw [if_neg h15] at h
  by_cases h16 : c20 = true
  · rw [if_pos h16] at h
    cases h
  rw [if_neg h16] at h
  cases h

/-- On every line that does not start with `+CFUN:`, `onUnsolicited` sends no AT
command. -/
theorem onUnsolicited_no_command_without_CFUN (b : Build) (g : Globals) (s : List Char)
    (env : UnsolEnv) (h : strStartsWith s "+CFUN:".toList = false) :
    (onUnsolicited b g s env).trace.filter Event.isCommand = [] := by
  unfold onUnsolicited
  split
  · rfl
  · split
    · unfold onUnsolicited_CTEC
      repeat' split
      all_goals first | rfl | exact setRadioTechnology_commands _ _
    · unfold onUnsolicited_CCSS
      repeat' split
      all_goals rfl
    · rename_i hk
      rw [unsolKind_CFUN b s hk] at h
      cases h
    · unfold onUnsolicited_CNAP
      repeat' split
      all_goals rfl
    · split
      · rfl
      · rename_i evs hf
        exact onUnsolicited_forward_commands _ _ _ _ _ hf


theorem setRadioTechnology_frame (g : Globals) (t : Int) :
    UnsolFrame g (setRadioTechnology g t).1 ∧
    (setRadioTechnology g t).1.sCnapInfo = g.sCnapInfo ∧
    (setRadioTechnology g t).1.sMdmInfo.subscription_source = g.sMdmInfo.subscription_source := by
  unfold setRadioTechnology UnsolFrame
  simp only []
  repeat' split
  all_goals simp

theorem clccLoopBody_noCnap (b : Build) (st : ClccLoop) (line : List Char)
    (hc : ¬ st.sCnapInfo.pending) :
    ∃ st1, clccLoopBody b st line = .ret st1 ∧
      st1.valid.map (fun c => (c.index, c.state)) =
        st.valid.map (fun c => (c.index, c.state)) ++ (clccIndexState line).toList ∧
      st1.sCnapInfo = st.sCnapInfo ∧ st1.sCnapInfoList = st.sCnapInfoList := by
  have hf := callFromCLCCLine_frame line st.slot RIL_Call.zero
  have hc1 : ¬ (st.sCnapInfo.name ≠ [] ∨
      (st.sCnapInfo.CNI_validity > 0 ∧ st.sCnapInfo.CNI_validity ≤ 2)) := hc
  unfold clccLoopBody
  by_cases hrc : (callFromCLCCLine line st.slot).1 = 0
  · have hz : (callFromCLCCLine line RIL_Call.zero).1 = 0 := by rw [← hf.1]; exact hrc
    have his : clccIndexState line =
        some ((callFromCLCCLine line st.slot).2.index, (callFromCLCCLine line st.slot).2.state) := by
      simp [clccIndexState, hz, (hf.2 hrc).1, (hf.2 hrc).2]
    simp only [hrc, ne_eq, not_true_eq_false, if_false, hc1, and_false]
    exact ⟨_, rfl, by simp [his], rfl, rfl⟩
  · have hz : ¬ (callFromCLCCLine line RIL_Call.zero).1 = 0 := by rw [← hf.1]; exact hrc
    simp [hrc, clccIndexState, hz]

theorem clccLoop_noCnap (b : Build) (lines : List (List Char)) (st : ClccLoop)
    (hc : ¬ st.sCnapInfo.pending) :
    ∃ st1, clccLoop b st lines = .ret st1 ∧
      st1.valid.map (fun c => (c.index, c.state)) =
        st.valid.map (fun c => (c.index, c.state)) ++ lines.filterMap clccIndexState ∧
      st1.sCnapInfo = st.sCnapInfo ∧ st1.sCnapInfoList = st.sCnapInfoList := by
  induction lines generalizing st with
  | nil => exact ⟨st, by simp [clccLoop]⟩
  | cons line rest ih =>
    obtain ⟨st1, h1, hv1, hc1, hcl1⟩ := clccLoopBody_noCnap b st line hc
    obtain ⟨st2, h2, hv2, hc2, hcl2⟩ := ih st1 (by rw [hc1]; exact hc)
    refine ⟨st2, ?_, ?_, ?_, ?_⟩
    · simp [clccLoop, h1, Run.bind, h2]
    · rw [hv2, hv1]
      cases h : clccIndexState line <;> simp [List.filterMap_cons, h]
    · rw [hc2, hc1]
    · rw [hcl2, hcl1]

/-- C16 (as stated): the claim fails on a response whose only line has the
call state 9: the line does not parse, and the request completes with SUCCESS
and an empty call list. -/
theorem C16_unparsable_line_gives_success :
    (callFromCLCCLine "+CLCC: 1,0,9,0,0".toList RIL_Call.zero).1 = -1 ∧
    (requestGetCurrentCalls tiBuild radioOn (.final true ["+CLCC: 1,0,9,0,0".toList])).trace =
      [.at_send_command "AT+CLCC" [], .RIL_onRequestComplete .SUCCESS (.calls [])] := by
  decide

/-- C16 (amended): a line of the AT+CLCC response that fails to parse is skipped
and does not fail the request.  For every response, when no caller name is
pending and the workaround has no previous incoming or waiting line to compare
with (or is compiled out), `requestGetCurrentCalls` completes exactly once, with
SUCCESS, carrying one record for each line that parses, in order (no record
when every line fails). -/
theorem C16_unparsable_lines_are_skipped (b : Build) (g : Globals) (lines : List (List Char))
    (hcnap : ¬ g.sCnapInfo.pending)
    (hprev : b.WORKAROUND_ERRONEOUS_ANSWER = false ∨ g.s_incomingOrWaitingLine < 0) :
    ∃ g1 calls rest, requestGetCurrentCalls b g (.final true lines) =
        .done g1 ([.at_send_command "AT+CLCC" [],
                   .RIL_onRequestComplete .SUCCESS (.calls calls)] ++ rest) ∧
      completions rest = 0 ∧
      calls.map (fun c => (c.index, c.state)) = lines.filterMap clccIndexState := by
  have hg0 : ¬ (if b.WORKAROUND_ERRONEOUS_ANSWER then
      { g with s_incomingOrWaitingLine := -1 } else g).sCnapInfo.pending := by
    split_ifs <;> exact hcnap
  obtain ⟨st1, hloop, hvalid, -, -⟩ := clccLoop_noCnap b lines
    { valid := [], slot := RIL_Call.zero, needRepoll := false,
      s_incomingOrWaitingLine := (if b.WORKAROUND_ERRONEOUS_ANSWER then
        { g with s_incomingOrWaitingLine := -1 } else g).s_incomingOrWaitingLine,
      sCnapInfo := (if b.WORKAROUND_ERRONEOUS_ANSWER then
        { g with s_incomingOrWaitingLine := -1 } else g).sCnapInfo,
      sCnapInfoList := (if b.WORKAROUND_ERRONEOUS_ANSWER then
        { g with s_incomingOrWaitingLine := -1 } else g).sCnapInfoList } hg0
  simp only [List.map_nil, List.nil_append] at hvalid
  have hmap := cnapFill_frame st1.valid st1.sCnapInfoList
  rw [hvalid] at hmap
  have hhit : ∀ cur e n cs, (b.WORKAROUND_ERRONEOUS_ANSWER &&
      workaroundHit g.s_incomingOrWaitingLine cur e n cs) = false := by
    intro cur e n cs
    rcases hprev with h | h
    · rw [h]; rfl
    · unfold workaroundHit
      have : decide (g.s_incomingOrWaitingLine ≥ 0) = false := by
        simp only [decide_eq_false_iff_not]; omega
      simp [this]
  unfold requestGetCurrentCalls
  simp only [hloop, hhit]
  refine ⟨_, _, _, rfl, ?_, hmap⟩
  split_ifs <;> rfl

/-- C16 at an example: a response with an unparsable line between two calls. -/
theorem C16_unparsable_line_between_calls :
    ¬ radioOn.sCnapInfo.pending ∧
    (tiBuild.WORKAROUND_ERRONEOUS_ANSWER = false ∨ radioOn.s_incomingOrWaitingLine < 0) ∧
    ["+CLCC: 1,0,0,0,0".toList, "+CLCC: 2,0,9,0,0".toList,
        "+CLCC: 3,0,1,0,0".toList].filterMap clccIndexState =
      [(1, RIL_CallState.ACTIVE), (3, RIL_CallState.HOLDING)] ∧
    ∃ g1 calls rest, requestGetCurrentCalls tiBuild radioOn
        (.final true ["+CLCC: 1,0,0,0,0".toList, "+CLCC: 2,0,9,0,0".toList,
          "+CLCC: 3,0,1,0,0".toList]) =
        .done g1 ([.at_send_command "AT+CLCC" [],
                   .RIL_onRequestComplete .SUCCESS (.calls calls)] ++ rest) ∧
      completions rest = 0 ∧
      calls.map (fun c => (c.index, c.state)) =
        ["+CLCC: 1,0,0,0,0".toList, "+CLCC: 2,0,9,0,0".toList,
          "+CLCC: 3,0,1,0,0".toList].filterMap clccIndexState :=
  ⟨by unfold CnapInfo.pending; decide, by decide, by decide,
   C16_unparsable_lines_are_skipped tiBuild radioOn _ (by unfold CnapInfo.pending; decide)
     (by decide)⟩

/-! ## Interface configuration -/

theorem requestOrSendDataCallList_no_configure (g : Globals) (t : Bool)
    (cgact cgcontrdp : ATReply) (ifname addr : Option (List Char)) (ret : Int) :
    Event.configureInterface ifname addr ret ∉
      (requestOrSendDataCallList g t cgact cgcontrdp).trace := by
  unfold requestOrSendDataCallList
  cases t <;> (repeat' split) <;> simp [Outcome.trace, deliverDataCallList]

/-- C17 (as stated): the claim fails for `requestDeactivateDataCall`: with both
commands accepted and `deconfigureInterface` reporting -1, the request
completes with SUCCESS. -/
theorem C17_deactivate_succeeds_when_deconfigure_fails :
    deconfigureInterface failingNet = -1 ∧
    (requestDeactivateDataCall radioOn "1".toList (.final true []) (.final true [])
        failingNet).trace =
      [.at_send_command "AT+CGACT=0,%s" [.str "1".toList],
       .at_send_command "AT+CGDCONT=%s" [.str "1".toList],
       .deconfigureInterface (some "rmnet0".toList) (-1),
       .RIL_onRequestComplete .SUCCESS .null] := by
  decide

/-- What `requestSetupDataCall` does once `findFreeCid` has returned a usable id
and the reply to `AT+CGCONTRDP=<cid>` has a first line that `parseCGCONTRDP`
accepts with an address: the events up to the call of `configureInterface`. -/
theorem requestSetupDataCall_configure_called (b : Build) (g : Globals) (apn : List Char)
    (pdp_type : Option (List Char)) (env : SetupEnv) (ifname addr : Option (List Char))
    (ret : Int) (line : List Char) (rest : List (List Char)) (r : RIL_Data_Call_Response_v6)
    (hcall : Event.configureInterface ifname addr ret ∈
      (requestSetupDataCall b g apn pdp_type env).trace)
    (henv : env.cgcontrdp = .final true (line :: rest))
    (hrec : parseCGCONTRDP line .uninitialised = .ret (0, r)) :
    ∃ pre s a, completions pre = 0 ∧ r.ifname = .val (some s) ∧ r.addresses = .val (some a) ∧
      ifname = some s ∧ addr = some a ∧ ret = configureInterface env.configure ∧
      requestSetupDataCall b g apn pdp_type env =
        if ret < 0 then
          match freeParsedCGCONTRDP r with
          | .fault =>
            .crash (pre ++ [.configureInterface ifname addr ret,
              .deconfigureInterface ifname (deconfigureInterface env.deconfigure)])
          | .ret _ =>
            .done g (pre ++ [.configureInterface ifname addr ret,
              .deconfigureInterface ifname (deconfigureInterface env.deconfigure),
              .RIL_onRequestComplete .GENERIC_FAILURE .null])
        else
          match freeParsedCGCONTRDP r with
          | .fault =>
            .crash (pre ++ [.configureInterface ifname addr ret,
              .RIL_onRequestComplete .SUCCESS (.dataCall r)])
          | .ret _ =>
            .done g (pre ++ [.configureInterface ifname addr ret,
              .RIL_onRequestComplete .SUCCESS (.dataCall r)]) := by
  have hti : ∀ x y z, Event.configureInterface x y z ∉
      (if b.USE_TI_COMMANDS then
        [Event.at_send_command "AT%CPRIM=\"GMM\",\"CONFIG MULTISLOT_CLASS=<10>\"" [],
         Event.at_send_command "AT%DATA=2,\"UART\",1,,\"SER\",\"UART\",0" []]
      else []) := by
    intro x y z
    split <;> simp
  have htic : completions (if b.USE_TI_COMMANDS then
        [Event.at_send_command "AT%CPRIM=\"GMM\",\"CONFIG MULTISLOT_CLASS=<10>\"" [],
         Event.at_send_command "AT%DATA=2,\"UART\",1,,\"SER\",\"UART\",0" []]
      else []) = 0 := by
    split <;> rfl
  obtain ⟨s, hif, haddr⟩ : ∃ s, r.ifname = .val (some s) ∧
      (r.addresses.isStored = true → ∃ a, r.addresses = .val (some a)) := by
    rcases parseCGCONTRDP_cases line dataCallInit rfl with
      ⟨hu, _⟩ | ⟨c, s, r1, r0, _, hu, _, _, _, hif, _, _, ha⟩
    · rw [hu] at hrec
      cases hrec
    · rw [hu] at hrec
      simp only [Run.ret.injEq, Prod.mk.injEq, true_and] at hrec
      subst hrec
      exact ⟨s, hif, ha⟩
  unfold requestSetupDataCall at hcall ⊢
  cases hq : env.qmi with
  | failed =>
    simp only [hq, Outcome.trace, List.mem_append, List.mem_singleton] at hcall
    rcases hcall with h | h
    · exact absurd h (hti _ _ _)
    · cases h
  | up =>
    simp only [hq] at hcall
    have hn := requestOrSendDataCallList_no_configure g true env.listCgact
      env.listCgcontrdp ifname addr ret
    cases hl : requestOrSendDataCallList g true env.listCgact env.listCgcontrdp with
    | done g1 t =>
      simp only [hl, Outcome.trace, List.mem_append] at hcall hn
      rcases hcall with h | h
      · exact absurd h (hti _ _ _)
      · exact absurd h hn
    | crash t =>
      simp only [hl, Outcome.trace, List.mem_append] at hcall hn
      rcases hcall with h | h
      · exact absurd h (hti _ _ _)
      · exact absurd h hn
  | absent =>
    simp only [hq] at hcall ⊢
    cases hf : findFreeCid g.s_maxDataContexts env.cgact with
    | fault =>
      simp only [hf, Outcome.trace, List.mem_append, List.mem_singleton] at hcall
      rcases hcall with h | h
      · exact absurd h (hti _ _ _)
      · cases h
    | ret cid =>
      simp only [hf] at hcall ⊢
      by_cases hcid : cid < 0
      · simp only [hcid, if_true, Outcome.trace, List.mem_append, List.mem_singleton] at hcall
        rcases hcall with (h | h) | h
        · exact absurd h (hti _ _ _)
        · cases h
        · cases h
      · simp only [hcid, if_false, henv, hrec, lt_self_iff_false, hif, Member.load] at hcall ⊢
        cases hra : r.addresses with
        | indeterminate =>
          simp only [hra, Member.string, Outcome.trace] at hcall
          simp at hcall
        | val oa =>
          obtain ⟨a, ha⟩ := haddr (by rw [hra]; rfl)
          rw [hra] at ha
          cases ha
          simp only [hra, Member.string] at hcall ⊢
          by_cases hc : configureInterface env.configure < 0
          · rw [if_pos hc] at hcall ⊢
            cases hfree : freeParsedCGCONTRDP r with
            | fault =>
              simp only [hfree, Outcome.trace] at hcall
              simp at hcall
              obtain ⟨h1, h2, h3⟩ := hcall
              subst h1 h2 h3
              refine ⟨((if b.USE_TI_COMMANDS then
                  [Event.at_send_command "AT%CPRIM=\"GMM\",\"CONFIG MULTISLOT_CLASS=<10>\"" [],
                   Event.at_send_command "AT%DATA=2,\"UART\",1,,\"SER\",\"UART\",0" []]
                else []) ++ [Event.at_send_command "AT+CGACT?" []] ++
                [Event.at_send_command "AT+CGDCONT=%d,\"%s\",\"%s\",,0,0"
                   [.int cid, .str (pdp_type.getD "IP".toList), .str apn],
                 .at_send_command "AT+CGQREQ=%d" [.int cid],
                 .at_send_command "AT+CGQMIN=%d" [.int cid],
                 .at_send_command "AT+CGEREP=1,0" [],
                 .at_send_command "AT+CGACT=0,%d" [.int cid],
                 .at_send_command "ATD*99***%d#" [.int cid],
                 .at_send_command "AT+CGCONTRDP=%d" [.int cid]]), s, a, ?_, rfl, rfl, rfl, rfl, rfl, ?_⟩
              · simp only [completions, List.filter_append, List.length_append] at htic ⊢
                simp [htic, Event.isComplete]
              · rw [if_pos hc]
                try simp
            | ret r1 =>
              simp only [hfree, Outcome.trace] at hcall
              simp at hcall
              obtain ⟨h1, h2, h3⟩ := hcall
              subst h1 h2 h3
              refine ⟨((if b.USE_TI_COMMANDS then
                  [Event.at_send_command "AT%CPRIM=\"GMM\",\"CONFIG MULTISLOT_CLASS=<10>\"" [],
                   Event.at_send_command "AT%DATA=2,\"UART\",1,,\"SER\",\"UART\",0" []]
                else []) ++ [Event.at_send_command "AT+CGACT?" []] ++
                [Event.at_send_command "AT+CGDCONT=%d,\"%s\",\"%s\",,0,0"
                   [.int cid, .str (pdp_type.getD "IP".toList), .str apn],
                 .at_send_command "AT+CGQREQ=%d" [.int cid],
                 .at_send_command "AT+CGQMIN=%d" [.int cid],
                 .at_send_command "AT+CGEREP=1,0" [],
                 .at_send_command "AT+CGACT=0,%d" [.int cid],
                 .at_send_command "ATD*99***%d#" [.int cid],
                 .at_send_command "AT+CGCONTRDP=%d" [.int cid]]), s, a, ?_, rfl, rfl, rfl, rfl, rfl, ?_⟩
              · simp only [completions, List.filter_append, List.length_append] at htic ⊢
                simp [htic, Event.isComplete]
              · rw [if_pos hc]
                try simp
          · rw [if_neg hc] at hcall ⊢
            cases hfree : freeParsedCGCONTRDP r with
            | fault =>
              simp only [hfree, Outcome.trace] at hcall
              simp at hcall
              obtain ⟨h1, h2, h3⟩ := hcall
              subst h1 h2 h3
              refine ⟨((if b.USE_TI_COMMANDS then
                  [Event.at_send_command "AT%CPRIM=\"GMM\",\"CONFIG MULTISLOT_CLASS=<10>\"" [],
                   Event.at_send_command "AT%DATA=2,\"UART\",1,,\"SER\",\"UART\",0" []]
                else []) ++ [Event.at_send_command "AT+CGACT?" []] ++
                [Event.at_send_command "AT+CGDCONT=%d,\"%s\",\"%s\",,0,0"
                   [.int cid, .str (pdp_type.getD "IP".toList), .str apn],
                 .at_send_command "AT+CGQREQ=%d" [.int cid],
                 .at_send_command "AT+CGQMIN=%d" [.int cid],
                 .at_send_command "AT+CGEREP=1,0" [],
                 .at_send_command "AT+CGACT=0,%d" [.int cid],
                 .at_send_command "ATD*99***%d#" [.int cid],
                 .at_send_command "AT+CGCONTRDP=%d" [.int cid]]), s, a, ?_, rfl, rfl, rfl, rfl, rfl, ?_⟩
              · simp only [completions, List.filter_append, List.length_append] at htic ⊢
                simp [htic, Event.isComplete]
              · rw [if_neg hc]
                try simp
            | ret r1 =>
              simp only [hfree, Outcome.trace] at hcall
              simp at hcall
              obtain ⟨h1, h2, h3⟩ := hcall
              subst h1 h2 h3
              refine ⟨((if b.USE_TI_COMMANDS then
                  [Event.at_send_command "AT%CPRIM=\"GMM\",\"CONFIG MULTISLOT_CLASS=<10>\"" [],
                   Event.at_send_command "AT%DATA=2,\"UART\",1,,\"SER\",\"UART\",0" []]
                else []) ++ [Event.at_send_command "AT+CGACT?" []] ++
                [Event.at_send_command "AT+CGDCONT=%d,\"%s\",\"%s\",,0,0"
                   [.int cid, .str (pdp_type.getD "IP".toList), .str apn],
                 .at_send_command "AT+CGQREQ=%d" [.int cid],
                 .at_send_command "AT+CGQMIN=%d" [.int cid],
                 .at_send_command "AT+CGEREP=1,0" [],
                 .at_send_command "AT+CGACT=0,%d" [.int cid],
                 .at_send_command "ATD*99***%d#" [.int cid],
                 .at_send_command "AT+CGCONTRDP=%d" [.int cid]]), s, a, ?_, rfl, rfl, rfl, rfl, rfl, ?_⟩
              · simp only [completions, List.filter_append, List.length_append] at htic ⊢
                simp [htic, Event.isComplete]
              · rw [if_neg hc]
                try simp

/-- In `requestSetupDataCall`, a failing `configureInterface` on a record that
stops before the DNS field: `deconfigureInterface` is called, then
`freeParsedCGCONTRDP` frees the members of `tmp_rp` that nothing has stored to,
and the handler crashes without having completed the request. -/
theorem requestSetupDataCall_short_record_faults (b : Build) (g : Globals) (apn : List Char)
    (pdp_type : Option (List Char)) (env : SetupEnv) (ifname addr : Option (List Char))
    (ret : Int) (line : List Char) (rest : List (List Char)) (r : RIL_Data_Call_Response_v6)
    (hcall : Event.configureInterface ifname addr ret ∈
      (requestSetupDataCall b g apn pdp_type env).trace)
    (hret : ret < 0)
    (henv : env.cgcontrdp = .final true (line :: rest))
    (hrec : parseCGCONTRDP line .uninitialised = .ret (0, r))
    (hdns : r.dnses.isStored = false) :
    ∃ pre, requestSetupDataCall b g apn pdp_type env =
        .crash (pre ++ [.configureInterface ifname addr ret,
          .deconfigureInterface ifname (deconfigureInterface env.deconfigure)]) ∧
      completions pre = 0 := by
  obtain ⟨pre, s, a, hpre, _, _, _, _, _, h⟩ :=
    requestSetupDataCall_configure_called b g apn pdp_type env ifname addr ret line rest r
      hcall henv hrec
  have hfree : freeParsedCGCONTRDP r = .fault := by
    apply freeParsedCGCONTRDP_fault
    simp [RIL_Data_Call_Response_v6.pointersStored, hdns]
  rw [if_pos hret, hfree] at h
  exact ⟨pre, h, hpre⟩

/-- The crash at an example: the record carries an address but neither gateway
nor DNS, and `ifc_init` fails. -/
theorem requestSetupDataCall_short_record_example :
    ∃ pre, requestSetupDataCall tiBuild radioOnThreeContexts "internet".toList none
          shortRecordSetup =
        .crash (pre ++
          [.configureInterface (some "rmnet5".toList) (some "10.0.2.15/24".toList) (-1),
           .deconfigureInterface (some "rmnet5".toList)
             (deconfigureInterface shortRecordSetup.deconfigure)]) ∧
      completions pre = 0 :=
  requestSetupDataCall_short_record_faults tiBuild radioOnThreeContexts "internet".toList none
    shortRecordSetup (some "rmnet5".toList) (some "10.0.2.15/24".toList) (-1)
    "+CGCONTRDP: 1,5,\"internet\",\"10.0.2.15/24\"".toList [] _
    (by decide) (by decide) rfl rfl rfl

/-- C17 (amended): in `requestSetupDataCall`, whenever `configureInterface` is
called and reports failure, on a `+CGCONTRDP:` record that carries its fields up
to the DNS, the handler calls `deconfigureInterface` on the same interface and
then completes the request once, with GENERIC_FAILURE.  What
`deconfigureInterface` reports is looked at by neither operation: in
`requestDeactivateDataCall`, once both commands are accepted, the request
completes with SUCCESS whatever `deconfigureInterface` returns. -/
theorem C17_configure_failure_fails_setup (b : Build) (g : Globals) (apn : List Char)
    (pdp_type : Option (List Char)) (env : SetupEnv) (ifname addr : Option (List Char))
    (ret : Int) (line : List Char) (rest : List (List Char)) (r : RIL_Data_Call_Response_v6)
    (hcall : Event.configureInterface ifname addr ret ∈
      (requestSetupDataCall b g apn pdp_type env).trace)
    (hret : ret < 0)
    (henv : env.cgcontrdp = .final true (line :: rest))
    (hrec : parseCGCONTRDP line .uninitialised = .ret (0, r))
    (hdns : r.dnses.isStored = true) :
    (∃ pre, requestSetupDataCall b g apn pdp_type env =
        .done g (pre ++ [.configureInterface ifname addr ret,
          .deconfigureInterface ifname (deconfigureInterface env.deconfigure),
          .RIL_onRequestComplete .GENERIC_FAILURE .null]) ∧
      completions pre = 0) ∧
    (∀ (g1 : Globals) (cid : List Char) (l1 l2 : List (List Char)) (n : NetEnv),
      requestDeactivateDataCall g1 cid (.final true l1) (.final true l2) n =
        .done g1 [.at_send_command "AT+CGACT=0,%s" [.str cid],
          .at_send_command "AT+CGDCONT=%s" [.str cid],
          .deconfigureInterface (some ("rmnet".toList ++ fmtDec (atoi cid - 1)))
            (deconfigureInterface n),
          .RIL_onRequestComplete .SUCCESS .null]) := by
  refine ⟨?_, fun g1 cid l1 l2 n => rfl⟩
  obtain ⟨pre, s, a, hpre, _, _, _, _, _, h⟩ :=
    requestSetupDataCall_configure_called b g apn pdp_type env ifname addr ret line rest r
      hcall henv hrec
  have hst : r.pointersStored = true := by
    rcases parseCGCONTRDP_cases line dataCallInit rfl with
      ⟨hu, _⟩ | ⟨c, s, r1, r0, _, hu, _, _, _, _, _, hst, _⟩
    · rw [hu] at hrec
      cases hrec
    · rw [hu] at hrec
      simp only [Run.ret.injEq, Prod.mk.injEq, true_and] at hrec
      subst hrec
      exact hst hdns
  rw [if_pos hret, freeParsedCGCONTRDP_stored r hst] at h
  exact ⟨pre, h, hpre⟩

/-- C17 at an example: a setup in which `ifc_init` fails, on a record with
address, gateway and DNS. -/
theorem C17_setup_with_failing_interface :
    failingSetup.cgcontrdp = .final true cgcontrdpExample ∧
    (∃ r, parseCGCONTRDP
        "+CGCONTRDP: 1,5,\"internet\",\"10.0.2.15/24\",\"10.0.2.2\",\"10.0.2.3\"".toList
        .uninitialised = .ret (0, r) ∧ r.dnses.isStored = true) ∧
    ∃ pre, requestSetupDataCall tiBuild radioOnThreeContexts "internet".toList none
          failingSetup =
        .done radioOnThreeContexts
          (pre ++ [.configureInterface (some "rmnet5".toList) (some "10.0.2.15/24".toList) (-1),
            .deconfigureInterface (some "rmnet5".toList)
              (deconfigureInterface failingSetup.deconfigure),
            .RIL_onRequestComplete .GENERIC_FAILURE .null]) ∧
      completions pre = 0 :=
  ⟨rfl, ⟨_, rfl, rfl⟩,
   (C17_configure_failure_fails_setup tiBuild radioOnThreeContexts "internet".toList none
    failingSetup (some "rmnet5".toList) (some "10.0.2.15/24".toList) (-1)
    "+CGCONTRDP: 1,5,\"internet\",\"10.0.2.15/24\",\"10.0.2.2\",\"10.0.2.3\"".toList
    ["+CGCONTRDP: 3,6,\"mms\"".toList, "+CGCONTRDP: 5,7,\"ims\"".toList] _
    (by decide) (by decide) rfl rfl rfl).1⟩

/-! ## Technology response -/

theorem fieldInt_zero_eq (b : Nat) (p : Cursor) :
    fieldInt b 0 p = (at_tok_nextint_base b p).map (fun r => r.1) := by
  unfold fieldInt
  rfl

/-- C18: for every response line, with `p0` the cursor behind the prefix:
`parse_technology_response` returns -1 and stores nothing when the line has no
prefix, no field after the prefix, or a first field that is not a decimal
integer; it returns 1 with the first field stored as current and nothing stored
as preferred when the first field parses and the second field is absent or not
a hexadecimal integer; it returns 0 with both stored when both parse.  These are
the only results, and preferred is written exactly when the result is 0. -/
theorem C18_parse_technology_response (response : List Char) :
    (at_tok_start response = none → parse_technology_response response = (-1, none, none)) ∧
    (∀ p0, at_tok_start response = some p0 →
      (at_tok_hasmore p0 = false ∨ fieldInt 10 0 p0 = none →
        parse_technology_response response = (-1, none, none)) ∧
      (∀ ct, at_tok_hasmore p0 = true → fieldInt 10 0 p0 = some ct →
        fieldInt 16 1 p0 = none →
        parse_technology_response response = (1, some ct, none)) ∧
      (∀ ct pt, at_tok_hasmore p0 = true → fieldInt 10 0 p0 = some ct →
        fieldInt 16 1 p0 = some pt →
        parse_technology_response response = (0, some ct, some pt))) ∧
    ((parse_technology_response response).1 = -1 ∨
      (parse_technology_response response).1 = 1 ∨
      (parse_technology_response response).1 = 0) ∧
    ((parse_technology_response response).2.2 ≠ none ↔
      (parse_technology_response response).1 = 0) ∧
    ((parse_technology_response response).2.1 ≠ none ↔
      (parse_technology_response response).1 ≠ -1) := by
  unfold parse_technology_response
  cases hs : at_tok_start response with
  | none => simp
  | some p0 =>
    cases hm : at_tok_hasmore p0 with
    | false => simp [hm]
    | true =>
      cases hn : at_tok_nextint p0 with
      | none =>
        have h0 : fieldInt 10 0 p0 = none := by
          rw [fieldInt_zero_eq]; unfold at_tok_nextint at hn; rw [hn]; rfl
        simp [h0, hm, hn]
      | some r =>
        obtain ⟨ct, p1⟩ := r
        have h0 : fieldInt 10 0 p0 = some ct := by
          rw [fieldInt_zero_eq]; unfold at_tok_nextint at hn; rw [hn]; rfl
        have h1 : fieldInt 16 1 p0 = (at_tok_nexthexint p1).map (fun r => r.1) := by
          unfold at_tok_nextint at hn
          rw [fieldInt_succ 0 hn, fieldInt_zero_eq]
          rfl
        cases hh : at_tok_nexthexint p1 with
        | none =>
          rw [hh] at h1
          simp [h0, h1, hm, hn, hh]
        | some r2 =>
          obtain ⟨pt, p2⟩ := r2
          rw [hh] at h1
          simp [h0, h1, hm, hn, hh]

/-- C18 at examples: a line with both fields, one with the current technology
only, one whose mask is not hexadecimal, and one without fields. -/
theorem C18_parse_technology_examples :
    parse_technology_response "+CTEC: 3,1f".toList = (0, some 3, some 31) ∧
    parse_technology_response "+CTEC: 3".toList = (1, some 3, none) ∧
    parse_technology_response "+CTEC: 3,xyz".toList = (1, some 3, none) ∧
    parse_technology_response "+CTEC:".toList = (-1, none, none) :=
  ⟨((C18_parse_technology_response "+CTEC: 3,1f".toList).2.1 (some " 3,1f".toList)
      (by decide)).2.2 3 31 (by decide) (by decide) (by decide),
   ((C18_parse_technology_response "+CTEC: 3".toList).2.1 (some " 3".toList)
      (by decide)).2.1 3 (by decide) (by decide) (by decide),
   ((C18_parse_technology_response "+CTEC: 3,xyz".toList).2.1 (some " 3,xyz".toList)
      (by decide)).2.1 3 (by decide) (by decide) (by decide),
   ((C18_parse_technology_response "+CTEC:".toList).2.1 (some [])
      (by decide)).1 (Or.inl (by decide))⟩

/-- C19 (as stated): the claim fails for `requestGetPreferredNetworkType`: on a
technology response that carries the current value without a preferred mask
`query_ctec` returns 1 and the request completes with GENERIC_FAILURE. -/
theorem C19_get_preferred_fails_on_partial :
    query_ctec (.final true ["+CTEC: 0".toList]) = .ret (1, some 0, none) ∧
    (requestGetPreferredNetworkType radioOn (.final true ["+CTEC: 0".toList])).trace =
      [.at_send_command "AT+CTEC?" [], .RIL_onRequestComplete .GENERIC_FAILURE .null] := by
  decide

/-- C19 (amended): `requestSetPreferredNetworkType` and the `+CTEC: ` branch of
`onUnsolicited` treat the partial outcome like full success: with the same
current technology they behave the same on a partial and on a full result.
`requestGetPreferredNetworkType`, which has only the preferred mask to report,
completes with GENERIC_FAILURE on the partial outcome. -/
theorem C19_partial_outcome_by_caller (g : Globals) (q1 q2 : ATReply) (c p1 p2 : Option Int)
    (h1 : query_ctec q1 = .ret (1, c, p1)) (h2 : query_ctec q2 = .ret (0, c, p2)) :
    (∀ value ctecSet, requestSetPreferredNetworkType g value q1 ctecSet =
      requestSetPreferredNetworkType g value q2 ctecSet) ∧
    (∀ s1 s2 t x y, parse_technology_response s1 = (1, some t, x) →
      parse_technology_response s2 = (0, some t, y) →
      onUnsolicited_CTEC g s1 = onUnsolicited_CTEC g s2) ∧
    requestGetPreferredNetworkType g q1 =
      .done g [.at_send_command "AT+CTEC?" [], .RIL_onRequestComplete .GENERIC_FAILURE .null] := by
  refine ⟨?_, ?_, ?_⟩
  · intro value ctecSet
    unfold requestSetPreferredNetworkType
    simp only [h1, h2]
    rfl
  · intro s1 s2 t x y hs1 hs2
    unfold onUnsolicited_CTEC
    rw [hs1, hs2]
  · unfold requestGetPreferredNetworkType
    simp only [h1]
    rfl

/-- C19 at an example: the query answered with `+CTEC: 0` and with
`+CTEC: 0,4`. -/
theorem C19_partial_and_full_example :
    (∀ value ctecSet,
      requestSetPreferredNetworkType radioOn value (.final true ["+CTEC: 0".toList]) ctecSet =
      requestSetPreferredNetworkType radioOn value (.final true ["+CTEC: 0,4".toList])
        ctecSet) ∧
    (∀ s1 s2 t x y, parse_technology_response s1 = (1, some t, x) →
      parse_technology_response s2 = (0, some t, y) →
      onUnsolicited_CTEC radioOn s1 = onUnsolicited_CTEC radioOn s2) ∧
    requestGetPreferredNetworkType radioOn (.final true ["+CTEC: 0".toList]) =
      .done radioOn
        [.at_send_command "AT+CTEC?" [], .RIL_onRequestComplete .GENERIC_FAILURE .null] :=
  C19_partial_outcome_by_caller radioOn (.final true ["+CTEC: 0".toList])
    (.final true ["+CTEC: 0,4".toList]) (some 0) none (some 4) (by decide) (by decide)

/-! ## Pending caller name -/

theorem clccIndexState_of_parse (line : List Char) (slot : RIL_Call)
    (hrc : (callFromCLCCLine line slot).1 = 0) :
    clccIndexState line =
      some ((callFromCLCCLine line slot).2.index, (callFromCLCCLine line slot).2.state) := by
  have hf := callFromCLCCLine_frame line slot RIL_Call.zero
  have hz : (callFromCLCCLine line RIL_Call.zero).1 = 0 := by rw [← hf.1]; exact hrc
  simp [clccIndexState, hz, (hf.2 hrc).1, (hf.2 hrc).2]

theorem clccIndexState_of_fail (line : List Char) (slot : RIL_Call)
    (hrc : ¬ (callFromCLCCLine line slot).1 = 0) : clccIndexState line = none := by
  have hf := callFromCLCCLine_frame line slot RIL_Call.zero
  have hz : ¬ (callFromCLCCLine line RIL_Call.zero).1 = 0 := by rw [← hf.1]; exact hrc
  simp [clccIndexState, hz]

theorem clccLoopBody_skip (b : Build) (st : ClccLoop) (line : List Char)
    (h : clccIndexState line = none) :
    ∃ slot, clccLoopBody b st line = .ret { st with slot := slot } := by
  unfold clccLoopBody
  by_cases hrc : (callFromCLCCLine line st.slot).1 = 0
  · rw [clccIndexState_of_parse line st.slot hrc] at h
    cases h
  · exact ⟨(callFromCLCCLine line st.slot).2, by simp [hrc]⟩

theorem clccLoopBody_plain (b : Build) (st : ClccLoop) (line : List Char)
    (hrc : (callFromCLCCLine line st.slot).1 = 0)
    (hn : ¬ (isIncomingOrWaiting ((callFromCLCCLine line st.slot).2.index,
        (callFromCLCCLine line st.slot).2.state) = true ∧ st.sCnapInfo.pending)) :
    clccLoopBody b st line =
      .ret (clccNext b st (callFromCLCCLine line st.slot).2 st.sCnapInfo st.sCnapInfoList) := by
  have hn1 : ¬ ((decide ((callFromCLCCLine line st.slot).2.state = RIL_CallState.INCOMING) ||
        decide ((callFromCLCCLine line st.slot).2.state = RIL_CallState.WAITING)) = true ∧
      (st.sCnapInfo.name ≠ [] ∨
        (st.sCnapInfo.CNI_validity > 0 ∧ st.sCnapInfo.CNI_validity ≤ 2))) := hn
  unfold clccLoopBody
  dsimp only
  rw [if_neg (not_not.mpr hrc), if_neg hn1]
  rfl

theorem clccLoopBody_attach (b : Build) (st : ClccLoop) (line : List Char)
    (hrc : (callFromCLCCLine line st.slot).1 = 0)
    (hiw : isIncomingOrWaiting ((callFromCLCCLine line st.slot).2.index,
        (callFromCLCCLine line st.slot).2.state) = true)
    (hp : st.sCnapInfo.pending)
    (hr : 1 ≤ (callFromCLCCLine line st.slot).2.index ∧
      (callFromCLCCLine line st.slot).2.index ≤ 7) :
    clccLoopBody b st line =
      .ret (clccNext b st (callFromCLCCLine line st.slot).2 CnapInfo.empty
        (Function.update st.sCnapInfoList (cnapSlot (callFromCLCCLine line st.slot).2.index)
          st.sCnapInfo)) := by
  have hr1 : 0 ≤ (callFromCLCCLine line st.slot).2.index - 1 ∧
      (callFromCLCCLine line st.slot).2.index - 1 < 7 := by omega
  have hc : isIncomingOrWaiting ((callFromCLCCLine line st.slot).2.index,
        (callFromCLCCLine line st.slot).2.state) = true ∧ st.sCnapInfo.pending := ⟨hiw, hp⟩
  have hc1 : ((decide ((callFromCLCCLine line st.slot).2.state = RIL_CallState.INCOMING) ||
        decide ((callFromCLCCLine line st.slot).2.state = RIL_CallState.WAITING)) = true ∧
      (st.sCnapInfo.name ≠ [] ∨
        (st.sCnapInfo.CNI_validity > 0 ∧ st.sCnapInfo.CNI_validity ≤ 2))) := hc
  unfold clccLoopBody
  dsimp only
  rw [if_neg (not_not.mpr hrc), if_pos hc1, dif_pos hr1]
  have hfin : (⟨((callFromCLCCLine line st.slot).2.index - 1).toNat, by omega⟩ : Fin 7) =
      cnapSlot (callFromCLCCLine line st.slot).2.index := by
    apply Fin.ext
    simp only [cnapSlot]
    omega
  rw [hfin]
  rfl

theorem clccNext_map (b : Build) (st : ClccLoop) (call : RIL_Call) (info : CnapInfo)
    (list : Fin 7 → CnapInfo) :
    (clccNext b st call info list).valid.map (fun c => (c.index, c.state)) =
      st.valid.map (fun c => (c.index, c.state)) ++ [(call.index, call.state)] := by
  simp [clccNext]

theorem clccLoopBody_line (b : Build) (st st1 : ClccLoop) (line : List Char)
    (h : clccLoopBody b st line = .ret st1) :
    st1.s_incomingOrWaitingLine = st.s_incomingOrWaitingLine ∨
    ∃ p, clccIndexState line = some p ∧ st1.s_incomingOrWaitingLine = p.1 := by
  have key : ∀ info list, (clccNext b st (callFromCLCCLine line st.slot).2 info
        list).s_incomingOrWaitingLine = st.s_incomingOrWaitingLine ∨
      (clccNext b st (callFromCLCCLine line st.slot).2 info list).s_incomingOrWaitingLine =
        (callFromCLCCLine line st.slot).2.index := by
    intro info list
    simp only [clccNext]
    split_ifs
    · exact Or.inr rfl
    · exact Or.inl rfl
  by_cases hrc : (callFromCLCCLine line st.slot).1 = 0
  · have his := clccIndexState_of_parse line st.slot hrc
    by_cases hc : isIncomingOrWaiting ((callFromCLCCLine line st.slot).2.index,
        (callFromCLCCLine line st.slot).2.state) = true ∧ st.sCnapInfo.pending
    · by_cases hr : 0 ≤ (callFromCLCCLine line st.slot).2.index - 1 ∧
          (callFromCLCCLine line st.slot).2.index - 1 < 7
      · rw [clccLoopBody_attach b st line hrc hc.1 hc.2 (by omega)] at h
        rw [← Run.ret.inj h]
        rcases key CnapInfo.empty (Function.update st.sCnapInfoList
          (cnapSlot (callFromCLCCLine line st.slot).2.index) st.sCnapInfo) with h1 | h1
        · exact Or.inl h1
        · exact Or.inr ⟨_, his, h1⟩
      · have hc1 : ((decide ((callFromCLCCLine line st.slot).2.state = RIL_CallState.INCOMING) ||
        decide ((callFromCLCCLine line st.slot).2.state = RIL_CallState.WAITING)) = true ∧
      (st.sCnapInfo.name ≠ [] ∨
        (st.sCnapInfo.CNI_validity > 0 ∧ st.sCnapInfo.CNI_validity ≤ 2))) := hc
        unfold clccLoopBody at h
        dsimp only at h
        rw [if_neg (not_not.mpr hrc), if_pos hc1, dif_neg hr] at h
        cases h
    · rw [clccLoopBody_plain b st line hrc hc] at h
      rw [← Run.ret.inj h]
      rcases key st.sCnapInfo st.sCnapInfoList with h1 | h1
      · exact Or.inl h1
      · exact Or.inr ⟨_, his, h1⟩
  · obtain ⟨slot, hs⟩ := clccLoopBody_skip b st line (clccIndexState_of_fail line st.slot hrc)
    rw [hs] at h
    rw [← Run.ret.inj h]
    exact Or.inl rfl

theorem clccLoop_line_ge (b : Build) (lines : List (List Char)) (st st1 : ClccLoop)
    (hidx : ∀ q ∈ lines.filterMap clccIndexState, 1 ≤ q.1)
    (hst : 1 ≤ st.s_incomingOrWaitingLine) (h : clccLoop b st lines = .ret st1) :
    1 ≤ st1.s_incomingOrWaitingLine := by
  induction lines generalizing st with
  | nil =>
    simp only [clccLoop] at h
    rw [← Run.ret.inj h]; exact hst
  | cons line rest ih =>
    unfold clccLoop at h
    cases hb : clccLoopBody b st line with
    | fault => simp [hb, Run.bind] at h
    | ret st2 =>
      simp only [hb, Run.bind] at h
      have hrest : ∀ q ∈ rest.filterMap clccIndexState, 1 ≤ q.1 := by
        intro q hq
        apply hidx q
        cases hc : clccIndexState line <;> simp [List.filterMap_cons, hc, hq]
      refine ih st2 hrest ?_ h
      rcases clccLoopBody_line b st st2 line hb with h1 | ⟨p, hp, h1⟩
      · rw [h1]; exact hst
      · rw [h1]
        exact hidx p (by simp [List.filterMap_cons, hp])

theorem clccLoop_pending (b : Build) (lines : List (List Char)) (st : ClccLoop)
    (p : Int × RIL_CallState) (hpend : st.sCnapInfo.pending)
    (hidx : ∀ q ∈ lines.filterMap clccIndexState, 1 ≤ q.1 ∧ q.1 ≤ 7)
    (hfind : (lines.filterMap clccIndexState).find? isIncomingOrWaiting = some p) :
    ∃ st1, clccLoop b st lines = .ret st1 ∧
      st1.valid.map (fun c => (c.index, c.state)) =
        st.valid.map (fun c => (c.index, c.state)) ++ lines.filterMap clccIndexState ∧
      st1.sCnapInfo = CnapInfo.empty ∧
      st1.sCnapInfoList = Function.update st.sCnapInfoList (cnapSlot p.1) st.sCnapInfo ∧
      (b.WORKAROUND_ERRONEOUS_ANSWER = true → 1 ≤ st1.s_incomingOrWaitingLine) := by
  induction lines generalizing st with
  | nil => simp at hfind
  | cons line rest ih =>
    cases hcis : clccIndexState line with
    | none =>
      obtain ⟨slot, hs⟩ := clccLoopBody_skip b st line hcis
      have hfm : (line :: rest).filterMap clccIndexState = rest.filterMap clccIndexState := by
        simp [List.filterMap_cons, hcis]
      rw [hfm] at hidx hfind ⊢
      obtain ⟨st1, h1, hv, hc, hl, hw⟩ := ih { st with slot := slot } hpend hidx hfind
      exact ⟨st1, by simp [clccLoop, hs, Run.bind, h1], hv, hc, hl, hw⟩
    | some q =>
      have hfm : (line :: rest).filterMap clccIndexState =
          q :: rest.filterMap clccIndexState := by
        simp [List.filterMap_cons, hcis]
      rw [hfm] at hidx hfind ⊢
      have hrc : (callFromCLCCLine line st.slot).1 = 0 := by
        by_contra hne
        rw [clccIndexState_of_fail line st.slot hne] at hcis
        cases hcis
      have hq : q = ((callFromCLCCLine line st.slot).2.index,
          (callFromCLCCLine line st.slot).2.state) := by
        have := clccIndexState_of_parse line st.slot hrc
        rw [hcis] at this
        exact Option.some.inj this
      have hrest : ∀ r ∈ rest.filterMap clccIndexState, 1 ≤ r.1 ∧ r.1 ≤ 7 :=
        fun r hr => hidx r (List.mem_cons_of_mem _ hr)
      have hqi : (callFromCLCCLine line st.slot).2.index = q.1 := by rw [hq]
      have hqp : ((callFromCLCCLine line st.slot).2.index,
          (callFromCLCCLine line st.slot).2.state) = q := hq.symm
      by_cases hiw : isIncomingOrWaiting q = true
      · have hpq : p = q := by
          rw [List.find?_cons_of_pos _ hiw] at hfind
          exact (Option.some.inj hfind).symm
        subst hpq
        have hrange := hidx p (List.mem_cons_self _ _)
        have hb := clccLoopBody_attach b st line hrc (by rw [hqp]; exact hiw) hpend
          (by rw [hqi]; exact hrange)
        rw [hqi] at hb
        obtain ⟨st1, h1, hv, hc, hl⟩ := clccLoop_noCnap b rest
          (clccNext b st (callFromCLCCLine line st.slot).2 CnapInfo.empty
            (Function.update st.sCnapInfoList (cnapSlot p.1) st.sCnapInfo))
          (by simp [clccNext, CnapInfo.empty, CnapInfo.pending])
        refine ⟨st1, by simp [clccLoop, hb, Run.bind, h1], ?_, ?_, ?_, ?_⟩
        · rw [hv, clccNext_map, hqp]
          simp
        · rw [hc]; rfl
        · rw [hl]; rfl
        · intro hwa
          refine clccLoop_line_ge b rest _ st1 (fun r hr => (hrest r hr).1) ?_ h1
          have hiw2 : isIncomingOrWaiting ((callFromCLCCLine line st.slot).2.index,
              (callFromCLCCLine line st.slot).2.state) = true := by rw [hqp]; exact hiw
          simp only [clccNext, hwa, hiw2, Bool.and_self, if_true]
          rw [hqi]
          exact hrange.1
      · have hfind2 : (rest.filterMap clccIndexState).find? isIncomingOrWaiting = some p := by
          rw [List.find?_cons_of_neg _ hiw] at hfind
          exact hfind
        have hb := clccLoopBody_plain b st line hrc
          (by rw [hqp]; exact fun h => hiw h.1)
        obtain ⟨st1, h1, hv, hc, hl, hw⟩ := ih
          (clccNext b st (callFromCLCCLine line st.slot).2 st.sCnapInfo st.sCnapInfoList)
          hpend hrest hfind2
        refine ⟨st1, by simp [clccLoop, hb, Run.bind, h1], ?_, hc, hl, hw⟩
        rw [hv, clccNext_map, hqp]
        simp

theorem cnapAttach_keeps (calls : List RIL_Call) (i : Nat) (info : CnapInfo)
    (calls1 : List RIL_Call) (h : cnapAttach calls i info = some calls1) (c : RIL_Call)
    (hc : c ∈ calls) (hne : c.index ≠ (i : Int) + 1) : c ∈ calls1 := by
  induction calls generalizing calls1 with
  | nil => simp at hc
  | cons d rest ih =>
    unfold cnapAttach at h
    split_ifs at h with hd
    · simp only [Option.some.injEq] at h
      subst h
      rcases List.mem_cons.mp hc with h1 | h1
      · subst h1; exact absurd hd hne
      · exact List.mem_cons_of_mem _ h1
    · cases hr : cnapAttach rest i info with
      | none => simp [hr] at h
      | some r =>
        simp only [hr, Option.map_some', Option.some.injEq] at h
        subst h
        rcases List.mem_cons.mp hc with h1 | h1
        · subst h1; exact List.mem_cons_self _ _
        · exact List.mem_cons_of_mem _ (ih r hr h1)

theorem cnapAttach_hit (calls : List RIL_Call) (i : Nat) (info : CnapInfo)
    (hex : ∃ c ∈ calls, c.index = (i : Int) + 1) :
    ∃ calls1, cnapAttach calls i info = some calls1 ∧ Named ((i : Int) + 1) info calls1 := by
  induction calls with
  | nil => simp at hex
  | cons d rest ih =>
    unfold cnapAttach
    by_cases hd : d.index = (i : Int) + 1
    · rw [if_pos hd]
      exact ⟨_, rfl, _, List.mem_cons_self _ _, hd, rfl, rfl⟩
    · rw [if_neg hd]
      obtain ⟨c, hc, hci⟩ := hex
      rcases List.mem_cons.mp hc with h1 | h1
      · subst h1; exact absurd hci hd
      · obtain ⟨r, hr, c1, hc1, hn⟩ := ih ⟨c, h1, hci⟩
        exact ⟨d :: r, by simp [hr], c1, List.mem_cons_of_mem _ hc1, hn⟩

theorem cnapFill_fold (k : Int) (t : Fin 7) (ht : (t.val : Int) + 1 = k) (info : CnapInfo)
    (hinfo : info.name ≠ [] ∨ info.CNI_validity > 0) (l : List (Fin 7))
    (st : List RIL_Call × (Fin 7 → CnapInfo)) (hnd : l.Nodup)
    (hex : ∃ c ∈ st.1, c.index = k)
    (hinv : (t ∈ l ∧ st.2 t = info) ∨ (t ∉ l ∧ Named k info st.1)) :
    Named k info (l.foldl cnapFillBody st).1 := by
  induction l generalizing st with
  | nil =>
    rcases hinv with ⟨h, -⟩ | ⟨-, h⟩
    · simp at h
    · exact h
  | cons i rest ih =>
    rw [List.foldl_cons]
    have hnd1 := List.nodup_cons.mp hnd
    have hex1 : ∃ c ∈ (cnapFillBody st i).1, c.index = k := by
      obtain ⟨c, hc, hci⟩ := hex
      have hm : (c.index, c.state) ∈ (cnapFillBody st i).1.map (fun c => (c.index, c.state)) := by
        rw [cnapFillBody_frame]
        exact List.mem_map_of_mem _ hc
      obtain ⟨c1, hc1, he⟩ := List.mem_map.mp hm
      refine ⟨c1, hc1, ?_⟩
      have := congrArg Prod.fst he
      simp only at this
      rw [this, hci]
    apply ih _ hnd1.2 hex1
    by_cases hit : i = t
    · subst hit
      right
      refine ⟨hnd1.1, ?_⟩
      have hst : st.2 i = info := by
        rcases hinv with ⟨-, h⟩ | ⟨h, -⟩
        · exact h
        · exact absurd (List.mem_cons_self _ _) h
      obtain ⟨calls1, ha, hn⟩ := cnapAttach_hit st.1 i.val info (by rw [ht]; exact hex)
      unfold cnapFillBody
      simp only [hst, ha]
      rw [if_pos hinfo]
      rw [ht] at hn
      exact hn
    · rcases hinv with ⟨hmem, hst⟩ | ⟨hmem, hn⟩
      · left
        refine ⟨(List.mem_cons.mp hmem).resolve_left (fun h => hit h.symm), ?_⟩
        unfold cnapFillBody
        dsimp only
        split_ifs
        · cases cnapAttach st.1 i.val (st.2 i) with
          | none =>
            simp only
            rw [Function.update_noteq (fun h => hit h.symm)]
            exact hst
          | some r => exact hst
        · exact hst
      · right
        refine ⟨fun h => hmem (List.mem_cons_of_mem _ h), ?_⟩
        unfold cnapFillBody
        dsimp only
        split_ifs
        · cases ha : cnapAttach st.1 i.val (st.2 i) with
          | none => exact hn
          | some r =>
            obtain ⟨c, hc, hci, hcn⟩ := hn
            refine ⟨c, cnapAttach_keeps _ _ _ _ ha c hc ?_, hci, hcn⟩
            rw [hci, ← ht]
            intro h
            apply hit
            apply Fin.ext
            omega
        · exact hn

theorem cnapFill_named (k : Int) (hk : 1 ≤ k ∧ k ≤ 7) (calls : List RIL_Call)
    (list : Fin 7 → CnapInfo) (info : CnapInfo)
    (hinfo : info.name ≠ [] ∨ info.CNI_validity > 0) (hlist : list (cnapSlot k) = info)
    (hex : ∃ c ∈ calls, c.index = k) :
    Named k info (cnapFill calls list).1 := by
  unfold cnapFill
  refine cnapFill_fold k (cnapSlot k) ?_ info hinfo _ _ (List.nodup_finRange 7) hex
    (Or.inl ⟨List.mem_finRange _, hlist⟩)
  simp only [cnapSlot]
  omega

theorem find_map_pair (calls : List RIL_Call) (p : Int × RIL_CallState)
    (h : (calls.map (fun c => (c.index, c.state))).find? isIncomingOrWaiting = some p) :
    ∃ c, calls.find? (fun c => isIncomingOrWaiting (c.index, c.state)) = some c ∧
      (c.index, c.state) = p := by
  induction calls with
  | nil => simp at h
  | cons d rest ih =>
    rw [List.map_cons] at h
    by_cases hd : isIncomingOrWaiting (d.index, d.state) = true
    · rw [List.find?_cons_of_pos _ hd] at h
      have hd1 : (fun c : RIL_Call => isIncomingOrWaiting (c.index, c.state)) d = true := hd
      exact ⟨d, List.find?_cons_of_pos rest hd1, Option.some.inj h⟩
    · rw [List.find?_cons_of_neg _ hd] at h
      obtain ⟨c, hc, hp⟩ := ih h
      have hd1 : ¬ (fun c : RIL_Call => isIncomingOrWaiting (c.index, c.state)) d = true := hd
      exact ⟨c, (List.find?_cons_of_neg rest hd1).trans hc, hp⟩

/-- C20: for every call-list poll whose parsed lines have distinct indices in
1..7: if a caller name is pending (`sCnapInfo` has a non-empty name or a
validity of 1 or 2) and some parsed line is in Incoming or Waiting state, then
`requestGetCurrentCalls` completes with SUCCESS, the returned record of the
first Incoming or Waiting call has the pending name as `name` and the pending
validity as `namePresentation`, and `sCnapInfo` is cleared. -/
theorem C20_pending_name_attached (b : Build) (g : Globals) (lines : List (List Char))
    (hidx : ∀ q ∈ lines.filterMap clccIndexState, 1 ≤ q.1 ∧ q.1 ≤ 7)
    (hnd : ((lines.filterMap clccIndexState).map Prod.fst).Nodup)
    (hpend : g.sCnapInfo.pending)
    (hinc : ∃ q ∈ lines.filterMap clccIndexState, isIncomingOrWaiting q = true) :
    ∃ g1 calls rest c, requestGetCurrentCalls b g (.final true lines) =
        .done g1 ([.at_send_command "AT+CLCC" [],
                   .RIL_onRequestComplete .SUCCESS (.calls calls)] ++ rest) ∧
      completions rest = 0 ∧
      calls.map (fun c => (c.index, c.state)) = lines.filterMap clccIndexState ∧
      calls.find? (fun c => isIncomingOrWaiting (c.index, c.state)) = some c ∧
      c.name = some g.sCnapInfo.name ∧ c.namePresentation = g.sCnapInfo.CNI_validity ∧
      g1.sCnapInfo = CnapInfo.empty := by
  obtain ⟨p, hfind⟩ : ∃ p, (lines.filterMap clccIndexState).find? isIncomingOrWaiting =
      some p := by
    cases hf : (lines.filterMap clccIndexState).find? isIncomingOrWaiting with
    | some p => exact ⟨p, rfl⟩
    | none =>
      obtain ⟨q, hq, hqi⟩ := hinc
      have := List.find?_eq_none.mp hf q hq
      exact absurd hqi this
  have hpmem : p ∈ lines.filterMap clccIndexState := List.mem_of_find?_eq_some hfind
  have hg0 : (if b.WORKAROUND_ERRONEOUS_ANSWER then
      { g with s_incomingOrWaitingLine := -1 } else g).sCnapInfo = g.sCnapInfo := by
    split_ifs <;> rfl
  have hg0l : (if b.WORKAROUND_ERRONEOUS_ANSWER then
      { g with s_incomingOrWaitingLine := -1 } else g).sCnapInfoList = g.sCnapInfoList := by
    split_ifs <;> rfl
  obtain ⟨st1, hloop, hvalid, hcnap, hlist, hline⟩ := clccLoop_pending b lines
    { valid := [], slot := RIL_Call.zero, needRepoll := false,
      s_incomingOrWaitingLine := (if b.WORKAROUND_ERRONEOUS_ANSWER then
        { g with s_incomingOrWaitingLine := -1 } else g).s_incomingOrWaitingLine,
      sCnapInfo := (if b.WORKAROUND_ERRONEOUS_ANSWER then
        { g with s_incomingOrWaitingLine := -1 } else g).sCnapInfo,
      sCnapInfoList := (if b.WORKAROUND_ERRONEOUS_ANSWER then
        { g with s_incomingOrWaitingLine := -1 } else g).sCnapInfoList } p
    (by rw [hg0]; exact hpend) hidx hfind
  simp only [List.map_nil, List.nil_append] at hvalid
  simp only [hg0, hg0l] at hlist
  have hmap := cnapFill_frame st1.valid st1.sCnapInfoList
  rw [hvalid] at hmap
  have hinfo : g.sCnapInfo.name ≠ [] ∨ g.sCnapInfo.CNI_validity > 0 := by
    rcases hpend with h | h
    · exact Or.inl h
    · exact Or.inr h.1
  have hex : ∃ c ∈ st1.valid, c.index = p.1 := by
    rw [← hvalid] at hpmem
    obtain ⟨c, hc, he⟩ := List.mem_map.mp hpmem
    exact ⟨c, hc, by rw [← he]⟩
  obtain ⟨cn, hcn, hcni, hcnn, hcnp⟩ := cnapFill_named p.1 (hidx p hpmem) st1.valid
    st1.sCnapInfoList g.sCnapInfo hinfo (by rw [hlist, Function.update_same]) hex
  obtain ⟨c, hcfind, hcp⟩ := find_map_pair (cnapFill st1.valid st1.sCnapInfoList).1 p
    (by rw [hmap]; exact hfind)
  have hceq : c = cn := by
    have hcm : c ∈ (cnapFill st1.valid st1.sCnapInfoList).1 := List.mem_of_find?_eq_some hcfind
    have hnd2 : ((cnapFill st1.valid st1.sCnapInfoList).1.map (fun c => c.index)).Nodup := by
      have : (cnapFill st1.valid st1.sCnapInfoList).1.map (fun c => c.index) =
          ((cnapFill st1.valid st1.sCnapInfoList).1.map
            (fun c => (c.index, c.state))).map Prod.fst := by
        rw [List.map_map]; rfl
      rw [this, hmap]
      exact hnd
    apply List.inj_on_of_nodup_map hnd2 hcm hcn
    rw [hcni]
    exact congrArg Prod.fst hcp
  have hhit : ∀ e n cs, (b.WORKAROUND_ERRONEOUS_ANSWER &&
      workaroundHit g.s_incomingOrWaitingLine st1.s_incomingOrWaitingLine e n cs) = false := by
    intro e n cs
    cases hb : b.WORKAROUND_ERRONEOUS_ANSWER
    · rfl
    · have h1 := hline hb
      unfold workaroundHit
      have : decide (st1.s_incomingOrWaitingLine < 0) = false := by
        simp only [decide_eq_false_iff_not]; omega
      simp [this]
  unfold requestGetCurrentCalls
  simp only [hloop, hhit]
  refine ⟨_, _, _, c, rfl, ?_, hmap, hcfind, ?_, ?_, ?_⟩
  · split_ifs <;> rfl
  · rw [hceq]; exact hcnn
  · rw [hceq]; exact hcnp
  · split_ifs <;> exact hcnap

/-- C20 at an example: "Bob" is pending and the response has an active call on
line 1 and a waiting call on line 2. -/
theorem C20_pending_name_example :
    ∃ g1 calls rest c, requestGetCurrentCalls tiBuild bobPending
          (.final true clccActiveAndWaiting) =
        .done g1 ([.at_send_command "AT+CLCC" [],
                   .RIL_onRequestComplete .SUCCESS (.calls calls)] ++ rest) ∧
      completions rest = 0 ∧
      calls.map (fun c => (c.index, c.state)) =
        clccActiveAndWaiting.filterMap clccIndexState ∧
      calls.find? (fun c => isIncomingOrWaiting (c.index, c.state)) = some c ∧
      c.name = some bobPending.sCnapInfo.name ∧
      c.namePresentation = bobPending.sCnapInfo.CNI_validity ∧
      g1.sCnapInfo = CnapInfo.empty :=
  C20_pending_name_attached tiBuild bobPending clccActiveAndWaiting
    (by decide) (by decide) (Or.inl (by decide)) (by decide)

/-! ## Radio state with the channel open -/

/-- C21: with the closed flag clear, for every prior and requested state:
a request for the state the radio is in changes nothing and emits nothing; a
request for another state stores it and emits the radio-state-changed
notification once; the post-power-on initialisation (`onRadioPowerOn`) runs,
right after the notification, exactly when the state changed and the new state
is On (a crash of the initialisation on an `AT+CPIN?` response without line
ends the run there). -/
theorem C21_setRadioState_open (b : Build) (g : Globals) (newState : RIL_RadioState)
    (cpin : ATReply) (cme : CmeReported) (hc : ¬ g.s_closed > 0) :
    (newState = g.sState → setRadioState b g newState cpin cme = .done g []) ∧
    (newState ≠ g.sState → newState ≠ .ON →
      setRadioState b g newState cpin cme =
        .done { g with sState := newState }
          [.RIL_onUnsolicitedResponse .RESPONSE_RADIO_STATE_CHANGED .null]) ∧
    (newState ≠ g.sState → newState = .ON →
      setRadioState b g newState cpin cme =
        match onRadioPowerOn b .ON cpin cme with
        | .ret evs =>
          .done { g with sState := .ON }
            (.RIL_onUnsolicitedResponse .RESPONSE_RADIO_STATE_CHANGED .null :: evs)
        | .fault => .crash [.RIL_onUnsolicitedResponse .RESPONSE_RADIO_STATE_CHANGED .null]) := by
  refine ⟨?_, ?_, ?_⟩
  · intro h
    unfold setRadioState
    simp [hc, h]
  · intro h hon
    have h1 : ¬ g.sState = newState := fun e => h e.symm
    unfold setRadioState
    simp [hc, h, h1, hon]
  · intro h hon
    subst hon
    have h1 : ¬ g.sState = RIL_RadioState.ON := fun e => h e.symm
    unfold setRadioState
    have h2 : ¬ RIL_RadioState.ON = g.sState := h
    simp only [hc, if_false, or_false, ne_eq, h1, h2, not_false_eq_true, if_true]
    cases onRadioPowerOn b RIL_RadioState.ON cpin cme <;> rfl

/-- C21 at an example: the radio is off, On is requested and the SIM is ready. -/
theorem C21_power_on_example :
    setRadioState tiBuild radioOff .ON cpinReady .other =
      match onRadioPowerOn tiBuild .ON cpinReady .other with
      | .ret evs =>
        .done { radioOff with sState := .ON }
          (.RIL_onUnsolicitedResponse .RESPONSE_RADIO_STATE_CHANGED .null :: evs)
      | .fault => .crash [.RIL_onUnsolicitedResponse .RESPONSE_RADIO_STATE_CHANGED .null] :=
  (C21_setRadioState_open tiBuild radioOff .ON cpinReady .other (by decide)).2.2
    (by decide) rfl

/-- Whenever `onRadioPowerOn` runs in state On and returns, it has sent
`AT+CPIN?`. -/
theorem onRadioPowerOn_sends_cpin (b : Build) (cpin : ATReply) (cme : CmeReported)
    (evs : List Event) (h : onRadioPowerOn b .ON cpin cme = .ret evs) :
    Event.at_send_command "AT+CPIN?" [] ∈ evs := by
  unfold onRadioPowerOn pollSIMState at h
  simp only [ne_eq, not_true_eq_false, if_false] at h
  cases hs : getSIMStatus .ON cpin cme with
  | fault => simp [hs, Run.bind] at h
  | ret r =>
    have hmem : Event.at_send_command "AT+CPIN?" [] ∈ r.2 := by
      unfold getSIMStatus at hs
      simp only [reduceCtorEq, if_false] at hs
      repeat' split at hs
      all_goals (cases hs <;> simp)
    obtain ⟨st, evs0⟩ := r
    simp only [hs, Run.bind] at h
    cases st <;> simp only [Run.ret.injEq] at h <;> rw [← h] <;> simp [hmem]

/-! ## Optional groups of a call-list line -/

theorem fieldInt_step {c : Nat} {p q : Cursor} {t : List Char} (n : Nat)
    (h : at_tok_nextstr p = some (t, q)) : fieldInt c (n + 1) p = fieldInt c n q := by
  rw [fieldInt, h]

theorem fieldBool_step {p q : Cursor} {t : List Char} (n : Nat)
    (h : at_tok_nextstr p = some (t, q)) : fieldBool (n + 1) p = fieldBool n q := by
  rw [fieldBool, h]

theorem fieldStr_step {p q : Cursor} {t : List Char} (n : Nat)
    (h : at_tok_nextstr p = some (t, q)) : fieldStr (n + 1) p = fieldStr n q := by
  rw [fieldStr, h]

theorem hasField_step {p q : Cursor} {t : List Char} (n : Nat)
    (h : at_tok_nextstr p = some (t, q)) : hasField (n + 1) p = hasField n q := by
  rw [hasField, h]

theorem fieldInt_first {p : Cursor} {v : Int} (h : fieldInt 10 0 p = some v) :
    ∃ q t, at_tok_nextint p = some (v, q) ∧ at_tok_nextstr p = some (t, q) := by
  obtain ⟨q, hq⟩ := fieldInt_zero h
  obtain ⟨t, ht⟩ := at_tok_nextint_base_cursor hq
  exact ⟨q, t, hq, ht⟩

theorem fieldBool_first {p : Cursor} {v : Bool} (h : fieldBool 0 p = some v) :
    ∃ q t, at_tok_nextbool p = some (v, q) ∧ at_tok_nextstr p = some (t, q) := by
  unfold fieldBool at h
  cases hn : at_tok_nextbool p with
  | none => simp [hn] at h
  | some r =>
    obtain ⟨w, q⟩ := r
    simp only [hn, Option.map_some', Option.some.injEq] at h
    subst h
    obtain ⟨t, ht⟩ := at_tok_nextbool_cursor hn
    exact ⟨q, t, rfl, ht⟩

theorem fieldStr_first {p : Cursor} {s : List Char} (h : fieldStr 0 p = some s) :
    ∃ q, at_tok_nextstr p = some (s, q) := by
  unfold fieldStr at h
  cases hn : at_tok_nextstr p with
  | none => simp [hn] at h
  | some r =>
    obtain ⟨w, q⟩ := r
    simp only [hn, Option.map_some', Option.some.injEq] at h
    subst h
    exact ⟨q, rfl⟩

theorem at_tok_nextstr_of_hasmore {p : Cursor} (h : at_tok_hasmore p = true) :
    ∃ t q, at_tok_nextstr p = some (t, q) := by
  cases p with
  | none => simp [at_tok_hasmore] at h
  | some cs => exact ⟨_, _, rfl⟩

/-- C22: for every CLCC line whose five mandatory fields parse (index, isMT,
state 0..5, mode, isMpty) and which goes on with a prefix of the optional
groups, `callFromCLCCLine` succeeds and leaves the record with the five
mandatory fields stored and: nothing else changed when no further field
follows; number and toa stored when the number group (number, type) follows,
alone or with the alpha field, or with alpha and priority; number, toa and
numberPresentation stored when the CLI validity follows too.  Every other field
keeps what the record held. -/
theorem C22_optional_groups (line : List Char) (p_call : RIL_Call) (l0 : Cursor)
    (index : Int) (isMT : Bool) (state : Int) (st : RIL_CallState) (mode : Int) (isMpty : Bool)
    (h0 : at_tok_start line = some l0)
    (hindex : fieldInt 10 0 l0 = some index) (hisMT : fieldBool 1 l0 = some isMT)
    (hstate : fieldInt 10 2 l0 = some state) (hst : clccStateToRILState state = some st)
    (hmode : fieldInt 10 3 l0 = some mode) (hisMpty : fieldBool 4 l0 = some isMpty) :
    (hasField 5 l0 = false →
      callFromCLCCLine line p_call = (0, clccMandatory p_call index isMT st mode isMpty)) ∧
    (∀ number toa, hasField 5 l0 = true → fieldStr 5 l0 = some number →
      fieldInt 10 6 l0 = some toa →
      (hasField 7 l0 = false →
        callFromCLCCLine line p_call =
          (0, clccWithNumber (clccMandatory p_call index isMT st mode isMpty) number toa)) ∧
      (hasField 7 l0 = true → hasField 8 l0 = false →
        callFromCLCCLine line p_call =
          (0, clccWithNumber (clccMandatory p_call index isMT st mode isMpty) number toa)) ∧
      (∀ priority, hasField 7 l0 = true → hasField 8 l0 = true →
        fieldInt 10 8 l0 = some priority →
        (hasField 9 l0 = false →
          callFromCLCCLine line p_call =
            (0, clccWithNumber (clccMandatory p_call index isMT st mode isMpty) number toa)) ∧
        (∀ cliValidity, hasField 9 l0 = true → fieldInt 10 9 l0 = some cliValidity →
          callFromCLCCLine line p_call =
            (0, { clccWithNumber (clccMandatory p_call index isMT st mode isMpty) number toa
                  with numberPresentation := convertCliValidity cliValidity })))) := by
  obtain ⟨l1, t0, hn0, hs0⟩ := fieldInt_first hindex
  rw [fieldBool_step 0 hs0] at hisMT
  obtain ⟨l2, t1, hn1, hs1⟩ := fieldBool_first hisMT
  rw [fieldInt_step 1 hs0, fieldInt_step 0 hs1] at hstate
  obtain ⟨l3, t2, hn2, hs2⟩ := fieldInt_first hstate
  rw [fieldInt_step 2 hs0, fieldInt_step 1 hs1, fieldInt_step 0 hs2] at hmode
  obtain ⟨l4, t3, hn3, hs3⟩ := fieldInt_first hmode
  rw [fieldBool_step 3 hs0, fieldBool_step 2 hs1, fieldBool_step 1 hs2,
    fieldBool_step 0 hs3] at hisMpty
  obtain ⟨l5, t4, hn4, hs4⟩ := fieldBool_first hisMpty
  have hF : ∀ n, hasField (n + 5) l0 = hasField n l5 := by
    intro n
    rw [hasField_step (n + 4) hs0, hasField_step (n + 3) hs1, hasField_step (n + 2) hs2,
      hasField_step (n + 1) hs3, hasField_step n hs4]
  have hS : ∀ n, fieldStr (n + 5) l0 = fieldStr n l5 := by
    intro n
    rw [fieldStr_step (n + 4) hs0, fieldStr_step (n + 3) hs1, fieldStr_step (n + 2) hs2,
      fieldStr_step (n + 1) hs3, fieldStr_step n hs4]
  have hI : ∀ n, fieldInt 10 (n + 5) l0 = fieldInt 10 n l5 := by
    intro n
    rw [fieldInt_step (n + 4) hs0, fieldInt_step (n + 3) hs1, fieldInt_step (n + 2) hs2,
      fieldInt_step (n + 1) hs3, fieldInt_step n hs4]
  have hhead : callFromCLCCLine line p_call =
      (if at_tok_hasmore l5 then
        match at_tok_nextstr l5 with
        | none => (0, clccMandatory p_call index isMT st mode isMpty)
        | some (number, l6) =>
          match at_tok_nextint l6 with
          | none => (-1, { clccMandatory p_call index isMT st mode isMpty with
              number := if strspn number numberChars = 0 then none else some number })
          | some (toa, l7) =>
            callFromCLCCLine_alpha l7
              (clccWithNumber (clccMandatory p_call index isMT st mode isMpty) number toa)
      else callFromCLCCLine_alpha l5 (clccMandatory p_call index isMT st mode isMpty)) := by
    unfold callFromCLCCLine
    simp only [h0, hn0, hn1, hn2, hst, hn3, hn4]
    rfl
  refine ⟨?_, ?_⟩
  · intro h5
    have h5a : at_tok_hasmore l5 = false := by
      have e : hasField 5 l0 = at_tok_hasmore l5 := hF 0
      rw [← e]; exact h5
    rw [hhead]
    simp [h5a, callFromCLCCLine_alpha]
  · intro number toa h5 hnum htoa
    have h5a : at_tok_hasmore l5 = true := by
      have e : hasField 5 l0 = at_tok_hasmore l5 := hF 0
      rw [← e]; exact h5
    have hnum1 : fieldStr 0 l5 = some number := by
      have e : fieldStr 5 l0 = fieldStr 0 l5 := hS 0
      rw [← e]; exact hnum
    obtain ⟨l6, hs5⟩ := fieldStr_first hnum1
    have htoa1 : fieldInt 10 0 l6 = some toa := by
      have e : fieldInt 10 6 l0 = fieldInt 10 1 l5 := hI 1
      rw [← fieldInt_step 0 hs5, ← e]; exact htoa
    obtain ⟨l7, t6, hn6, hs6⟩ := fieldInt_first htoa1
    have hF7 : ∀ n, hasField (n + 7) l0 = hasField n l7 := by
      intro n
      rw [hF (n + 2), hasField_step (n + 1) hs5, hasField_step n hs6]
    have hI7 : ∀ n, fieldInt 10 (n + 7) l0 = fieldInt 10 n l7 := by
      intro n
      rw [hI (n + 2), fieldInt_step (n + 1) hs5, fieldInt_step n hs6]
    have hhead2 : callFromCLCCLine line p_call =
        callFromCLCCLine_alpha l7
          (clccWithNumber (clccMandatory p_call index isMT st mode isMpty) number toa) := by
      rw [hhead]
      simp only [h5a, if_true, hs5, hn6]
    rw [hhead2]
    refine ⟨?_, ?_, ?_⟩
    · intro h7
      have h7a : at_tok_hasmore l7 = false := by
        have e : hasField 7 l0 = at_tok_hasmore l7 := hF7 0
        rw [← e]; exact h7
      simp [callFromCLCCLine_alpha, h7a]
    · intro h7 h8
      have h7a : at_tok_hasmore l7 = true := by
        have e : hasField 7 l0 = at_tok_hasmore l7 := hF7 0
        rw [← e]; exact h7
      obtain ⟨alpha, l8, hs7⟩ := at_tok_nextstr_of_hasmore h7a
      have h8a : at_tok_hasmore l8 = false := by
        have e : hasField 8 l0 = hasField 1 l7 := hF7 1
        rw [← h8, e, hasField_step 0 hs7]; rfl
      simp [callFromCLCCLine_alpha, h7a, hs7, h8a]
    · intro priority h7 h8 hprio
      have h7a : at_tok_hasmore l7 = true := by
        have e : hasField 7 l0 = at_tok_hasmore l7 := hF7 0
        rw [← e]; exact h7
      obtain ⟨alpha, l8, hs7⟩ := at_tok_nextstr_of_hasmore h7a
      have h8a : at_tok_hasmore l8 = true := by
        have e : hasField 8 l0 = hasField 1 l7 := hF7 1
        rw [← h8, e, hasField_step 0 hs7]; rfl
      have hprio1 : fieldInt 10 0 l8 = some priority := by
        have e : fieldInt 10 8 l0 = fieldInt 10 1 l7 := hI7 1
        rw [← fieldInt_step 0 hs7, ← e]; exact hprio
      obtain ⟨l9, t8, hn8, hs8⟩ := fieldInt_first hprio1
      refine ⟨?_, ?_⟩
      · intro h9
        have h9a : at_tok_hasmore l9 = false := by
          have e : hasField 9 l0 = hasField 2 l7 := hF7 2
          rw [← h9, e, hasField_step 1 hs7, hasField_step 0 hs8]; rfl
        simp [callFromCLCCLine_alpha, h7a, hs7, h8a, hn8, h9a]
      · intro cliValidity h9 hcli
        have h9a : at_tok_hasmore l9 = true := by
          have e : hasField 9 l0 = hasField 2 l7 := hF7 2
          rw [← h9, e, hasField_step 1 hs7, hasField_step 0 hs8]; rfl
        have hcli1 : fieldInt 10 0 l9 = some cliValidity := by
          have e : fieldInt 10 9 l0 = fieldInt 10 2 l7 := hI7 2
          rw [← fieldInt_step 0 hs8, ← fieldInt_step 1 hs7, ← e]; exact hcli
        obtain ⟨l10, t9, hn9, hs9⟩ := fieldInt_first hcli1
        simp [callFromCLCCLine_alpha, h7a, hs7, h8a, hn8, h9a, hn9]

/-- C22 at examples: the line of the source comment, with all optional groups,
and a line with the mandatory fields only. -/
theorem C22_optional_groups_examples :
    callFromCLCCLine clccExampleLine RIL_Call.zero =
      (0, { clccWithNumber (clccMandatory RIL_Call.zero 1 false .DIALING 0 false)
              "+18005551212".toList 145
            with numberPresentation := convertCliValidity 0 }) ∧
    callFromCLCCLine clccIncomingLine RIL_Call.zero =
      (0, clccMandatory RIL_Call.zero 1 true .INCOMING 0 false) :=
  ⟨((((C22_optional_groups clccExampleLine RIL_Call.zero
        (some " 1,0,2,0,0,\"+18005551212\",145,\"\",2,0".toList) 1 false 2 .DIALING 0 false
        (by decide) (by decide) (by decide) (by decide) (by decide) (by decide) (by decide)).2
      "+18005551212".toList 145 (by decide) (by decide) (by decide)).2.2
      2 (by decide) (by decide) (by decide)).2 0 (by decide) (by decide)),
   (C22_optional_groups clccIncomingLine RIL_Call.zero (some " 1,1,4,0,0".toList) 1 true 4
      .INCOMING 0 false
      (by decide) (by decide) (by decide) (by decide) (by decide) (by decide) (by decide)).1
      (by decide)⟩

/-! ## Caller-name slots after a poll -/

/-- Whenever an iteration of the parse loop returns, the list of valid calls has
grown by the call of the line, if the line parses. -/
theorem clccLoopBody_valid (b : Build) (st st1 : ClccLoop) (line : List Char)
    (h : clccLoopBody b st line = .ret st1) :
    st1.valid.map (fun c => (c.index, c.state)) =
      st.valid.map (fun c => (c.index, c.state)) ++ (clccIndexState line).toList := by
  by_cases hrc : (callFromCLCCLine line st.slot).1 = 0
  · have his := clccIndexState_of_parse line st.slot hrc
    by_cases hc : isIncomingOrWaiting ((callFromCLCCLine line st.slot).2.index,
        (callFromCLCCLine line st.slot).2.state) = true ∧ st.sCnapInfo.pending
    · by_cases hr : 1 ≤ (callFromCLCCLine line st.slot).2.index ∧
          (callFromCLCCLine line st.slot).2.index ≤ 7
      · rw [clccLoopBody_attach b st line hrc hc.1 hc.2 hr] at h
        rw [← Run.ret.inj h, clccNext_map, his]
        rfl
      · have hr1 : ¬ (0 ≤ (callFromCLCCLine line st.slot).2.index - 1 ∧
            (callFromCLCCLine line st.slot).2.index - 1 < 7) := by omega
        have hc1 : ((decide ((callFromCLCCLine line st.slot).2.state = RIL_CallState.INCOMING) ||
              decide ((callFromCLCCLine line st.slot).2.state = RIL_CallState.WAITING)) = true ∧
            (st.sCnapInfo.name ≠ [] ∨
              (st.sCnapInfo.CNI_validity > 0 ∧ st.sCnapInfo.CNI_validity ≤ 2))) := hc
        unfold clccLoopBody at h
        dsimp only at h
        rw [if_neg (not_not.mpr hrc), if_pos hc1, dif_neg hr1] at h
        cases h
    · rw [clccLoopBody_plain b st line hrc hc] at h
      rw [← Run.ret.inj h, clccNext_map, his]
      rfl
  · have his := clccIndexState_of_fail line st.slot hrc
    obtain ⟨slot, hs⟩ := clccLoopBody_skip b st line his
    rw [hs] at h
    rw [← Run.ret.inj h, his]
    simp

/-- An iteration of the parse loop faults only on a line that parses with an
index outside 1..7. -/
theorem clccLoopBody_fault (b : Build) (st : ClccLoop) (line : List Char)
    (h : clccLoopBody b st line = .fault) :
    ∃ p, clccIndexState line = some p ∧ ¬ (1 ≤ p.1 ∧ p.1 ≤ 7) := by
  by_cases hrc : (callFromCLCCLine line st.slot).1 = 0
  · have his := clccIndexState_of_parse line st.slot hrc
    by_cases hc : isIncomingOrWaiting ((callFromCLCCLine line st.slot).2.index,
        (callFromCLCCLine line st.slot).2.state) = true ∧ st.sCnapInfo.pending
    · by_cases hr : 1 ≤ (callFromCLCCLine line st.slot).2.index ∧
          (callFromCLCCLine line st.slot).2.index ≤ 7
      · rw [clccLoopBody_attach b st line hrc hc.1 hc.2 hr] at h
        cases h
      · exact ⟨_, his, hr⟩
    · rw [clccLoopBody_plain b st line hrc hc] at h
      cases h
  · obtain ⟨slot, hs⟩ := clccLoopBody_skip b st line (clccIndexState_of_fail line st.slot hrc)
    rw [hs] at h
    cases h

theorem clccLoop_valid (b : Build) (lines : List (List Char)) (st st1 : ClccLoop)
    (h : clccLoop b st lines = .ret st1) :
    st1.valid.map (fun c => (c.index, c.state)) =
      st.valid.map (fun c => (c.index, c.state)) ++ lines.filterMap clccIndexState := by
  induction lines generalizing st with
  | nil =>
    simp only [clccLoop] at h
    rw [← Run.ret.inj h]
    simp
  | cons line rest ih =>
    unfold clccLoop at h
    cases hb : clccLoopBody b st line with
    | fault => simp [hb, Run.bind] at h
    | ret st2 =>
      simp only [hb, Run.bind] at h
      rw [ih st2 h, clccLoopBody_valid b st st2 line hb]
      cases hc : clccIndexState line <;> simp [List.filterMap_cons, hc]

theorem clccLoop_fault (b : Build) (lines : List (List Char)) (st : ClccLoop)
    (h : clccLoop b st lines = .fault) :
    ∃ p ∈ lines.filterMap clccIndexState, ¬ (1 ≤ p.1 ∧ p.1 ≤ 7) := by
  induction lines generalizing st with
  | nil => simp [clccLoop] at h
  | cons line rest ih =>
    unfold clccLoop at h
    cases hb : clccLoopBody b st line with
    | fault =>
      obtain ⟨p, hp, hr⟩ := clccLoopBody_fault b st line hb
      exact ⟨p, by simp [List.filterMap_cons, hp], hr⟩
    | ret st2 =>
      simp only [hb, Run.bind] at h
      obtain ⟨p, hp, hr⟩ := ih st2 h
      refine ⟨p, ?_, hr⟩
      cases hc : clccIndexState line <;> simp [List.filterMap_cons, hc, hp]

theorem cnapAttach_some_index (calls : List RIL_Call) (i : Nat) (info : CnapInfo)
    (calls1 : List RIL_Call) (h : cnapAttach calls i info = some calls1) :
    ∃ p ∈ calls.map (fun c => (c.index, c.state)), p.1 = (i : Int) + 1 := by
  induction calls generalizing calls1 with
  | nil => simp [cnapAttach] at h
  | cons c rest ih =>
    unfold cnapAttach at h
    split_ifs at h with hc
    · exact ⟨(c.index, c.state), by simp, hc⟩
    · cases hr : cnapAttach rest i info with
      | none => simp [hr] at h
      | some r =>
        obtain ⟨p, hp, hpi⟩ := ih r hr
        exact ⟨p, by simp only [List.map_cons]; exact List.mem_cons_of_mem _ hp, hpi⟩

/-- One iteration of the fill loop keeps, and for its own slot establishes: a
slot that is not empty has a call with its index. -/
theorem cnapFillBody_slot (st : List RIL_Call × (Fin 7 → CnapInfo)) (i j : Fin 7)
    (h : i = j ∨ ((st.2 i).nonEmpty →
      ∃ p ∈ st.1.map (fun c => (c.index, c.state)), p.1 = (i.val : Int) + 1)) :
    ((cnapFillBody st j).2 i).nonEmpty →
      ∃ p ∈ (cnapFillBody st j).1.map (fun c => (c.index, c.state)), p.1 = (i.val : Int) + 1 := by
  rw [cnapFillBody_frame]
  unfold cnapFillBody
  dsimp only
  by_cases hne : (st.2 j).name ≠ [] ∨ (st.2 j).CNI_validity > 0
  · rw [if_pos hne]
    cases ha : cnapAttach st.1 j.val (st.2 j) with
    | none =>
      dsimp only
      by_cases hij : i = j
      · subst hij
        rw [Function.update_same]
        intro he
        rcases he with he | he
        · exact absurd rfl he
        · exact absurd he (by decide)
      · rw [Function.update_noteq hij]
        exact h.resolve_left hij
    | some r =>
      dsimp only
      by_cases hij : i = j
      · subst hij
        intro _
        exact cnapAttach_some_index _ _ _ _ ha
      · exact h.resolve_left hij
  · rw [if_neg hne]
    by_cases hij : i = j
    · subst hij
      intro he
      exact absurd he hne
    · exact h.resolve_left hij

theorem cnapFill_fold_slot (i : Fin 7) (l : List (Fin 7))
    (st : List RIL_Call × (Fin 7 → CnapInfo))
    (h : i ∈ l ∨ ((st.2 i).nonEmpty →
      ∃ p ∈ st.1.map (fun c => (c.index, c.state)), p.1 = (i.val : Int) + 1)) :
    ((l.foldl cnapFillBody st).2 i).nonEmpty →
      ∃ p ∈ (l.foldl cnapFillBody st).1.map (fun c => (c.index, c.state)),
        p.1 = (i.val : Int) + 1 := by
  induction l generalizing st with
  | nil =>
    rcases h with h | h
    · simp at h
    · exact h
  | cons j rest ih =>
    rw [List.foldl_cons]
    apply ih
    rcases h with h | h
    · rcases List.mem_cons.mp h with h1 | h1
      · exact Or.inr (cnapFillBody_slot st i j (Or.inl h1))
      · exact Or.inl h1
    · exact Or.inr (cnapFillBody_slot st i j (Or.inr h))

theorem requestGetCurrentCalls_slots_key (b : Build) (lines : List (List Char))
    (st0 st1 : ClccLoop) (hloop : clccLoop b st0 lines = .ret st1) (hnil : st0.valid = [])
    (i : Fin 7) (hi : ((cnapFill st1.valid st1.sCnapInfoList).2 i).nonEmpty) :
    ∃ p ∈ lines.filterMap clccIndexState, p.1 = (i.val : Int) + 1 := by
  have hvalid := clccLoop_valid b lines _ st1 hloop
  simp only [hnil, List.map_nil, List.nil_append] at hvalid
  have := cnapFill_fold_slot i (List.finRange 7) (st1.valid, st1.sCnapInfoList)
    (Or.inl (List.mem_finRange i)) hi
  rw [← hvalid, ← cnapFill_frame st1.valid st1.sCnapInfoList]
  exact this

theorem requestGetCurrentCalls_slots (b : Build) (g g1 : Globals) (lines : List (List Char))
    (t : List Event) (h : requestGetCurrentCalls b g (.final true lines) = .done g1 t)
    (i : Fin 7) (hi : (g1.sCnapInfoList i).nonEmpty) :
    ∃ p ∈ lines.filterMap clccIndexState, p.1 = (i.val : Int) + 1 := by
  unfold requestGetCurrentCalls at h
  cases hb : b.WORKAROUND_ERRONEOUS_ANSWER
  · simp only [hb] at h
    simp only [Bool.false_eq_true, if_false] at h
    split at h
    · cases h
    · rename_i st hloop
      split at h
      · simp only [Outcome.done.injEq] at h
        rw [← h.1] at hi
        dsimp only at hi
        exact requestGetCurrentCalls_slots_key b lines _ st hloop rfl i hi
      · simp only [Outcome.done.injEq] at h
        rw [← h.1] at hi
        dsimp only at hi
        exact requestGetCurrentCalls_slots_key b lines _ st hloop rfl i hi
  · simp only [hb] at h
    simp only [if_true] at h
    simp only [Bool.true_and] at h
    split at h
    · cases h
    · rename_i st hloop
      split at h
      · simp only [Outcome.done.injEq] at h
        rw [← h.1] at hi
        dsimp only at hi
        exact requestGetCurrentCalls_slots_key b lines _ st hloop rfl i hi
      · simp only [Outcome.done.injEq] at h
        rw [← h.1] at hi
        dsimp only at hi
        exact requestGetCurrentCalls_slots_key b lines _ st hloop rfl i hi

theorem requestGetCurrentCalls_crash (b : Build) (g : Globals) (lines : List (List Char))
    (t : List Event) (h : requestGetCurrentCalls b g (.final true lines) = .crash t) :
    ∃ p ∈ lines.filterMap clccIndexState, ¬ (1 ≤ p.1 ∧ p.1 ≤ 7) := by
  unfold requestGetCurrentCalls at h
  cases hb : b.WORKAROUND_ERRONEOUS_ANSWER
  · simp only [hb] at h
    simp only [Bool.false_eq_true, if_false] at h
    split at h
    · rename_i hloop
      exact clccLoop_fault b lines _ hloop
    · split at h <;> cases h
  · simp only [hb] at h
    simp only [if_true] at h
    simp only [Bool.true_and] at h
    split at h
    · rename_i hloop
      exact clccLoop_fault b lines _ hloop
    · split at h <;> cases h

/-- C23: after every call-list poll whose AT+CLCC command succeeds and which
returns (with SUCCESS or failed by the repoll workaround), each of the 7
caller-name slots `i` that is not empty (non-empty name or validity > 0) has a
parsed call with index `i + 1` in the response; so a slot without such a call is
empty.  The poll fails to return only when a parsed line has an index outside
1..7. -/
theorem C23_cache_slots_match_calls (b : Build) (g : Globals) (lines : List (List Char)) :
    match requestGetCurrentCalls b g (.final true lines) with
    | .done g1 _ =>
      ∀ i : Fin 7, (g1.sCnapInfoList i).nonEmpty →
        ∃ p ∈ lines.filterMap clccIndexState, p.1 = (i.val : Int) + 1
    | .crash _ => ∃ p ∈ lines.filterMap clccIndexState, ¬ (1 ≤ p.1 ∧ p.1 ≤ 7) := by
  generalize h : requestGetCurrentCalls b g (.final true lines) = o
  cases o with
  | done g1 t => exact fun i hi => requestGetCurrentCalls_slots b g g1 lines t h i hi
  | crash t => exact requestGetCurrentCalls_crash b g lines t h

/-! ## Setting the preferred network type twice -/

/-- C24 (failing input): mode 0 is set on a modem whose cached preference is the
mask of mode 1; the set command is accepted and the handler stores the mode
number 0 in `preferredNetworkMode`, while the next request compares that field
with the mask `net2pmask[0]` = 0x201: the same request sends the set command
again. -/
theorem C24_second_set_of_mode_0_sends_the_command_again :
    (requestSetPreferredNetworkType radioOn 0 ctecGsmReply ctecSetDone).trace =
      [.at_send_command "AT+CTEC?" [], ctecSetMode0, .RIL_onRequestComplete .SUCCESS .null] ∧
    ((requestSetPreferredNetworkType radioOn 0 ctecGsmReply ctecSetDone).globals.map
      fun g1 => g1.sMdmInfo.preferredNetworkMode) = some 0 ∧
    net2pmask.getD 0 0 = 513 ∧
    ((requestSetPreferredNetworkType radioOn 0 ctecGsmReply ctecSetDone).globals.map
      fun g1 => (requestSetPreferredNetworkType g1 0 ctecGsmReply ctecSetDone).trace) =
      some [.at_send_command "AT+CTEC?" [], ctecSetMode0,
            .RIL_onRequestComplete .SUCCESS .null] := by
  decide

/-- With a supported mode and an answered `AT+CTEC?` query,
`requestSetPreferredNetworkType` sends the set command exactly when the cached
`preferredNetworkMode` differs from the mask of the requested mode. -/
theorem requestSetPreferredNetworkType_commands (g : Globals) (v : Int) (q s : ATReply)
    (res : Int) (cur pref : Option Int)
    (hposs : networkModePossible g.sMdmInfo v = true)
    (hq : query_ctec q = .ret (res, cur, pref)) (hres : 0 ≤ res) :
    (requestSetPreferredNetworkType g v q s).trace.filter Event.isCommand =
      if g.sMdmInfo.preferredNetworkMode ≠ net2pmask.getD v.toNat 0 then
        [.at_send_command "AT+CTEC?" [],
         .at_send_command "AT+CTEC=%d,\"%x\"" [.int (cur.getD 0), .int (net2pmask.getD v.toNat 0)]]
      else [.at_send_command "AT+CTEC?" []] := by
  have hres1 : ¬ res < 0 := by omega
  unfold requestSetPreferredNetworkType
  simp only [hposs, Bool.not_true, Bool.false_eq_true, if_false, hq, hres1]
  by_cases hold : g.sMdmInfo.preferredNetworkMode ≠ net2pmask.getD v.toNat 0
  · rw [if_pos hold, if_pos hold]
    cases s with
    | failed => rfl
    | final success lines =>
      cases success with
      | false => rfl
      | true =>
        cases lines with
        | nil => rfl
        | cons line rest =>
          simp only
          split
          · split
            · simp only [Outcome.trace, List.filter_append, setRadioTechnology_commands]
              rfl
            · rfl
          · rfl
  · rw [if_neg hold, if_neg hold]
    rfl

/-- Once `requestSetPreferredNetworkType` has sent the set command and completed
with SUCCESS, `preferredNetworkMode` holds the number of the requested mode (not
its mask), and the supported technologies are as before. -/
theorem requestSetPreferredNetworkType_stores_mode (g : Globals) (v : Int) (q s : ATReply)
    (g1 : Globals) (t1 : List Event)
    (h1 : requestSetPreferredNetworkType g v q s = .done g1 t1)
    (hset : (t1.filter Event.isCommand).length = 2)
    (hok : Event.RIL_onRequestComplete .SUCCESS .null ∈ t1) :
    g1.sMdmInfo.preferredNetworkMode = v ∧
    g1.sMdmInfo.supportedTechs = g.sMdmInfo.supportedTechs := by
  unfold requestSetPreferredNetworkType at h1
  split at h1
  · simp only [Outcome.done.injEq] at h1
    rw [← h1.2] at hset
    simp [Event.isCommand] at hset
  · simp only at h1
    split at h1
    · cases h1
    · split at h1
      · simp only [Outcome.done.injEq] at h1
        rw [← h1.2] at hset
        simp [Event.isCommand] at hset
      · split at h1
        · split at h1
          · simp only [Outcome.done.injEq] at h1
            rw [← h1.2] at hok
            simp at hok
          · simp only [Outcome.done.injEq] at h1
            rw [← h1.2] at hok
            simp at hok
          · split at h1
            · cases h1
            · split at h1
              · split at h1
                · simp only [Outcome.done.injEq] at h1
                  rw [← h1.1]
                  have hf := (setRadioTechnology_frame
                    { g with sMdmInfo := { g.sMdmInfo with preferredNetworkMode := v } }
                    (by assumption)).1
                  exact ⟨hf.2.2.2.2.2.2.2.2, hf.2.2.2.2.2.2.1⟩
                · simp only [Outcome.done.injEq] at h1
                  rw [← h1.1]
                  exact ⟨rfl, rfl⟩
              · simp only [Outcome.done.injEq] at h1
                rw [← h1.1]
                exact ⟨rfl, rfl⟩
        · simp only [Outcome.done.injEq] at h1
          rw [← h1.2] at hset
          simp [Event.isCommand] at hset

theorem net2pmask_fixed (v : Int) (h0 : 0 ≤ v) (h1 : v < 12) :
    net2pmask.getD v.toNat 0 = v ↔ (v = 1 ∨ v = 2 ∨ v = 3) := by
  have key : ∀ n : Fin 12, net2pmask.getD n.val 0 = (n.val : Int) ↔
      (n.val = 1 ∨ n.val = 2 ∨ n.val = 3) := by decide
  have := key ⟨v.toNat, by omega⟩
  simp only at this
  have hv : ((v.toNat : Nat) : Int) = v := Int.toNat_of_nonneg h0
  rw [hv] at this
  rw [this]
  omega

/-- After an accepted set of mode `v` (0..11), a following request for the same
mode with an answered query sends the set command again unless `v` is 1, 2 or 3,
the modes whose mask equals their number. -/
theorem requestSetPreferredNetworkType_twice (g : Globals) (v : Int) (q s q2 s2 : ATReply)
    (g1 : Globals) (t1 : List Event) (res : Int) (cur pref : Option Int)
    (hv : 0 ≤ v ∧ v < 12)
    (h1 : requestSetPreferredNetworkType g v q s = .done g1 t1)
    (hset : (t1.filter Event.isCommand).length = 2)
    (hok : Event.RIL_onRequestComplete .SUCCESS .null ∈ t1)
    (hq : query_ctec q2 = .ret (res, cur, pref)) (hres : 0 ≤ res) :
    (requestSetPreferredNetworkType g1 v q2 s2).trace.filter Event.isCommand =
      if v = 1 ∨ v = 2 ∨ v = 3 then [.at_send_command "AT+CTEC?" []]
      else
        [.at_send_command "AT+CTEC?" [],
         .at_send_command "AT+CTEC=%d,\"%x\"" [.int (cur.getD 0), .int (net2pmask.getD v.toNat 0)]] := by
  obtain ⟨hp, hs⟩ := requestSetPreferredNetworkType_stores_mode g v q s g1 t1 h1 hset hok
  have hposs : networkModePossible g.sMdmInfo v = true := by
    by_contra hn
    unfold requestSetPreferredNetworkType at h1
    simp only [hn, Bool.not_false, if_true, Outcome.done.injEq] at h1
    rw [← h1.2] at hset
    simp [Event.isCommand] at hset
  have hposs1 : networkModePossible g1.sMdmInfo v = true := by
    unfold networkModePossible at hposs ⊢
    rw [hs]
    exact hposs
  rw [requestSetPreferredNetworkType_commands g1 v q2 s2 res cur pref hposs1 hq hres, hp]
  have hfix := net2pmask_fixed v hv.1 hv.2
  by_cases h123 : v = 1 ∨ v = 2 ∨ v = 3
  · have : ¬ (v ≠ net2pmask.getD v.toNat 0) := by
      rw [not_not]; exact (hfix.mpr h123).symm
    rw [if_neg this, if_pos h123]
  · have : v ≠ net2pmask.getD v.toNat 0 := fun e => h123 (hfix.mp e.symm)
    rw [if_pos this, if_neg h123]

/-! ## Registration reply -/

/-- C25 (as stated): the claim fails for the network type.  On the data
registration response `+CGREG: 1,1,1a,2b,a` the parsed network type is 10, whose
hexadecimal string is `a`, and the reply carries the decimal string `10`; on the
voice registration response `+CREG: 1,1,1a,2b`, which carries no network type, the
reply has the network type entry `0`. -/
theorem C25_network_type_is_decimal :
    parseRegistrationState 0 cgregFiveFields =
      .ret (some { type := some .GPRS, items := 5, response := [1, 26, 43, 10, 0] }) ∧
    fmtHex 10 = "a".toList ∧
    (requestRegistrationState radioOn .DATA_REGISTRATION_STATE
        (.final true [cgregFiveFields])).trace =
      [.at_send_command "AT+CGREG?" [],
       .RIL_onRequestComplete .SUCCESS (.strings
         [some "1".toList, some "1a".toList, some "2b".toList, some "10".toList, none, none])] ∧
    ((requestRegistrationState radioOn .VOICE_REGISTRATION_STATE
        (.final true [cregFourFields])).trace.map fun e =>
      match e with
      | .RIL_onRequestComplete _ (.strings l) => l.take 4
      | _ => []) =
      [[], [some "1".toList, some "1a".toList, some "2b".toList, some "0".toList]] := by
  decide

/-- C25 (amended): when the current technology is not of the 3GPP2 family and
the registration response parses with three values (stat, lac, cid) or with five
fields (n, stat, lac, cid, networkType), `requestRegistrationState` completes
with SUCCESS; the reply has stat as a decimal string at entry 0, lac and cid as
hexadecimal strings at entries 1 and 2 when they are not negative (no entry for
a negative value), the network type as a decimal string at entry 3 when the
response had five fields and no entry 3 when it had three values; all further
entries are empty. -/
theorem C25_registration_reply (g : Globals) (success : Bool) (line : List Char)
    (rest : List (List Char)) (stat lac cid nt : Int)
    (htech : is3gpp2 (techFromModemType g.sMdmInfo.currentTech) = false) :
    (parseRegistrationState g.sMdmInfo.currentTech line =
        .ret (some { type := techFromModemType g.sMdmInfo.currentTech, items := 3,
                     response := [stat, lac, cid] }) →
      requestRegistrationState g .VOICE_REGISTRATION_STATE (.final success (line :: rest)) =
        .done g [.at_send_command "AT+CREG?" [],
          .RIL_onRequestComplete .SUCCESS (.strings
            ([some (fmtDec stat), hexEntry lac, hexEntry cid] ++ List.replicate 12 none))] ∧
      requestRegistrationState g .DATA_REGISTRATION_STATE (.final success (line :: rest)) =
        .done g [.at_send_command "AT+CGREG?" [],
          .RIL_onRequestComplete .SUCCESS (.strings
            ([some (fmtDec stat), hexEntry lac, hexEntry cid] ++ List.replicate 3 none))]) ∧
    (parseRegistrationState g.sMdmInfo.currentTech line =
        .ret (some { type := techFromModemType g.sMdmInfo.currentTech, items := 5,
                     response := [stat, lac, cid, nt, 0] }) →
      requestRegistrationState g .VOICE_REGISTRATION_STATE (.final success (line :: rest)) =
        .done g [.at_send_command "AT+CREG?" [],
          .RIL_onRequestComplete .SUCCESS (.strings
            ([some (fmtDec stat), hexEntry lac, hexEntry cid, some (fmtDec nt)] ++
              List.replicate 11 none))] ∧
      requestRegistrationState g .DATA_REGISTRATION_STATE (.final success (line :: rest)) =
        .done g [.at_send_command "AT+CGREG?" [],
          .RIL_onRequestComplete .SUCCESS (.strings
            ([some (fmtDec stat), hexEntry lac, hexEntry cid, some (fmtDec nt)] ++
              List.replicate 2 none))]) := by
  constructor
  · intro hp
    constructor <;>
    · unfold requestRegistrationState
      simp only [hp, htech]
      by_cases h1 : lac ≥ 0 <;> by_cases h2 : cid ≥ 0 <;>
        simp [loadInt, Run.bind, hexEntry, h1, h2, List.replicate, List.set]
  · intro hp
    constructor <;>
    · unfold requestRegistrationState
      simp only [hp, htech]
      by_cases h1 : lac ≥ 0 <;> by_cases h2 : cid ≥ 0 <;>
        simp [loadInt, Run.bind, hexEntry, h1, h2, List.replicate, List.set]

/-- C25 at an example: the data registration response `+CGREG: 1,1,1a,2b,a` on a
GSM modem. -/
theorem C25_registration_reply_example :
    requestRegistrationState radioOn .DATA_REGISTRATION_STATE
        (.final true [cgregFiveFields]) =
      .done radioOn [.at_send_command "AT+CGREG?" [],
        .RIL_onRequestComplete .SUCCESS (.strings
          ([some (fmtDec 1), hexEntry 26, hexEntry 43, some (fmtDec 10)] ++
            List.replicate 2 none))] :=
  ((C25_registration_reply radioOn true cgregFiveFields [] 1 26 43 10 (by decide)).2
    (by decide)).2

/-! ## Broadcast SMS decoding -/

theorem cbmNibble_lower (c : Char) (h : c ∈ lowerHexDigits) :
    cbmNibble c % 16 = hexValue c := by
  have key : ∀ c ∈ lowerHexDigits, cbmNibble c % 16 = hexValue c := by decide
  exact key c h

theorem cbmDecode_length (pdu : List Char) : (cbmDecode pdu).length = pdu.length / 2 := by
  induction pdu using cbmDecode.induct with
  | case1 hi lo rest ih =>
    simp only [cbmDecode, List.length_cons, ih]
    omega
  | case2 pdu h =>
    cases pdu with
    | nil => rfl
    | cons a t =>
      cases t with
      | nil => simp [cbmDecode]
      | cons b u => exact absurd rfl (h a b u)

theorem cbmDecode_getD (pdu : List Char) (i : Nat) (hi : i < pdu.length / 2) :
    (cbmDecode pdu).getD i 0 =
      (cbmNibble (pdu.getD (2 * i) '0') % 16) * 16 + cbmNibble (pdu.getD (2 * i + 1) '0') % 16 := by
  induction pdu using cbmDecode.induct generalizing i with
  | case1 hi1 lo rest ih =>
    cases i with
    | zero => simp [cbmDecode]
    | succ j =>
      have hj : j < rest.length / 2 := by
        simp only [List.length_cons] at hi
        omega
      have e1 : 2 * (j + 1) = (2 * j) + 1 + 1 := by ring
      have e2 : 2 * (j + 1) + 1 = (2 * j + 1) + 1 + 1 := by ring
      simp only [cbmDecode, List.getD_cons_succ, e1, e2]
      exact ih j hj
  | case2 pdu h =>
    cases pdu with
    | nil => simp at hi
    | cons a t =>
      cases t with
      | nil =>
        simp only [List.length_singleton] at hi
        omega
      | cons b u => exact absurd rfl (h a b u)

theorem unsolKind_of_CBM (b : Build) (s : List Char)
    (h : strStartsWith s "+CBM:".toList = true) : unsolKind b s = .CBM := by
  unfold strStartsWith at h
  obtain ⟨t, rfl⟩ := List.isPrefixOf_iff_prefix.mp h
  show unsolKind b ('+' :: 'C' :: 'B' :: 'M' :: ':' :: t) = UnsolKind.CBM
  simp [unsolKind, strStartsWith]

/-- C26 (as stated): the claim fails on a payload with an upper-case digit: for
the PDU line `1A` the forwarded byte is 0x11 = 17, while 16*hex('1') + hex('A')
is 26. -/
theorem C26_upper_case_digit_decoded_wrongly :
    (onUnsolicited tiBuild radioOn "+CBM: 2".toList (pduEnv "1A".toList)).trace =
      [.RIL_onUnsolicitedResponse .RESPONSE_NEW_BROADCAST_SMS (.bytes [17])] ∧
    16 * hexValue '1' + hexValue 'A' = 26 := by
  decide

/-- C26 (amended): for every `+CBM` payload made of 2n hexadecimal digits out of
0-9 and a-f, `onUnsolicited` (radio not Unavailable) forwards one broadcast-SMS
notification of exactly n bytes in which byte i has the value
16*hex(d[2i]) + hex(d[2i+1]). -/
theorem C26_cbm_lower_case_decoding (b : Build) (g : Globals) (s pdu : List Char)
    (env : UnsolEnv) (n : Nat)
    (hs : g.sState ≠ .UNAVAILABLE) (hline : strStartsWith s "+CBM:".toList = true)
    (hpdu : env.sms_pdu = some pdu) (hlen : pdu.length = 2 * n)
    (hdig : ∀ c ∈ pdu, c ∈ lowerHexDigits) :
    ∃ bytes, onUnsolicited b g s env =
        .done g [.RIL_onUnsolicitedResponse .RESPONSE_NEW_BROADCAST_SMS (.bytes bytes)] ∧
      bytes.length = n ∧
      ∀ i, i < n → bytes.getD i 0 =
        16 * hexValue (pdu.getD (2 * i) '0') + hexValue (pdu.getD (2 * i + 1) '0') := by
  refine ⟨cbmDecode pdu, ?_, ?_, ?_⟩
  · unfold onUnsolicited
    rw [if_neg hs, unsolKind_of_CBM b s hline]
    simp [onUnsolicited_forward, hpdu]
  · rw [cbmDecode_length, hlen]
    omega
  · intro i hi
    have h2 : i < pdu.length / 2 := by omega
    have hm0 : pdu.getD (2 * i) '0' ∈ pdu := by
      rw [List.getD_eq_getElem _ _ (by omega)]
      exact List.getElem_mem _
    have hm1 : pdu.getD (2 * i + 1) '0' ∈ pdu := by
      rw [List.getD_eq_getElem _ _ (by omega)]
      exact List.getElem_mem _
    rw [cbmDecode_getD pdu i h2, cbmNibble_lower _ (hdig _ hm0), cbmNibble_lower _ (hdig _ hm1)]
    ring

/-- C26 at an example: the payload `0a1f`. -/
theorem C26_cbm_example :
    ∃ bytes, onUnsolicited tiBuild radioOn "+CBM: 2".toList (pduEnv "0a1f".toList) =
        .done radioOn
          [.RIL_onUnsolicitedResponse .RESPONSE_NEW_BROADCAST_SMS (.bytes bytes)] ∧
      bytes.length = 2 ∧
      ∀ i, i < 2 → bytes.getD i 0 =
        16 * hexValue ("0a1f".toList.getD (2 * i) '0') +
          hexValue ("0a1f".toList.getD (2 * i + 1) '0') :=
  C26_cbm_lower_case_decoding tiBuild radioOn "+CBM: 2".toList "0a1f".toList
    (pduEnv "0a1f".toList) 2 (by decide) (by decide) rfl (by decide) (by decide)

/-! ## Call index range -/

/-- C27 (failing input): `callFromCLCCLine` accepts a line with call index 8 (and
one with index 0); when such a call is incoming and a caller name is pending,
`requestGetCurrentCalls` writes `sCnapInfoList[7]` (resp. `sCnapInfoList[-1]`),
outside the 7-entry array. -/
theorem C27_call_index_is_not_range_checked :
    callFromCLCCLine "+CLCC: 8,1,4,0,0".toList RIL_Call.zero =
      (0, { RIL_Call.zero with index := 8, isMT := true, state := .INCOMING,
                               isVoice := true }) ∧
    requestGetCurrentCalls tiBuild bobPending (.final true ["+CLCC: 8,1,4,0,0".toList]) =
      .crash [.at_send_command "AT+CLCC" []] ∧
    (callFromCLCCLine "+CLCC: 0,1,4,0,0".toList RIL_Call.zero).1 = 0 ∧
    requestGetCurrentCalls tiBuild bobPending (.final true ["+CLCC: 0,1,4,0,0".toList]) =
      .crash [.at_send_command "AT+CLCC" []] :=
  ⟨by decide, rfl, by decide, rfl⟩

/-! ## Repoll counter invariant -/

theorem workaroundHit_lines (prev cur expect count : Int) (calls : List RIL_Call)
    (h : workaroundHit prev cur expect count calls = true) : prev ≥ 0 ∧ cur < 0 := by
  unfold workaroundHit at h
  simp only [Bool.and_eq_true, decide_eq_true_eq] at h
  exact ⟨h.1.1.1, h.1.1.2⟩

theorem clccLoopBody_line_off (b : Build) (st st1 : ClccLoop) (line : List Char)
    (hb : b.WORKAROUND_ERRONEOUS_ANSWER = false) (h : clccLoopBody b st line = .ret st1) :
    st1.s_incomingOrWaitingLine = st.s_incomingOrWaitingLine := by
  have key : ∀ info list, (clccNext b st (callFromCLCCLine line st.slot).2 info
        list).s_incomingOrWaitingLine = st.s_incomingOrWaitingLine := by
    intro info list
    simp [clccNext, hb]
  by_cases hrc : (callFromCLCCLine line st.slot).1 = 0
  · by_cases hc : isIncomingOrWaiting ((callFromCLCCLine line st.slot).2.index,
        (callFromCLCCLine line st.slot).2.state) = true ∧ st.sCnapInfo.pending
    · by_cases hr : 1 ≤ (callFromCLCCLine line st.slot).2.index ∧
          (callFromCLCCLine line st.slot).2.index ≤ 7
      · rw [clccLoopBody_attach b st line hrc hc.1 hc.2 hr] at h
        rw [← Run.ret.inj h]
        exact key _ _
      · obtain ⟨p, hp, hpr⟩ : ∃ p, clccIndexState line = some p ∧ True :=
          ⟨_, clccIndexState_of_parse line st.slot hrc, trivial⟩
        have hr1 : ¬ (0 ≤ (callFromCLCCLine line st.slot).2.index - 1 ∧
            (callFromCLCCLine line st.slot).2.index - 1 < 7) := by omega
        have hc1 : ((decide ((callFromCLCCLine line st.slot).2.state = RIL_CallState.INCOMING) ||
              decide ((callFromCLCCLine line st.slot).2.state = RIL_CallState.WAITING)) = true ∧
            (st.sCnapInfo.name ≠ [] ∨
              (st.sCnapInfo.CNI_validity > 0 ∧ st.sCnapInfo.CNI_validity ≤ 2))) := hc
        unfold clccLoopBody at h
        dsimp only at h
        rw [if_neg (not_not.mpr hrc), if_pos hc1, dif_neg hr1] at h
        cases h
    · rw [clccLoopBody_plain b st line hrc hc] at h
      rw [← Run.ret.inj h]
      exact key _ _
  · obtain ⟨slot, hs⟩ := clccLoopBody_skip b st line (clccIndexState_of_fail line st.slot hrc)
    rw [hs] at h
    rw [← Run.ret.inj h]

theorem clccLoop_line_off (b : Build) (lines : List (List Char)) (st st1 : ClccLoop)
    (hb : b.WORKAROUND_ERRONEOUS_ANSWER = false) (h : clccLoop b st lines = .ret st1) :
    st1.s_incomingOrWaitingLine = st.s_incomingOrWaitingLine := by
  induction lines generalizing st with
  | nil =>
    simp only [clccLoop] at h
    rw [← Run.ret.inj h]
  | cons line rest ih =>
    unfold clccLoop at h
    cases hbody : clccLoopBody b st line with
    | fault => simp [hbody, Run.bind] at h
    | ret st2 =>
      simp only [hbody, Run.bind] at h
      rw [ih st2 h, clccLoopBody_line_off b st st2 line hb hbody]

theorem requestGetCurrentCalls_invariant (b : Build) (g g1 : Globals) (reply : ATReply)
    (trace : List Event) (h : requestGetCurrentCalls b g reply = .done g1 trace)
    (hg : RepollInvariant g) : RepollInvariant g1 := by
  unfold requestGetCurrentCalls at h
  cases reply with
  | failed =>
    simp only [Outcome.done.injEq] at h
    rw [← h.1]
    unfold RepollInvariant at hg ⊢
    split
    · rcases hg with h0 | ⟨h1, -⟩
      · exact Or.inl h0
      · exact Or.inr ⟨h1, by show (-1 : Int) < 0; decide⟩
    · exact hg
  | final success lines =>
    cases success with
    | false =>
      simp only [Outcome.done.injEq] at h
      rw [← h.1]
      unfold RepollInvariant at hg ⊢
      split
      · rcases hg with h0 | ⟨h1, -⟩
        · exact Or.inl h0
        · exact Or.inr ⟨h1, by show (-1 : Int) < 0; decide⟩
      · exact hg
    | true =>
      cases hb : b.WORKAROUND_ERRONEOUS_ANSWER
      · simp only [hb, Bool.false_eq_true, if_false, Bool.false_and] at h
        split at h
        · cases h
        · rename_i st hloop
          simp only [Outcome.done.injEq] at h
          rw [← h.1]
          have hl : st.s_incomingOrWaitingLine = g.s_incomingOrWaitingLine :=
            clccLoop_line_off b lines _ st hb hloop
          unfold RepollInvariant at hg ⊢
          dsimp only
          rw [hl]
          exact hg
      · simp only [hb, if_true, Bool.true_and] at h
        split at h
        · cases h
        · split at h
          · rename_i hhit
            obtain ⟨hp, hc⟩ := workaroundHit_lines _ _ _ _ _ hhit
            simp only [Outcome.done.injEq] at h
            rw [← h.1]
            unfold RepollInvariant at hg ⊢
            dsimp only at hp hc ⊢
            rcases hg with h0 | ⟨-, h1⟩
            · exact Or.inr ⟨by rw [h0]; rfl, hc⟩
            · omega
          · simp only [Outcome.done.injEq] at h
            rw [← h.1]
            exact Or.inl rfl

theorem WorkaroundStep_invariant (b : Build) (g g1 : Globals) (hs : WorkaroundStep b g g1)
    (hg : RepollInvariant g) : RepollInvariant g1 := by
  cases hs with
  | poll reply trace h => exact requestGetCurrentCalls_invariant b g g1 reply trace h hg
  | answer env trace h =>
    unfold onRequest at h
    split at h
    · simp only [Outcome.done.injEq] at h
      rw [← h.1]; exact hg
    · simp only [Outcome.done.injEq] at h
      rw [← h.1]
      unfold RepollInvariant at hg ⊢
      split <;> exact hg
  | switchCalls env trace h =>
    unfold onRequest at h
    split at h
    · simp only [Outcome.done.injEq] at h
      rw [← h.1]; exact hg
    · simp only at h
      split at h
      · simp only [Outcome.done.injEq] at h
        rw [← h.1]
        unfold RepollInvariant at hg ⊢
        split <;> exact hg
      · simp only [Outcome.done.injEq] at h
        rw [← h.1]
        unfold RepollInvariant at hg ⊢
        split <;> exact hg
  | other hline hcount hexpect =>
    unfold RepollInvariant at hg ⊢
    rw [hcount, hline]; exact hg

theorem repolledOnce_reachable : WorkaroundReachable tiBuild gsmModem repolledOnce :=
  .step ringingOnLine1 repolledOnce
    (.step radioOn ringingOnLine1
      (.step (Globals.init gsmModem) radioOn .init (.other _ _ rfl rfl rfl))
      (.poll _ _ (.final true [clccIncomingLine])
        (requestGetCurrentCalls tiBuild radioOn (.final true [clccIncomingLine])).trace rfl))
    (.poll _ _ (.final true ["+CLCC: 1,1,0,0,0".toList])
      (requestGetCurrentCalls tiBuild ringingOnLine1
        (.final true ["+CLCC: 1,1,0,0,0".toList])).trace rfl)

/-- C28: in every state reachable from the static initialisers (tracker -1,
counter 0, flag 0) by call-list polls with arbitrary replies (command failures
included), answer and switch requests, and any other activity that leaves the
workaround statics alone, the repoll counter is 0, or it is 1 and no incoming or
waiting line is recorded; so the counter is at most 1, a poll failed by the
workaround is never followed directly by a second such failure, and the ceiling
of 4 is never reached (with the workaround enabled or not). -/
theorem C28_repoll_counter_at_most_1 (b : Build) (mdm : ModemInfo) (g : Globals)
    (h : WorkaroundReachable b mdm g) :
    RepollInvariant g ∧ 0 ≤ g.s_repollCallsCount ∧ g.s_repollCallsCount ≤ 1 ∧
    ∀ reply g1 t1, requestGetCurrentCalls b g reply = .done g1 t1 →
      g1.s_repollCallsCount = g.s_repollCallsCount + 1 →
      ∀ reply2 g2 t2, requestGetCurrentCalls b g1 reply2 = .done g2 t2 →
        g2.s_repollCallsCount ≤ g1.s_repollCallsCount := by
  have hinv : RepollInvariant g := by
    induction h with
    | init => exact Or.inl rfl
    | step g g1 _ hs ih => exact WorkaroundStep_invariant b g g1 hs ih
  refine ⟨hinv, ?_, ?_, ?_⟩
  · rcases hinv with h0 | ⟨h1, -⟩ <;> omega
  · rcases hinv with h0 | ⟨h1, -⟩ <;> omega
  · intro reply g1 t1 hp hinc reply2 g2 t2 hp2
    have hinv1 := requestGetCurrentCalls_invariant b g g1 reply t1 hp hinv
    have hinv2 := requestGetCurrentCalls_invariant b g1 g2 reply2 t2 hp2 hinv1
    rcases hinv with h0 | ⟨h1, -⟩ <;> rcases hinv1 with h3 | ⟨h4, -⟩ <;>
      rcases hinv2 with h5 | ⟨h6, -⟩ <;> omega

/-- C28 at an example: the state after a poll with an incoming call and a poll
that reports it active without an answer request; the counter is 1. -/
theorem C28_repoll_counter_example :
    repolledOnce.s_repollCallsCount = 1 ∧
    RepollInvariant repolledOnce ∧ 0 ≤ repolledOnce.s_repollCallsCount ∧
    repolledOnce.s_repollCallsCount ≤ 1 :=
  have h := C28_repoll_counter_at_most_1 tiBuild gsmModem repolledOnce repolledOnce_reachable
  ⟨by decide, h.1, h.2.1, h.2.2.1⟩

/-! ## Modem probing -/

theorem strsep_length (cs : List Char) (d : Char) (r : List Char)
    (h : (strsep cs d).2 = some r) : r.length < cs.length := by
  induction cs with
  | nil => simp [strsep] at h
  | cons c rest ih =>
    unfold strsep at h
    split_ifs at h with hc
    · simp only [Option.some.injEq] at h
      subst h
      simp
    · have := ih h
      simp only [List.length_cons]
      omega

theorem skipNextComma_length (cs : List Char) : (skipNextComma cs).length ≤ cs.length := by
  induction cs with
  | nil => simp [skipNextComma]
  | cons c rest ih =>
    unfold skipNextComma
    split_ifs
    · simp
    · simp only [List.length_cons]
      omega

theorem dropWhile_length (p : Char → Bool) (cs : List Char) :
    (cs.dropWhile p).length ≤ cs.length := by
  induction cs with
  | nil => simp
  | cons c rest ih =>
    simp only [List.dropWhile_cons]
    split
    · simp only [List.length_cons]; omega
    · exact le_refl _

theorem nextTok_length (cs r : List Char) (h : (nextTok cs).2 = some r) :
    r.length < cs.length := by
  unfold nextTok at h
  have hd := dropWhile_length isspace cs
  cases hcs : cs.dropWhile isspace with
  | nil => simp [hcs] at h
  | cons c rest =>
    rw [hcs] at hd
    simp only [hcs] at h
    simp only [List.length_cons] at hd
    split_ifs at h with hq
    · cases hsep : strsep rest dquote with
      | mk tok q =>
        cases q with
        | none => simp [hsep] at h
        | some r0 =>
          simp only [hsep, Option.some.injEq] at h
          subst h
          have h1 := strsep_length rest dquote r0 (by rw [hsep])
          have h2 := skipNextComma_length r0
          omega
    · have h1 := strsep_length (c :: rest) ',' r h
      simp only [List.length_cons] at h1
      omega

theorem at_tok_nextint_cursorLen (p q : Cursor) (v : Int)
    (h : at_tok_nextint p = some (v, q)) : cursorLen q < cursorLen p := by
  obtain ⟨t, ht⟩ := at_tok_nextint_cursor h
  cases p with
  | none => simp [at_tok_nextstr] at ht
  | some cs =>
    simp only [at_tok_nextstr, Option.some.injEq] at ht
    cases q with
    | none => simp [cursorLen]
    | some r =>
      have := nextTok_length cs r (by rw [ht])
      simp only [cursorLen]
      omega

/-- The fuel of `supportedTechsLoop` suffices as soon as it exceeds the length of
the cursor: more fuel gives the same result. -/
theorem supportedTechsLoop_fuel (fuel : Nat) (line : Cursor) (techs : Nat)
    (h : cursorLen line < fuel) :
    supportedTechsLoop (fuel + 1) line techs = supportedTechsLoop fuel line techs := by
  induction fuel generalizing line techs with
  | zero => omega
  | succ n ih =>
    rw [supportedTechsLoop]
    conv_rhs => rw [supportedTechsLoop]
    cases hn : at_tok_nextint line with
    | none => rfl
    | some r =>
      obtain ⟨val, rest⟩ := r
      have hl := at_tok_nextint_cursorLen line rest val hn
      simp only
      split_ifs
      · exact ih rest _ (by omega)
      · rfl

/-- In `query_supported_techs` the loop runs on the cursor behind the prefix of
the line, which is shorter than the line: its fuel suffices. -/
theorem at_tok_start_cursorLen (line : List Char) (p : Cursor)
    (h : at_tok_start line = some p) : cursorLen p < line.length + 1 := by
  induction line with
  | nil => simp [at_tok_start] at h
  | cons c rest ih =>
    unfold at_tok_start at h
    split_ifs at h with hc
    · simp only [Option.some.injEq] at h
      subst h
      simp [cursorLen]
    · have := ih h
      simp only [List.length_cons]
      omega

/-- The loop of `query_supported_techs` never runs out of fuel: any larger
amount gives the same mask. -/
theorem query_supported_techs_fuel (line : List Char) (p : Cursor) (k : Nat)
    (h : at_tok_start line = some p) :
    supportedTechsLoop (line.length + 1 + k) p 0 = supportedTechsLoop (line.length + 1) p 0 := by
  have hl := at_tok_start_cursorLen line p h
  induction k with
  | zero => rfl
  | succ n ih =>
    rw [← ih]
    exact supportedTechsLoop_fuel (line.length + 1 + n) p 0 (by omega)

/-- Whenever `is_multimode_modem` returns 0, `probeForModemMode` leaves the
constants of its CDMA branch when `AT+WNAM` is accepted and those of its GSM
branch when not. -/
theorem probeForModemMode_not_multimode (info m1 : ModemInfo) (ctecQuery ctecTest wnam : ATReply)
    (h : is_multimode_modem info ctecQuery ctecTest = .ret (0, m1)) :
    probeForModemMode info ctecQuery ctecTest wnam =
      match wnam with
      | .final true _ => .ret (cdmaProbed m1)
      | _ => .ret (gsmProbed m1) := by
  unfold probeForModemMode
  rw [h]
  cases wnam with
  | failed => rfl
  | final success lines => cases success <;> rfl

/-- C29 (failing input): when `AT+CTEC?` fails and `AT+WNAM` is accepted,
`probeForModemMode` leaves `currentTech` = `MDM_CDMA` = 4 and `supportedTechs` =
`MDM_CDMA|MDM_EVDO`; `TECH_BIT` is then `1 << 4` = `MDM_LTE`, which is no bit of
`supportedTechs` and none of `MDM_CDMA|MDM_EVDO`, so that the `default` case of
`onRequest` takes the GSM table. -/
theorem C29_cdma_modem_gets_the_LTE_bit (info : ModemInfo) (ctecTest : ATReply)
    (lines : List (List Char)) :
    probeForModemMode info .failed ctecTest (.final true lines) = .ret (cdmaProbed info) ∧
    (cdmaProbed info).isMultimode = 0 ∧
    (cdmaProbed info).supportedTechs = MDM_CDMA ||| MDM_EVDO ∧
    TECH_BIT (cdmaProbed info) = MDM_LTE ∧
    TECH_BIT (cdmaProbed info) &&& (cdmaProbed info).supportedTechs = 0 ∧
    cdmaSpecificRequest (cdmaProbed info) = false := by
  have h1 : TECH_BIT (cdmaProbed info) = 16 := rfl
  have h2 : (cdmaProbed info).supportedTechs = 12 := rfl
  refine ⟨rfl, rfl, rfl, rfl, ?_, ?_⟩
  · rw [h1, h2]; decide
  · unfold cdmaSpecificRequest
    rw [h1]; decide

/-- The GSM branch of `probeForModemMode` (neither `AT+CTEC?` nor `AT+WNAM`
accepted): `currentTech` = `MDM_GSM` = 1, so `TECH_BIT` is `MDM_WCDMA`, a bit of
`supportedTechs`, and the `default` case of `onRequest` takes the GSM table. -/
theorem probeForModemMode_gsm (info : ModemInfo) (ctecTest : ATReply) :
    probeForModemMode info .failed ctecTest .failed = .ret (gsmProbed info) ∧
    TECH_BIT (gsmProbed info) = MDM_WCDMA ∧
    TECH_BIT (gsmProbed info) &&& (gsmProbed info).supportedTechs = MDM_WCDMA ∧
    cdmaSpecificRequest (gsmProbed info) = false := by
  have h1 : TECH_BIT (gsmProbed info) = 2 := rfl
  have h2 : (gsmProbed info).supportedTechs = 19 := rfl
  refine ⟨rfl, rfl, ?_, ?_⟩
  · rw [h1, h2]; decide
  · unfold cdmaSpecificRequest
    rw [h1]; decide

/-! ## Context id range in findFreeCid -/

/-- C30 (failing input): with three data contexts, an active line with the
context id 0 (or a negative id) passes the test `cid > s_maxDataContexts` and
`findFreeCid` stores its state at `dataStates[cid - 1]`, in front of the
array. -/
theorem C30_low_context_id_written_out_of_bounds :
    cgactLine "+CGACT: 0,1".toList = some (0, 1) ∧
    findFreeCid 3 (.final true ["+CGACT: 0,1".toList]) = Run.fault ∧
    cgactLine "+CGACT: -4,1".toList = some (-4, 1) ∧
    findFreeCid 3 (.final true ["+CGACT: 1,1".toList, "+CGACT: -4,1".toList]) = Run.fault := by
  decide

/-- One iteration of the `+CGACT:` loop of `findFreeCid` on an active line: an
id above `s_maxDataContexts` is skipped, an id in 1..`s_maxDataContexts` is
recorded at position `cid - 1`, an id below 1 is a write in front of the
array. -/
theorem findFreeCid_loop_active (s_maxDataContexts : Int) (ds : List Int) (line : List Char)
    (rest : List (List Char)) (cid state : Int) (hline : cgactLine line = some (cid, state))
    (hs : state ≠ 0) (hlen : (ds.length : Int) = s_maxDataContexts) :
    (cid > s_maxDataContexts →
      findFreeCid_loop s_maxDataContexts ds (line :: rest) =
        findFreeCid_loop s_maxDataContexts ds rest) ∧
    (1 ≤ cid → cid ≤ s_maxDataContexts →
      findFreeCid_loop s_maxDataContexts ds (line :: rest) =
        findFreeCid_loop s_maxDataContexts (ds.set (cid - 1).toNat state) rest) ∧
    (cid < 1 → findFreeCid_loop s_maxDataContexts ds (line :: rest) = .fault) := by
  refine ⟨?_, ?_, ?_⟩
  · intro h
    simp [findFreeCid_loop, hline, hs, h]
  · intro h1 h2
    have h3 : ¬ cid > s_maxDataContexts := by omega
    have h4 : 0 ≤ cid - 1 ∧ cid - 1 < (ds.length : Int) := by omega
    simp [findFreeCid_loop, hline, hs, h3, storeInt, h4, Run.bind]
  · intro h
    have h3 : ¬ cid > s_maxDataContexts := by omega
    have h4 : ¬ (1 ≤ cid) := by omega
    simp [findFreeCid_loop, hline, hs, h3, storeInt, h4, Run.bind]

end ReferenceRil
